import Mathlib

/-! glmark2: GL 4.1 scenes, capability probing and shader source rewriting

A shallow embedding of `src/scene-gl41.cpp` (the six macOS GL 4.1 scenes), of
`GLExtensions::support` and `GLExtensions::is_core_profile` from
`src/gl-headers.cpp`, and of the string helpers of `src/libmatrix/program.cc`.

Conventions of the embedding

* A GL object name (`GLuint`) and a sync object (`GLsync`) are natural numbers;
  `0` is the "not allocated" sentinel (`0` / `nullptr`).
* `unsigned` is 32 bits wide, `unsigned long` and `size_t` are 64 bits wide
  (LP64, the only target of this translation unit, which is guarded by
  `GLMARK2_USE_MACOS`).  A conversion to `unsigned` is `% 2 ^ 32`.
* Every scene operation is a function from the private record (and, where the
  operation queries the context, the context state) to the new record and
  the list of driver calls it issues, in program order.  Values answered by
  the driver (generated names, compile and link status, attribute locations,
  wait results, ...) are fields of an environment record, one per operation.
* Pure queries (`glGet*`, `glIsEnabled`, `dlsym`) are not recorded in the call
  list; their answers are read from the environment or the context state.
* Buffer and texture contents are floating point data and are not modelled;
  the byte sizes of the uploads are.
* A `std::string` is a `String`, scanned as its list of characters; positions
  are indices into that list and `npos` is `none`.
* A loop whose number of iterations is not fixed by its input takes a bound
  on the iterations as first argument; the statements about such a loop show
  that the bound used is large enough.
-/

/-! ## Machine integers -/

/-- Number of values of a C++ `unsigned` (32 bits). -/
def UINT_RANGE : Nat := 2 ^ 32

/-- Largest `unsigned long` / `unsigned long long` / `size_t` (64 bits). -/
def ULONG_MAX : Nat := 2 ^ 64 - 1

/-- The conversion `static_cast<unsigned>(x)` of a 64-bit unsigned value. -/
def toUnsigned (x : Nat) : Nat := x % UINT_RANGE

/-! ## The standard library number parsers

`std::stoul` and `std::stoull` are not part of the repository; they are the
C++ standard library wrappers of `strtoul` / `strtoull` with base 10.  On the
LP64 target both produce a 64-bit value.  `none` stands for a thrown
exception (`std::invalid_argument` or `std::out_of_range`). -/

/-- The C locale `isspace`: space, and the controls tab .. carriage return. -/
def isspace (c : Char) : Bool :=
  c.toNat = 32 || (9 ≤ c.toNat && c.toNat ≤ 13)

/-- The C locale `isdigit`. -/
def isdigit (c : Char) : Bool := 48 ≤ c.toNat && c.toNat ≤ 57

/-- Value of a run of decimal digits, most significant first. -/
def digitsValue (ds : List Char) : Nat :=
  ds.foldl (fun acc c => 10 * acc + (c.toNat - 48)) 0

/-- Base 10 `strtoul` followed by the checks of `std::stoul`: leading white
space is skipped, one optional sign is read, then the longest run of digits.
No digit: `std::invalid_argument`.  Magnitude above `ULONG_MAX`:
`std::out_of_range`.  With a minus sign the value is negated in the
unsigned 64-bit type.  Characters after the digits are ignored. -/
def strtoul10 (cs : List Char) : Option Nat :=
  let body := cs.dropWhile isspace
  let neg : Bool := body.head?.map Char.toNat = some 45
  let signed : Bool := neg || body.head?.map Char.toNat = some 43
  let rest := if signed then body.tail else body
  let ds := rest.takeWhile isdigit
  if ds = [] then none
  else if digitsValue ds > ULONG_MAX then none
  else some (if neg then (2 ^ 64 - digitsValue ds) % 2 ^ 64 else digitsValue ds)

/-- Model of `std::stoul(str)`; `none` when it throws. -/
def stoul (s : String) : Option Nat := strtoul10 s.data

/-- Model of `std::stoull(str)`; `none` when it throws. -/
def stoull (s : String) : Option Nat := strtoul10 s.data

/-- A `float` value as far as the scenes use it: compared with literals and
handed to the driver.  A finite value is the rational it denotes; rounding of
literals to binary32 is not modelled. -/
inductive FloatVal where
  | nan
  | negInf
  | posInf
  | finite (q : ℚ)
deriving DecidableEq

/-- The `<` of IEEE floats: false as soon as one side is a NaN. -/
def FloatVal.lt : FloatVal → FloatVal → Bool
  | .finite a, .finite b => decide (a < b)
  | .negInf, .finite _ => true
  | .negInf, .posInf => true
  | .finite _, .posInf => true
  | _, _ => false

/-! ## Driver calls -/

inductive LogLevel where
  | info
  | error
deriving DecidableEq, Repr

inductive ShaderType where
  | VERTEX_SHADER
  | FRAGMENT_SHADER
  | GEOMETRY_SHADER
deriving DecidableEq, Repr

inductive BufferTarget where
  | ARRAY_BUFFER
  | UNIFORM_BUFFER
deriving DecidableEq, Repr

inductive FramebufferTarget where
  | FRAMEBUFFER
  | READ_FRAMEBUFFER
  | DRAW_FRAMEBUFFER
deriving DecidableEq, Repr

inductive TextureTarget where
  | TEXTURE_2D
  | TEXTURE_2D_ARRAY
deriving DecidableEq, Repr

inductive Capability where
  | DEPTH_TEST
  | CULL_FACE
  | BLEND
  | SCISSOR_TEST
  | STENCIL_TEST
deriving DecidableEq, Repr

inductive DrawMode where
  | POINTS
  | TRIANGLES
deriving DecidableEq, Repr

def GL_INVALID_INDEX : Nat := 0xFFFFFFFF
def GL_LESS : Nat := 0x0201
def GL_BACK : Nat := 0x0405
def GL_TEXTURE0 : Nat := 0x84C0
def GL_COLOR_ATTACHMENT0 : Nat := 0x8CE0
def GL_FRAMEBUFFER_COMPLETE : Nat := 0x8CD5
def GL_ALREADY_SIGNALED : Nat := 0x911A
def GL_TIMEOUT_EXPIRED : Nat := 0x911B
def GL_CONDITION_SATISFIED : Nat := 0x911C
def GL_WAIT_FAILED : Nat := 0x911D
def GL_SYNC_FLUSH_COMMANDS_BIT : Nat := 0x00000001
def GL_MAP_WRITE_BIT : Nat := 0x0002
def GL_MAP_INVALIDATE_BUFFER_BIT : Nat := 0x0008
def GL_VERTEX_SHADER_BIT : Nat := 0x00000001
def GL_FRAGMENT_SHADER_BIT : Nat := 0x00000002
def GL_ONE : Nat := 1
def GL_SRC_ALPHA : Nat := 0x0302
def GL_ONE_MINUS_SRC_ALPHA : Nat := 0x0303
def GL_FUNC_ADD : Nat := 0x8006
def GL_NO_ERROR : Nat := 0
def GL_CONTEXT_CORE_PROFILE_BIT : Nat := 0x00000001

/-- One entry of the call list of an operation: a driver call with the
arguments the scenes vary (and, for calls that answer, the answer), a log
line (printf arguments dropped), or the client write through a mapped
pointer. -/
inductive GLCall where
  | Log (level : LogLevel) (msg : String)
  | CreateShader (type : ShaderType) (result : Nat)
  | ShaderSource (shader : Nat)
  | CompileShader (shader : Nat)
  | DeleteShader (shader : Nat)
  | CreateProgram (result : Nat)
  | AttachShader (program shader : Nat)
  | LinkProgram (program : Nat)
  | DeleteProgram (program : Nat)
  | UseProgram (program : Nat)
  | ProgramParameteri (program : Nat)
  | BindFragDataLocation (program color : Nat) (name : String)
  | UniformBlockBinding (program block binding : Nat)
  | Uniform1i (location : Int) (v : Int)
  | Uniform1f (location : Int) (v : FloatVal)
  | Uniform2f (location : Int) (v0 v1 : FloatVal)
  | UniformMatrix4fv (location : Int)
  | GenVertexArrays (result : Nat)
  | BindVertexArray (array : Nat)
  | DeleteVertexArrays (array : Nat)
  | GenBuffers (results : List Nat)
  | BindBuffer (target : BufferTarget) (buffer : Nat)
  | BufferData (target : BufferTarget) (size : Nat)
  | BufferSubData (target : BufferTarget) (offset size : Nat)
  | DeleteBuffers (buffer : Nat)
  | BindBufferBase (target : BufferTarget) (index buffer : Nat)
  | EnableVertexAttribArray (index : Nat)
  | VertexAttribPointer (index components stride offset : Nat)
  | VertexAttribDivisor (index divisor : Nat)
  | MapBufferRange (target : BufferTarget) (offset length access : Nat) (mapped : Bool)
  | MappedWrite (floats : Nat)
  | UnmapBuffer (target : BufferTarget) (result : Bool)
  | GenProgramPipelines (result : Nat)
  | BindProgramPipeline (pipeline : Nat)
  | UseProgramStages (pipeline stages program : Nat)
  | DeleteProgramPipelines (pipeline : Nat)
  | GenTextures (results : List Nat)
  | BindTexture (target : TextureTarget) (texture : Nat)
  | TexParameteri (target : TextureTarget)
  | TexImage2D (width height : Nat)
  | TexImage3D (width height depth : Nat)
  | TexSubImage3D (layer width height : Nat)
  | GenerateMipmap (target : TextureTarget)
  | DeleteTextures (textures : List Nat)
  | ActiveTexture (unit : Nat)
  | GenRenderbuffers (result : Nat)
  | BindRenderbuffer (renderbuffer : Nat)
  | RenderbufferStorage (width height : Nat)
  | GenFramebuffers (result : Nat)
  | BindFramebuffer (target : FramebufferTarget) (framebuffer : Nat)
  | FramebufferTexture2D (attachment texture : Nat)
  | FramebufferRenderbuffer (renderbuffer : Nat)
  | DrawBuffers (bufs : List Nat)
  | DeleteFramebuffers (framebuffer : Nat)
  | DeleteRenderbuffers (renderbuffer : Nat)
  | BlitFramebuffer (srcW srcH dstW dstH : Int)
  | ReadBuffer (src : Nat)
  | Enable (cap : Capability)
  | Disable (cap : Capability)
  | Enablei (cap : Capability) (index : Nat)
  | Disablei (cap : Capability) (index : Nat)
  | BlendFunci (index src dst : Nat)
  | BlendEquationi (index mode : Nat)
  | DepthFunc (func : Nat)
  | Viewport (x y w h : Int)
  | ColorMask (r g b a : Bool)
  | ClearColor
  | Clear
  | Finish
  | DrawArrays (mode : DrawMode) (first : Nat) (count : Int)
  | DrawArraysInstanced (mode : DrawMode) (first count : Nat) (instances : Int)
  | FenceSync (result : Nat)
  | ClientWaitSync (sync flags timeout : Nat) (result : Nat)
  | DeleteSync (sync : Nat)

/-- The idiom `if (h) { destroy(h); h = 0; }`: the call it issues. -/
def destroyCall (h : Nat) (call : Nat → GLCall) : List GLCall :=
  if h ≠ 0 then [call h] else []

/-- The idiom `if (h) { destroy(h); h = 0; }`: the value left in the field. -/
def destroyed (h : Nat) : Nat := if h ≠ 0 then 0 else h

/-- A driver call that releases a driver object owned by a scene record. -/
def GLCall.destroysResource : GLCall → Bool
  | .DeleteProgram _ => true
  | .DeleteVertexArrays _ => true
  | .DeleteBuffers _ => true
  | .DeleteProgramPipelines _ => true
  | .DeleteTextures _ => true
  | .DeleteFramebuffers _ => true
  | .DeleteRenderbuffers _ => true
  | .DeleteSync _ => true
  | .DeleteShader _ => true
  | _ => false

/-! ## Ambient context state -/

/-- The part of the GL context state the scenes read or change around a
draw.  Blend enable is kept per draw buffer (`glEnablei`); the read buffer
selector is state of the framebuffer object bound for reading. -/
structure GLState where
  read_fbo : Nat
  draw_fbo : Nat
  array_buffer : Nat
  uniform_buffer : Nat
  viewport : Int × Int × Int × Int
  depth_test : Bool
  cull_face : Bool
  blend : Nat → Bool
  scissor_test : Bool
  stencil_test : Bool
  depth_func : Nat
  color_mask : Bool × Bool × Bool × Bool
  active_texture : Nat
  read_buffer : Nat → Nat

/-- The answer of `glIsEnabled(cap)`; for `GL_BLEND` that of draw buffer 0. -/
def GLState.isEnabled (g : GLState) : Capability → Bool
  | .DEPTH_TEST => g.depth_test
  | .CULL_FACE => g.cull_face
  | .BLEND => g.blend 0
  | .SCISSOR_TEST => g.scissor_test
  | .STENCIL_TEST => g.stencil_test

/-- The effect of `glEnable(cap)` (`val = true`) and `glDisable(cap)`. -/
def GLState.setCap (g : GLState) (cap : Capability) (val : Bool) : GLState :=
  match cap with
  | .DEPTH_TEST => { g with depth_test := val }
  | .CULL_FACE => { g with cull_face := val }
  | .BLEND => { g with blend := fun _ => val }
  | .SCISSOR_TEST => { g with scissor_test := val }
  | .STENCIL_TEST => { g with stencil_test := val }

/-- The effect of `glEnablei(cap, i)` / `glDisablei(cap, i)`; only blending
is indexed. -/
def GLState.setCapIndexed (g : GLState) (cap : Capability) (i : Nat) (val : Bool) : GLState :=
  match cap with
  | .BLEND => { g with blend := fun j => if j = i then val else g.blend j }
  | _ => g

/-- Deleting the object bound to a binding point resets that binding to 0. -/
def unbindDeleted (deleted bound : Nat) : Nat :=
  if deleted ≠ 0 ∧ bound = deleted then 0 else bound

/-- The effect of one driver call on the tracked context state. -/
def GLState.apply (g : GLState) : GLCall → GLState
  | .BindBuffer .ARRAY_BUFFER b => { g with array_buffer := b }
  | .BindBuffer .UNIFORM_BUFFER b => { g with uniform_buffer := b }
  | .BindBufferBase .ARRAY_BUFFER _ b => { g with array_buffer := b }
  | .BindBufferBase .UNIFORM_BUFFER _ b => { g with uniform_buffer := b }
  | .DeleteBuffers b =>
      { g with array_buffer := unbindDeleted b g.array_buffer,
               uniform_buffer := unbindDeleted b g.uniform_buffer }
  | .BindFramebuffer .FRAMEBUFFER f => { g with read_fbo := f, draw_fbo := f }
  | .BindFramebuffer .READ_FRAMEBUFFER f => { g with read_fbo := f }
  | .BindFramebuffer .DRAW_FRAMEBUFFER f => { g with draw_fbo := f }
  | .DeleteFramebuffers f =>
      { g with read_fbo := unbindDeleted f g.read_fbo,
               draw_fbo := unbindDeleted f g.draw_fbo }
  | .ReadBuffer src =>
      { g with read_buffer := fun f => if f = g.read_fbo then src else g.read_buffer f }
  | .Enable cap => g.setCap cap true
  | .Disable cap => g.setCap cap false
  | .Enablei cap i => g.setCapIndexed cap i true
  | .Disablei cap i => g.setCapIndexed cap i false
  | .DepthFunc f => { g with depth_func := f }
  | .Viewport x y w h => { g with viewport := (x, y, w, h) }
  | .ColorMask r gr b a => { g with color_mask := (r, gr, b, a) }
  | .ActiveTexture u => { g with active_texture := u }
  | _ => g

/-- The context state after a list of calls, in order. -/
def GLState.run (g : GLState) (calls : List GLCall) : GLState :=
  calls.foldl GLState.apply g

/-! ## Entry points resolved at run time -/

/-- Outcome of one `dlsym(RTLD_DEFAULT, name)` followed by `dlerror()`. -/
structure DlsymResult where
  ptr : Bool
  err : Bool

/-- The lambda `sym` of `GL41Procs::load`: the pointer found, and the
diagnostic printed when the pointer is null or `dlerror()` reported. -/
def GL41Procs.sym (dl : String → DlsymResult) (show_errors : Bool) (name : String) :
    Bool × List GLCall :=
  ((dl name).ptr,
   if (!(dl name).ptr || (dl name).err) && show_errors
   then [GLCall.Log .info "gl41: %s %s: %s"] else [])

/-- The table `GL41Procs`; a field is `true` when the pointer is non-null. -/
structure GL41Procs where
  GenVertexArrays : Bool := false
  BindVertexArray : Bool := false
  DeleteVertexArrays : Bool := false
  DrawArraysInstanced : Bool := false
  VertexAttribDivisor : Bool := false
  BindBufferBase : Bool := false
  GetUniformBlockIndex : Bool := false
  UniformBlockBinding : Bool := false
  GenProgramPipelines : Bool := false
  BindProgramPipeline : Bool := false
  UseProgramStages : Bool := false
  DeleteProgramPipelines : Bool := false
  ProgramParameteri : Bool := false
  BindFragDataLocation : Bool := false
  Enablei : Bool := false
  Disablei : Bool := false
  BlendFunci : Bool := false
  BlendEquationi : Bool := false
  BlitFramebuffer : Bool := false
  MapBufferRange : Bool := false
  UnmapBuffer : Bool := false
  FenceSync : Bool := false
  ClientWaitSync : Bool := false
  DeleteSync : Bool := false
deriving DecidableEq

/-- The names looked up by `GL41Procs::load`, in source order. -/
def GL41Procs.names : List String :=
  ["glGenVertexArrays", "glBindVertexArray", "glDeleteVertexArrays",
   "glDrawArraysInstanced", "glVertexAttribDivisor",
   "glBindBufferBase", "glGetUniformBlockIndex", "glUniformBlockBinding",
   "glGenProgramPipelines", "glBindProgramPipeline", "glUseProgramStages",
   "glDeleteProgramPipelines", "glProgramParameteri", "glBindFragDataLocation",
   "glEnablei", "glDisablei", "glBlendFunci", "glBlendEquationi",
   "glBlitFramebuffer",
   "glMapBufferRange", "glUnmapBuffer", "glFenceSync", "glClientWaitSync", "glDeleteSync"]

/-- The table after the 24 lookups of `GL41Procs::load`. -/
def GL41Procs.resolved (dl : String → DlsymResult) : GL41Procs :=
  { GenVertexArrays := (dl "glGenVertexArrays").ptr
    BindVertexArray := (dl "glBindVertexArray").ptr
    DeleteVertexArrays := (dl "glDeleteVertexArrays").ptr
    DrawArraysInstanced := (dl "glDrawArraysInstanced").ptr
    VertexAttribDivisor := (dl "glVertexAttribDivisor").ptr
    BindBufferBase := (dl "glBindBufferBase").ptr
    GetUniformBlockIndex := (dl "glGetUniformBlockIndex").ptr
    UniformBlockBinding := (dl "glUniformBlockBinding").ptr
    GenProgramPipelines := (dl "glGenProgramPipelines").ptr
    BindProgramPipeline := (dl "glBindProgramPipeline").ptr
    UseProgramStages := (dl "glUseProgramStages").ptr
    DeleteProgramPipelines := (dl "glDeleteProgramPipelines").ptr
    ProgramParameteri := (dl "glProgramParameteri").ptr
    BindFragDataLocation := (dl "glBindFragDataLocation").ptr
    Enablei := (dl "glEnablei").ptr
    Disablei := (dl "glDisablei").ptr
    BlendFunci := (dl "glBlendFunci").ptr
    BlendEquationi := (dl "glBlendEquationi").ptr
    BlitFramebuffer := (dl "glBlitFramebuffer").ptr
    MapBufferRange := (dl "glMapBufferRange").ptr
    UnmapBuffer := (dl "glUnmapBuffer").ptr
    FenceSync := (dl "glFenceSync").ptr
    ClientWaitSync := (dl "glClientWaitSync").ptr
    DeleteSync := (dl "glDeleteSync").ptr }

/-- Result of `GL41Procs::load(show_errors)`: the boolean returned, the
table as filled in, and the diagnostics printed. -/
def GL41Procs.load (dl : String → DlsymResult) (show_errors : Bool) :
    Bool × GL41Procs × List GLCall :=
  let p := GL41Procs.resolved dl
  let lookups := (GL41Procs.names.map fun n => (GL41Procs.sym dl show_errors n).2).flatten
  let have_vao := p.GenVertexArrays && p.BindVertexArray && p.DeleteVertexArrays
  let have_instancing := p.DrawArraysInstanced && p.VertexAttribDivisor
  let have_ubo := p.BindBufferBase && p.GetUniformBlockIndex && p.UniformBlockBinding
  if !have_vao || !have_instancing || !have_ubo then
    (false, p,
     lookups ++ (if show_errors then
       [GLCall.Log .info "Scene requires core features (VAO + instancing + UBO). Missing:%s%s%s"]
       else []))
  else (true, p, lookups)

/-! ## Shader helpers -/

/-- Driver answers to one `compile_shader` call: the name returned by
`glCreateShader` and the compile status. -/
structure CompileEnv where
  created : Nat
  ok : Bool

/-- The helper `compile_shader(type, src, err)`: the shader name (0 on
failure) and the calls issued. -/
def compile_shader (type : ShaderType) (e : CompileEnv) : Nat × List GLCall :=
  if e.created = 0 then (0, [.CreateShader type e.created])
  else if !e.ok then
    (0, [.CreateShader type e.created, .ShaderSource e.created, .CompileShader e.created,
         .DeleteShader e.created])
  else
    (e.created, [.CreateShader type e.created, .ShaderSource e.created,
                 .CompileShader e.created])

/-- Driver answers to one `link_program` call: the name returned by
`glCreateProgram` and the link status. -/
structure LinkEnv where
  created : Nat
  ok : Bool

/-- The helpers `link_program(vs, fs, err)` and `link_program(vs, gs, fs,
err)`: the program name (0 on failure) and the calls issued. -/
def link_program (shaders : List Nat) (e : LinkEnv) : Nat × List GLCall :=
  if e.created = 0 then (0, [.CreateProgram e.created])
  else if !e.ok then
    (0, [.CreateProgram e.created] ++ shaders.map (GLCall.AttachShader e.created) ++
        [.LinkProgram e.created, .DeleteProgram e.created])
  else
    (e.created, [.CreateProgram e.created] ++ shaders.map (GLCall.AttachShader e.created) ++
                [.LinkProgram e.created])

/-- The conversion `static_cast<GLsizei>(x)` (32-bit signed) of an unsigned
value. -/
def toGLsizei (x : Nat) : Int :=
  if x % 2 ^ 32 < 2 ^ 31 then (x % 2 ^ 32 : Nat) else ((x % 2 ^ 32 : Nat) : Int) - 2 ^ 32

/-- The conversion `static_cast<size_t>(i)` of a signed value. -/
def toSizeT (i : Int) : Nat := (i % 2 ^ 64).toNat

/-- The conversion `static_cast<GLuint>(i)` of a signed value. -/
def toGLuint (i : Int) : Nat := (i % 2 ^ 32).toNat

/-- The clamp `if (x < lo) x = lo; if (x > hi) x = hi;` on unsigned values. -/
def clampUnsigned (lo hi x : Nat) : Nat :=
  let x1 := if x < lo then lo else x
  if x1 > hi then hi else x1

/-- The clamp `if (x < lo) x = lo; if (x > hi) x = hi;` on floats. -/
def clampFloat (lo hi x : FloatVal) : FloatVal :=
  let x1 := if x.lt lo then lo else x
  if hi.lt x1 then hi else x1

/-- The pattern `try { v = static_cast<unsigned>(std::stoul(s)); } catch (...)
{ v = dflt; }`. -/
def parseUnsigned (value : String) (dflt : Nat) : Nat :=
  match stoul value with
  | some v => toUnsigned v
  | none => dflt

/-- The pattern `try { v = std::stof(s); } catch (...) { v = dflt; }`; the
library parser `std::stof` is a parameter (`none` when it throws). -/
def parseFloat (stof : String → Option FloatVal) (value : String) (dflt : FloatVal) : FloatVal :=
  match stof value with
  | some v => v
  | none => dflt

/-! ## Scene gl41-instancing -/

/-- The record `SceneGL41InstancingPrivate`. -/
structure SceneGL41InstancingPrivate where
  procs : GL41Procs := {}
  program : Nat := 0
  vao : Nat := 0
  vbo_pos : Nat := 0
  vbo_offsets : Nat := 0
  ubo : Nat := 0
  instances : Nat := 0
deriving DecidableEq

/-- The options registered by the constructor, with their defaults. -/
structure SceneGL41InstancingOptions where
  instances : String := "4096"

/-- Driver answers during `SceneGL41Instancing::load`. -/
structure SceneGL41InstancingLoadEnv where
  dl : String → DlsymResult
  vs : CompileEnv
  fs : CompileEnv
  link : LinkEnv
  vao : Nat
  vbo_pos : Nat
  pos_loc : Int
  off_loc : Int
  vbo_offsets : Nat
  ubo : Nat
  block : Nat

namespace SceneGL41Instancing

/-- The lambda `cleanup_instancing_load` of `load()`. -/
def cleanup_instancing_load (p : SceneGL41InstancingPrivate) :
    SceneGL41InstancingPrivate × List GLCall :=
  ({ p with
      vbo_pos := destroyed p.vbo_pos
      vbo_offsets := destroyed p.vbo_offsets
      ubo := destroyed p.ubo
      vao := destroyed p.vao
      program := destroyed p.program },
   [.BindBuffer .ARRAY_BUFFER 0, .BindVertexArray 0] ++
   destroyCall p.vbo_pos .DeleteBuffers ++
   destroyCall p.vbo_offsets .DeleteBuffers ++
   destroyCall p.ubo .DeleteBuffers ++
   destroyCall p.vao .DeleteVertexArrays ++
   destroyCall p.program .DeleteProgram)

/-- The operation `SceneGL41Instancing::load`. -/
def load (e : SceneGL41InstancingLoadEnv) (p : SceneGL41InstancingPrivate) :
    Bool × SceneGL41InstancingPrivate × List GLCall :=
  let pl := GL41Procs.load e.dl true
  let p0 := { p with procs := pl.2.1 }
  if !pl.1 then (false, p0, pl.2.2) else
  let vs := compile_shader .VERTEX_SHADER e.vs
  if vs.1 = 0 then
    (false, p0, pl.2.2 ++ vs.2 ++ [.Log .error "gl41-instancing vertex shader: %s"]) else
  let fs := compile_shader .FRAGMENT_SHADER e.fs
  if fs.1 = 0 then
    (false, p0, pl.2.2 ++ vs.2 ++ fs.2 ++
      [.Log .error "gl41-instancing fragment shader: %s", .DeleteShader vs.1]) else
  let lk := link_program [vs.1, fs.1] e.link
  let p1 := { p0 with program := lk.1 }
  let t1 := pl.2.2 ++ vs.2 ++ fs.2 ++ lk.2 ++ [.DeleteShader vs.1, .DeleteShader fs.1]
  if p1.program = 0 then (false, p1, t1 ++ [.Log .error "gl41-instancing link: %s"]) else
  let p2 := { p1 with vao := e.vao, vbo_pos := e.vbo_pos }
  let t2 := t1 ++ [.GenVertexArrays e.vao, .BindVertexArray e.vao, .GenBuffers [e.vbo_pos],
                   .BindBuffer .ARRAY_BUFFER e.vbo_pos, .BufferData .ARRAY_BUFFER 48]
  if e.pos_loc < 0 then
    (false, (cleanup_instancing_load p2).1,
     t2 ++ [.Log .error "gl41-instancing: missing vertex attribute 'position'"] ++
       (cleanup_instancing_load p2).2) else
  let t3 := t2 ++ [.EnableVertexAttribArray e.pos_loc.toNat,
                   .VertexAttribPointer e.pos_loc.toNat 2 0 0]
  if e.off_loc < 0 then
    (false, (cleanup_instancing_load p2).1,
     t3 ++ [.Log .error "gl41-instancing: missing vertex attribute 'instanceOffset'"] ++
       (cleanup_instancing_load p2).2) else
  let p3 := { p2 with vbo_offsets := e.vbo_offsets, ubo := e.ubo }
  let t4 := t3 ++ [.GenBuffers [e.vbo_offsets], .BindBuffer .ARRAY_BUFFER e.vbo_offsets,
                   .EnableVertexAttribArray e.off_loc.toNat,
                   .VertexAttribPointer e.off_loc.toNat 2 0 0,
                   .VertexAttribDivisor e.off_loc.toNat 1,
                   .GenBuffers [e.ubo], .BindBuffer .UNIFORM_BUFFER e.ubo,
                   .BufferData .UNIFORM_BUFFER 64]
  if e.block = GL_INVALID_INDEX then
    (false, (cleanup_instancing_load p3).1,
     t4 ++ [.Log .error "gl41-instancing: missing uniform block 'Matrices'"] ++
       (cleanup_instancing_load p3).2) else
  (true, p3,
   t4 ++ [.UniformBlockBinding p3.program e.block 0, .BindBufferBase .UNIFORM_BUFFER 0 p3.ubo,
          .BindBuffer .ARRAY_BUFFER 0, .BindVertexArray 0])

/-- The operation `SceneGL41Instancing::unload` (the guard `if (!priv_)` never
fires on a live scene: the constructor allocates the record). -/
def unload (p : SceneGL41InstancingPrivate) : SceneGL41InstancingPrivate × List GLCall :=
  ({ p with
      vao := destroyed p.vao
      vbo_pos := destroyed p.vbo_pos
      vbo_offsets := destroyed p.vbo_offsets
      ubo := destroyed p.ubo
      program := destroyed p.program },
   destroyCall p.vao .DeleteVertexArrays ++
   destroyCall p.vbo_pos .DeleteBuffers ++
   destroyCall p.vbo_offsets .DeleteBuffers ++
   destroyCall p.ubo .DeleteBuffers ++
   destroyCall p.program .DeleteProgram)

/-- The operation `SceneGL41Instancing::setup`: the value returned, the new
record and the calls issued. -/
def setup (o : SceneGL41InstancingOptions) (p : SceneGL41InstancingPrivate) :
    Bool × SceneGL41InstancingPrivate × List GLCall :=
  let instances := parseUnsigned o.instances 4096
  let p1 := { p with instances := max 1 instances }
  (true, p1,
   [.BindVertexArray p1.vao, .BindBuffer .ARRAY_BUFFER p1.vbo_offsets,
    .BufferData .ARRAY_BUFFER (p1.instances * 2 * 4),
    .BindBuffer .ARRAY_BUFFER 0, .BindVertexArray 0])

end SceneGL41Instancing

/-! ## Scene gl41-pipeline -/

def kModelBlockVec4s : Nat := 256
def kSceneBlockSize : Nat := 4 * 24
def kModelBlockSize : Nat := kModelBlockVec4s * 4 * 4
def kModelBlockMaxGrid : Nat := 16

/-- The record `SceneGL41PipelinePrivate`. -/
structure SceneGL41PipelinePrivate where
  procs : GL41Procs := {}
  pipeline : Nat := 0
  prog_vs : Nat := 0
  prog_fs : Nat := 0
  vao : Nat := 0
  vbo : Nat := 0
  ubo_scene : Nat := 0
  ubo_model : Nat := 0
  attr_position : Int := -1
  attr_normal : Int := -1
  grid : Nat := 10
  instance_count : Nat := 100
deriving DecidableEq

/-- The options registered by the constructor, with their defaults. -/
structure SceneGL41PipelineOptions where
  grid : String := "10"

/-- Driver answers during `SceneGL41Pipeline::load`. -/
structure SceneGL41PipelineLoadEnv where
  dl : String → DlsymResult
  vs : CompileEnv
  fs : CompileEnv
  prog_vs : Nat
  prog_fs : Nat
  vs_link_ok : Bool
  fs_link_ok : Bool
  pipeline : Nat
  ubo_scene : Nat
  ubo_model : Nat
  scene_vs : Nat
  scene_fs : Nat
  model_vs : Nat
  vao : Nat
  vbo : Nat
  attr_position : Int
  attr_normal : Int

namespace SceneGL41Pipeline

/-- The teardown shared by the lambda `cleanup_pipeline_load` and by
`unload()`: the fields left and the calls issued, without the trailing
unbinds of the lambda. -/
def release (p : SceneGL41PipelinePrivate) : SceneGL41PipelinePrivate × List GLCall :=
  ({ p with
      pipeline := destroyed p.pipeline
      prog_vs := destroyed p.prog_vs
      prog_fs := destroyed p.prog_fs
      vao := destroyed p.vao
      vbo := destroyed p.vbo
      ubo_scene := destroyed p.ubo_scene
      ubo_model := destroyed p.ubo_model },
   (if p.procs.BindBufferBase then
      [GLCall.BindBufferBase .UNIFORM_BUFFER 0 0, .BindBufferBase .UNIFORM_BUFFER 1 0]
    else []) ++
   (if p.pipeline ≠ 0 ∧ p.procs.DeleteProgramPipelines = true
    then [GLCall.DeleteProgramPipelines p.pipeline] else []) ++
   destroyCall p.prog_vs .DeleteProgram ++
   destroyCall p.prog_fs .DeleteProgram ++
   destroyCall p.vao .DeleteVertexArrays ++
   destroyCall p.vbo .DeleteBuffers ++
   destroyCall p.ubo_scene .DeleteBuffers ++
   destroyCall p.ubo_model .DeleteBuffers)

/-- The lambda `cleanup_pipeline_load` of `load()`. -/
def cleanup_pipeline_load (p : SceneGL41PipelinePrivate) :
    SceneGL41PipelinePrivate × List GLCall :=
  ((release p).1, (release p).2 ++ [.BindBuffer .ARRAY_BUFFER 0, .BindVertexArray 0])

/-- The operation `SceneGL41Pipeline::load`. -/
def load (e : SceneGL41PipelineLoadEnv) (p : SceneGL41PipelinePrivate) :
    Bool × SceneGL41PipelinePrivate × List GLCall :=
  let pl := GL41Procs.load e.dl true
  let p0 := { p with procs := pl.2.1 }
  if !pl.1 then (false, p0, pl.2.2) else
  if !p0.procs.ProgramParameteri || !p0.procs.GenProgramPipelines ||
     !p0.procs.UseProgramStages || !p0.procs.BindProgramPipeline ||
     !p0.procs.DeleteProgramPipelines then (false, p0, pl.2.2) else
  let vs := compile_shader .VERTEX_SHADER e.vs
  if vs.1 = 0 then
    (false, p0, pl.2.2 ++ vs.2 ++ [.Log .error "gl41-pipeline vertex shader: %s"]) else
  let fs := compile_shader .FRAGMENT_SHADER e.fs
  if fs.1 = 0 then
    (false, p0, pl.2.2 ++ vs.2 ++ fs.2 ++
      [.Log .error "gl41-pipeline fragment shader: %s", .DeleteShader vs.1]) else
  let p1 := { p0 with prog_vs := e.prog_vs, prog_fs := e.prog_fs }
  let t1 := pl.2.2 ++ vs.2 ++ fs.2 ++
    [.CreateProgram e.prog_vs, .AttachShader e.prog_vs vs.1, .ProgramParameteri e.prog_vs,
     .LinkProgram e.prog_vs,
     .CreateProgram e.prog_fs, .AttachShader e.prog_fs fs.1, .ProgramParameteri e.prog_fs,
     .LinkProgram e.prog_fs,
     .DeleteShader vs.1, .DeleteShader fs.1]
  if !e.vs_link_ok then
    (false, (cleanup_pipeline_load p1).1,
     t1 ++ [.Log .error "gl41-pipeline: VS program link failed: %s"] ++
       (cleanup_pipeline_load p1).2) else
  if !e.fs_link_ok then
    (false, (cleanup_pipeline_load p1).1,
     t1 ++ [.Log .error "gl41-pipeline: FS program link failed: %s"] ++
       (cleanup_pipeline_load p1).2) else
  let p2 := { p1 with pipeline := e.pipeline, ubo_scene := e.ubo_scene,
                      ubo_model := e.ubo_model }
  let t2 := t1 ++
    [.GenProgramPipelines e.pipeline, .BindProgramPipeline e.pipeline,
     .UseProgramStages e.pipeline GL_VERTEX_SHADER_BIT e.prog_vs,
     .UseProgramStages e.pipeline GL_FRAGMENT_SHADER_BIT e.prog_fs,
     .BindProgramPipeline 0,
     .GenBuffers [e.ubo_scene], .BindBuffer .UNIFORM_BUFFER e.ubo_scene,
     .BufferData .UNIFORM_BUFFER kSceneBlockSize, .BindBuffer .UNIFORM_BUFFER 0,
     .GenBuffers [e.ubo_model], .BindBuffer .UNIFORM_BUFFER e.ubo_model,
     .BufferData .UNIFORM_BUFFER kModelBlockSize, .BindBuffer .UNIFORM_BUFFER 0]
  if e.scene_vs = GL_INVALID_INDEX ∨ e.scene_fs = GL_INVALID_INDEX ∨
     e.model_vs = GL_INVALID_INDEX then
    (false, (cleanup_pipeline_load p2).1,
     t2 ++ [.Log .error "gl41-pipeline: missing uniform blocks (SceneBlock/ModelBlock)"] ++
       (cleanup_pipeline_load p2).2) else
  let p3 := { p2 with vao := e.vao, vbo := e.vbo, attr_position := e.attr_position,
                      attr_normal := e.attr_normal }
  let t3 := t2 ++
    [.UniformBlockBinding e.prog_vs e.scene_vs 0, .UniformBlockBinding e.prog_fs e.scene_fs 0,
     .UniformBlockBinding e.prog_vs e.model_vs 1,
     .BindBufferBase .UNIFORM_BUFFER 0 e.ubo_scene, .BindBufferBase .UNIFORM_BUFFER 1 e.ubo_model,
     .GenVertexArrays e.vao, .BindVertexArray e.vao,
     .GenBuffers [e.vbo], .BindBuffer .ARRAY_BUFFER e.vbo, .BufferData .ARRAY_BUFFER 864]
  if e.attr_position < 0 ∨ e.attr_normal < 0 then
    (false, (cleanup_pipeline_load p3).1,
     t3 ++ [.Log .error "gl41-pipeline: missing vertex attributes (position/normal)"] ++
       (cleanup_pipeline_load p3).2) else
  (true, p3,
   t3 ++ [.EnableVertexAttribArray e.attr_position.toNat,
          .VertexAttribPointer e.attr_position.toNat 3 24 0,
          .EnableVertexAttribArray e.attr_normal.toNat,
          .VertexAttribPointer e.attr_normal.toNat 3 24 12,
          .BindBuffer .ARRAY_BUFFER 0, .BindVertexArray 0])

/-- The operation `SceneGL41Pipeline::setup`. -/
def setup (o : SceneGL41PipelineOptions) (p : SceneGL41PipelinePrivate) :
    Bool × SceneGL41PipelinePrivate × List GLCall :=
  let grid := clampUnsigned 1 kModelBlockMaxGrid (parseUnsigned o.grid 10)
  let p1 := { p with grid := grid, instance_count := (grid * grid) % UINT_RANGE }
  (true, p1,
   [.BindBuffer .UNIFORM_BUFFER p1.ubo_model,
    .BufferSubData .UNIFORM_BUFFER 0 ((p1.instance_count * 4) % UINT_RANGE * 4),
    .BindBuffer .UNIFORM_BUFFER 0])

/-- The operation `SceneGL41Pipeline::unload`. -/
def unload (p : SceneGL41PipelinePrivate) : SceneGL41PipelinePrivate × List GLCall :=
  release p

end SceneGL41Pipeline

/-! ## Scene gl41-mrt -/

/-- The record `SceneGL41MRTPrivate`. -/
structure SceneGL41MRTPrivate where
  procs : GL41Procs := {}
  program : Nat := 0
  vao : Nat := 0
  vbo : Nat := 0
  fbo : Nat := 0
  rbo_depth : Nat := 0
  color_tex : List Nat := []
  u_time : Int := -1
  targets : Nat := 4
  size : Nat := 1024
deriving DecidableEq

/-- The options registered by the constructor, with their defaults. -/
structure SceneGL41MRTOptions where
  targets : String := "4"
  size : String := "1024"

/-- Driver answers during one `gl41_mrt_recreate_fbo`: the texture name
written at each index by `glGenTextures`, the renderbuffer and framebuffer
names, and the completeness status. -/
structure MRTRecreateEnv where
  tex : Nat → Nat
  rbo : Nat
  fbo : Nat
  status : Nat

/-- Driver answers during `SceneGL41MRT::load`. -/
structure SceneGL41MRTLoadEnv where
  dl : String → DlsymResult
  vs : CompileEnv
  fs : CompileEnv
  program : Nat
  link_ok : Bool
  u_time : Int
  vao : Nat
  vbo : Nat
  pos_loc : Int
  recreate : MRTRecreateEnv

/-- The helper `gl41_mrt_recreate_fbo(priv, show_errors)`. -/
def gl41_mrt_recreate_fbo (e : MRTRecreateEnv) (p : SceneGL41MRTPrivate) (show_errors : Bool) :
    Bool × SceneGL41MRTPrivate × List GLCall :=
  let names := (List.range p.targets).map e.tex
  let p1 := { p with fbo := e.fbo, rbo_depth := e.rbo, color_tex := names }
  let t :=
    destroyCall p.fbo .DeleteFramebuffers ++
    destroyCall p.rbo_depth .DeleteRenderbuffers ++
    (if p.color_tex ≠ [] then [GLCall.DeleteTextures p.color_tex] else []) ++
    [.GenTextures names] ++
    (names.map fun n =>
      [GLCall.BindTexture .TEXTURE_2D n, .TexParameteri .TEXTURE_2D, .TexParameteri .TEXTURE_2D,
       .TexParameteri .TEXTURE_2D, .TexParameteri .TEXTURE_2D, .TexImage2D p.size p.size]).flatten ++
    [.BindTexture .TEXTURE_2D 0,
     .GenRenderbuffers e.rbo, .BindRenderbuffer e.rbo, .RenderbufferStorage p.size p.size,
     .BindRenderbuffer 0,
     .GenFramebuffers e.fbo, .BindFramebuffer .FRAMEBUFFER e.fbo] ++
    ((List.range p.targets).map fun i =>
      GLCall.FramebufferTexture2D (GL_COLOR_ATTACHMENT0 + i) (e.tex i)) ++
    [.FramebufferRenderbuffer e.rbo,
     .DrawBuffers ((List.range p.targets).map fun i => GL_COLOR_ATTACHMENT0 + i),
     .BindFramebuffer .FRAMEBUFFER 0]
  if e.status ≠ GL_FRAMEBUFFER_COMPLETE then
    (false, p1, t ++ (if show_errors then [.Log .error "gl41-mrt: FBO incomplete (0x%x)"] else []))
  else (true, p1, t)

namespace SceneGL41MRT

/-- The lambda `cleanup_mrt_load` of `load()`. -/
def cleanup_mrt_load (p : SceneGL41MRTPrivate) : SceneGL41MRTPrivate × List GLCall :=
  ({ p with
      fbo := destroyed p.fbo
      rbo_depth := destroyed p.rbo_depth
      color_tex := if p.color_tex ≠ [] then [] else p.color_tex
      vbo := destroyed p.vbo
      vao := destroyed p.vao
      program := destroyed p.program },
   [.BindBuffer .ARRAY_BUFFER 0, .BindVertexArray 0] ++
   destroyCall p.fbo .DeleteFramebuffers ++
   destroyCall p.rbo_depth .DeleteRenderbuffers ++
   (if p.color_tex ≠ [] then [GLCall.DeleteTextures p.color_tex] else []) ++
   destroyCall p.vbo .DeleteBuffers ++
   destroyCall p.vao .DeleteVertexArrays ++
   destroyCall p.program .DeleteProgram)

/-- The operation `SceneGL41MRT::load`. -/
def load (e : SceneGL41MRTLoadEnv) (p : SceneGL41MRTPrivate) :
    Bool × SceneGL41MRTPrivate × List GLCall :=
  let pl := GL41Procs.load e.dl true
  let p0 := { p with procs := pl.2.1 }
  if !pl.1 then (false, p0, pl.2.2) else
  if !p0.procs.Enablei || !p0.procs.Disablei || !p0.procs.BlendFunci ||
     !p0.procs.BlendEquationi || !p0.procs.BlitFramebuffer then
    (false, p0, pl.2.2 ++ [.Log .error "gl41-mrt: missing required GL 4.1 entry points"]) else
  let vs := compile_shader .VERTEX_SHADER e.vs
  if vs.1 = 0 then
    (false, p0, pl.2.2 ++ vs.2 ++ [.Log .error "gl41-mrt vertex shader: %s"]) else
  let fs := compile_shader .FRAGMENT_SHADER e.fs
  if fs.1 = 0 then
    (false, p0, pl.2.2 ++ vs.2 ++ fs.2 ++
      [.Log .error "gl41-mrt fragment shader: %s", .DeleteShader vs.1]) else
  let p1 := { p0 with program := e.program }
  let t1 := pl.2.2 ++ vs.2 ++ fs.2 ++
    [.CreateProgram e.program, .AttachShader e.program vs.1, .AttachShader e.program fs.1]
  if !p1.procs.BindFragDataLocation then
    (false, (cleanup_mrt_load p1).1,
     t1 ++ [.Log .error "gl41-mrt: missing glBindFragDataLocation entry point",
            .DeleteShader vs.1, .DeleteShader fs.1] ++ (cleanup_mrt_load p1).2) else
  let t2 := t1 ++
    [.BindFragDataLocation e.program 0 "o0", .BindFragDataLocation e.program 1 "o1",
     .BindFragDataLocation e.program 2 "o2", .BindFragDataLocation e.program 3 "o3",
     .LinkProgram e.program, .DeleteShader vs.1, .DeleteShader fs.1]
  if !e.link_ok then
    (false, (cleanup_mrt_load p1).1,
     t2 ++ [.Log .error "gl41-mrt link: %s"] ++ (cleanup_mrt_load p1).2) else
  let p2 := { p1 with u_time := e.u_time, vao := e.vao, vbo := e.vbo }
  let t3 := t2 ++
    [.GenVertexArrays e.vao, .BindVertexArray e.vao,
     .GenBuffers [e.vbo], .BindBuffer .ARRAY_BUFFER e.vbo, .BufferData .ARRAY_BUFFER 24]
  if e.pos_loc < 0 then
    (false, (cleanup_mrt_load p2).1,
     t3 ++ [.Log .error "gl41-mrt: missing vertex attribute 'position'"] ++
       (cleanup_mrt_load p2).2) else
  let t4 := t3 ++
    [.EnableVertexAttribArray e.pos_loc.toNat, .VertexAttribPointer e.pos_loc.toNat 2 0 0,
     .BindBuffer .ARRAY_BUFFER 0, .BindVertexArray 0]
  let r := gl41_mrt_recreate_fbo e.recreate p2 true
  if !r.1 then
    (false, (cleanup_mrt_load r.2.1).1, t4 ++ r.2.2 ++ (cleanup_mrt_load r.2.1).2) else
  (true, r.2.1, t4 ++ r.2.2)

/-- The operation `SceneGL41MRT::setup`. -/
def setup (o : SceneGL41MRTOptions) (e : MRTRecreateEnv) (p : SceneGL41MRTPrivate) :
    Bool × SceneGL41MRTPrivate × List GLCall :=
  let targets := clampUnsigned 1 4 (parseUnsigned o.targets 4)
  let size := clampUnsigned 64 4096 (parseUnsigned o.size 1024)
  let changed : Bool := targets ≠ p.targets || size ≠ p.size
  let p1 := { p with targets := targets, size := size }
  if changed then gl41_mrt_recreate_fbo e p1 true else (true, p1, [])

/-- The operation `SceneGL41MRT::unload`. -/
def unload (p : SceneGL41MRTPrivate) : SceneGL41MRTPrivate × List GLCall :=
  ({ p with
      fbo := destroyed p.fbo
      rbo_depth := destroyed p.rbo_depth
      color_tex := if p.color_tex ≠ [] then [] else p.color_tex
      vao := destroyed p.vao
      vbo := destroyed p.vbo
      program := destroyed p.program },
   destroyCall p.fbo .DeleteFramebuffers ++
   destroyCall p.rbo_depth .DeleteRenderbuffers ++
   (if p.color_tex ≠ [] then [GLCall.DeleteTextures p.color_tex] else []) ++
   destroyCall p.vao .DeleteVertexArrays ++
   destroyCall p.vbo .DeleteBuffers ++
   destroyCall p.program .DeleteProgram)

end SceneGL41MRT

/-! ## Scene gl41-texarray -/

/-- The record `SceneGL41TexArrayPrivate`. -/
structure SceneGL41TexArrayPrivate where
  procs : GL41Procs := {}
  program : Nat := 0
  vao : Nat := 0
  vbo_pos : Nat := 0
  vbo_instance : Nat := 0
  ubo : Nat := 0
  tex : Nat := 0
  u_bias : Int := -1
  instances : Nat := 4096
  layers : Nat := 64
  tex_size : Nat := 64
deriving DecidableEq

/-- The options registered by the constructor, with their defaults. -/
structure SceneGL41TexArrayOptions where
  instances : String := "4096"
  layers : String := "64"
  tex_size : String := "64"
  bias : String := "0.75"

/-- Driver answers during `SceneGL41TexArray::load`; `generate_mipmap` tells
whether the pointer `GLExtensions::GenerateMipmap` is non-null. -/
structure SceneGL41TexArrayLoadEnv where
  dl : String → DlsymResult
  generate_mipmap : Bool
  vs : CompileEnv
  fs : CompileEnv
  link : LinkEnv
  loc_tex : Int
  u_bias : Int
  vao : Nat
  vbo_pos : Nat
  pos_loc : Int
  vbo_instance : Nat
  inst_loc : Int
  ubo : Nat
  block : Nat
  tex : Nat

/-- The helper `gl41_texarray_upload(priv)`: the calls issued (the record is
not changed). -/
def gl41_texarray_upload (p : SceneGL41TexArrayPrivate) : List GLCall :=
  [.BindTexture .TEXTURE_2D_ARRAY p.tex,
   .TexParameteri .TEXTURE_2D_ARRAY, .TexParameteri .TEXTURE_2D_ARRAY,
   .TexParameteri .TEXTURE_2D_ARRAY, .TexParameteri .TEXTURE_2D_ARRAY,
   .TexImage3D p.tex_size p.tex_size p.layers] ++
  ((List.range p.layers).map fun layer => GLCall.TexSubImage3D layer p.tex_size p.tex_size) ++
  [.GenerateMipmap .TEXTURE_2D_ARRAY, .BindTexture .TEXTURE_2D_ARRAY 0]

namespace SceneGL41TexArray

/-- The lambda `cleanup_texarray_load` of `load()`. -/
def cleanup_texarray_load (p : SceneGL41TexArrayPrivate) :
    SceneGL41TexArrayPrivate × List GLCall :=
  ({ p with
      tex := destroyed p.tex
      ubo := destroyed p.ubo
      vbo_instance := destroyed p.vbo_instance
      vbo_pos := destroyed p.vbo_pos
      vao := destroyed p.vao
      program := destroyed p.program },
   [.BindBuffer .ARRAY_BUFFER 0, .BindBuffer .UNIFORM_BUFFER 0, .BindVertexArray 0] ++
   destroyCall p.tex (fun h => .DeleteTextures [h]) ++
   destroyCall p.ubo .DeleteBuffers ++
   destroyCall p.vbo_instance .DeleteBuffers ++
   destroyCall p.vbo_pos .DeleteBuffers ++
   destroyCall p.vao .DeleteVertexArrays ++
   destroyCall p.program .DeleteProgram)

/-- The operation `SceneGL41TexArray::load`. -/
def load (e : SceneGL41TexArrayLoadEnv) (p : SceneGL41TexArrayPrivate) :
    Bool × SceneGL41TexArrayPrivate × List GLCall :=
  let pl := GL41Procs.load e.dl true
  let p0 := { p with procs := pl.2.1 }
  if !pl.1 then (false, p0, pl.2.2) else
  if !e.generate_mipmap then
    (false, p0, pl.2.2 ++ [.Log .error "gl41-texarray: missing glGenerateMipmap entry point"]) else
  let vs := compile_shader .VERTEX_SHADER e.vs
  if vs.1 = 0 then
    (false, p0, pl.2.2 ++ vs.2 ++ [.Log .error "gl41-texarray vertex shader: %s"]) else
  let fs := compile_shader .FRAGMENT_SHADER e.fs
  if fs.1 = 0 then
    (false, p0, pl.2.2 ++ vs.2 ++ fs.2 ++
      [.Log .error "gl41-texarray fragment shader: %s", .DeleteShader vs.1]) else
  let lk := link_program [vs.1, fs.1] e.link
  let p1 := { p0 with program := lk.1 }
  let t1 := pl.2.2 ++ vs.2 ++ fs.2 ++ lk.2 ++ [.DeleteShader vs.1, .DeleteShader fs.1]
  if p1.program = 0 then (false, p1, t1 ++ [.Log .error "gl41-texarray link: %s"]) else
  let p2 := { p1 with u_bias := e.u_bias, vao := e.vao, vbo_pos := e.vbo_pos }
  let t2 := t1 ++ [.UseProgram p1.program] ++
    (if e.loc_tex ≥ 0 then [GLCall.Uniform1i e.loc_tex 0] else []) ++
    [.UseProgram 0, .GenVertexArrays e.vao, .BindVertexArray e.vao,
     .GenBuffers [e.vbo_pos], .BindBuffer .ARRAY_BUFFER e.vbo_pos, .BufferData .ARRAY_BUFFER 48]
  if e.pos_loc < 0 then
    (false, (cleanup_texarray_load p2).1,
     t2 ++ [.Log .error "gl41-texarray: missing vertex attribute 'position'"] ++
       (cleanup_texarray_load p2).2) else
  let p3 := { p2 with vbo_instance := e.vbo_instance }
  let t3 := t2 ++
    [.EnableVertexAttribArray e.pos_loc.toNat, .VertexAttribPointer e.pos_loc.toNat 2 0 0,
     .GenBuffers [e.vbo_instance]]
  if e.inst_loc < 0 then
    (false, (cleanup_texarray_load p3).1,
     t3 ++ [.Log .error "gl41-texarray: missing vertex attribute 'instanceData'"] ++
       (cleanup_texarray_load p3).2) else
  let p4 := { p3 with ubo := e.ubo }
  let t4 := t3 ++
    [.BindBuffer .ARRAY_BUFFER e.vbo_instance,
     .EnableVertexAttribArray e.inst_loc.toNat, .VertexAttribPointer e.inst_loc.toNat 3 0 0,
     .VertexAttribDivisor e.inst_loc.toNat 1,
     .GenBuffers [e.ubo], .BindBuffer .UNIFORM_BUFFER e.ubo, .BufferData .UNIFORM_BUFFER 64]
  if e.block = GL_INVALID_INDEX then
    (false, (cleanup_texarray_load p4).1,
     t4 ++ [.Log .error "gl41-texarray: missing uniform block 'Matrices'"] ++
       (cleanup_texarray_load p4).2) else
  let p5 := { p4 with tex := e.tex }
  (true, p5,
   t4 ++ [.UniformBlockBinding p4.program e.block 0, .BindBufferBase .UNIFORM_BUFFER 0 p4.ubo,
          .BindBuffer .UNIFORM_BUFFER 0, .BindBuffer .ARRAY_BUFFER 0, .BindVertexArray 0,
          .GenTextures [e.tex]] ++ gl41_texarray_upload p5)

/-- The third float of each instance triple filled by `setup()`, before its
conversion to `float`: the layer index `i % layers` of instance `i`. -/
def instance_layers (instances layers : Nat) : List Nat :=
  (List.range instances).map fun i => i % layers

/-- The operation `SceneGL41TexArray::setup`. -/
def setup (stof : String → Option FloatVal) (o : SceneGL41TexArrayOptions)
    (p : SceneGL41TexArrayPrivate) : Bool × SceneGL41TexArrayPrivate × List GLCall :=
  let instances := clampUnsigned 1 16384 (parseUnsigned o.instances 4096)
  let layers := clampUnsigned 1 256 (parseUnsigned o.layers 64)
  let tex_size := clampUnsigned 8 512 (parseUnsigned o.tex_size 64)
  let bias := clampFloat (.finite (-4)) (.finite 4) (parseFloat stof o.bias (.finite (3 / 4)))
  let tex_changed : Bool := layers ≠ p.layers || tex_size ≠ p.tex_size
  let p1 := { p with instances := instances, layers := layers, tex_size := tex_size }
  (true, p1,
   [.BindVertexArray p1.vao, .BindBuffer .ARRAY_BUFFER p1.vbo_instance,
    .BufferData .ARRAY_BUFFER (instances * 3 * 4),
    .BindBuffer .ARRAY_BUFFER 0, .BindVertexArray 0] ++
   (if tex_changed then gl41_texarray_upload p1 else []) ++
   [.UseProgram p1.program] ++
   (if p1.u_bias ≥ 0 then [GLCall.Uniform1f p1.u_bias bias] else []) ++
   [.UseProgram 0])

/-- The operation `SceneGL41TexArray::unload`. -/
def unload (p : SceneGL41TexArrayPrivate) : SceneGL41TexArrayPrivate × List GLCall :=
  ({ p with
      vao := destroyed p.vao
      vbo_pos := destroyed p.vbo_pos
      vbo_instance := destroyed p.vbo_instance
      ubo := destroyed p.ubo
      tex := destroyed p.tex
      program := destroyed p.program },
   (if p.procs.BindBufferBase then [GLCall.BindBufferBase .UNIFORM_BUFFER 0 0] else []) ++
   destroyCall p.vao .DeleteVertexArrays ++
   destroyCall p.vbo_pos .DeleteBuffers ++
   destroyCall p.vbo_instance .DeleteBuffers ++
   destroyCall p.ubo .DeleteBuffers ++
   destroyCall p.tex (fun h => .DeleteTextures [h]) ++
   destroyCall p.program .DeleteProgram)

end SceneGL41TexArray

/-! ## Scene gl41-streaming-sync -/

/-- A C array of three elements (`vbo[3]`, `fence[3]`). -/
structure Arr3 (α : Type) where
  a0 : α
  a1 : α
  a2 : α
deriving DecidableEq

/-- Element `i` of the array, for `i` in 0..2. -/
def Arr3.get {α : Type} (a : Arr3 α) (i : Nat) : α :=
  match i with
  | 0 => a.a0
  | 1 => a.a1
  | _ => a.a2

/-- The array with element `i` (in 0..2) replaced. -/
def Arr3.set {α : Type} (a : Arr3 α) (i : Nat) (v : α) : Arr3 α :=
  match i with
  | 0 => { a with a0 := v }
  | 1 => { a with a1 := v }
  | _ => { a with a2 := v }

def kStreamingBufferAlignment : Nat := 256

/-- The record `SceneGL41StreamingSyncPrivate`; of the vector `base_xy` only
the length is kept. -/
structure SceneGL41StreamingSyncPrivate where
  procs : GL41Procs := {}
  program : Nat := 0
  vao : Nat := 0
  vbo : Arr3 Nat := ⟨0, 0, 0⟩
  fence : Arr3 Nat := ⟨0, 0, 0⟩
  buffer_index : Nat := 0
  bytes : Nat := 4 * 1024 * 1024
  vertex_count : Int := 0
  base_xy_size : Nat := 0
  attr_position : Int := -1
  u_mvp : Int := -1
  warned_map_failure : Bool := false
  warned_sync_timeout : Bool := false
  warned_alignment : Bool := false
  warned_unmap_failure : Bool := false
deriving DecidableEq

/-- The options registered by the constructor, with their defaults. -/
structure SceneGL41StreamingSyncOptions where
  bytes : String := "4194304"

/-- Driver answers during `SceneGL41StreamingSync::load`; `vbo` are the
names written by `glGenBuffers(3, ...)`. -/
structure SceneGL41StreamingSyncLoadEnv where
  dl : String → DlsymResult
  vs : CompileEnv
  fs : CompileEnv
  link : LinkEnv
  u_mvp : Int
  vao : Nat
  vbo : Arr3 Nat
  attr_position : Int

/-- Driver and platform answers during one `SceneGL41StreamingSync::draw`. -/
structure SceneGL41StreamingSyncDrawEnv where
  wait_res : Nat
  wait_res2 : Nat
  mapped : Bool
  unmap_ok : Bool
  fence : Nat
  canvas_width : Int
  canvas_height : Int

/-- The helper `gl41_streaming_realloc(priv)`; `names` are the buffer names
written by `glGenBuffers(3, priv->vbo)`. -/
def gl41_streaming_realloc (names : Arr3 Nat) (p : SceneGL41StreamingSyncPrivate) :
    SceneGL41StreamingSyncPrivate × List GLCall :=
  let floats := p.bytes / 4
  let vertex_count := toGLsizei ((floats / 3) - ((floats / 3) % 3))
  let tris := toSizeT vertex_count / 3
  ({ p with
      fence := ⟨destroyed p.fence.a0, destroyed p.fence.a1, destroyed p.fence.a2⟩
      vbo := names
      vertex_count := vertex_count
      base_xy_size := tris * 2 },
   destroyCall p.fence.a0 .DeleteSync ++ destroyCall p.vbo.a0 .DeleteBuffers ++
   destroyCall p.fence.a1 .DeleteSync ++ destroyCall p.vbo.a1 .DeleteBuffers ++
   destroyCall p.fence.a2 .DeleteSync ++ destroyCall p.vbo.a2 .DeleteBuffers ++
   [.GenBuffers [names.a0, names.a1, names.a2],
    .BindBuffer .ARRAY_BUFFER names.a0, .BufferData .ARRAY_BUFFER p.bytes,
    .BindBuffer .ARRAY_BUFFER names.a1, .BufferData .ARRAY_BUFFER p.bytes,
    .BindBuffer .ARRAY_BUFFER names.a2, .BufferData .ARRAY_BUFFER p.bytes,
    .BindBuffer .ARRAY_BUFFER 0])

namespace SceneGL41StreamingSync

/-- The lambda `cleanup_streaming_load` of `load()`. -/
def cleanup_streaming_load (p : SceneGL41StreamingSyncPrivate) :
    SceneGL41StreamingSyncPrivate × List GLCall :=
  ({ p with
      vbo := ⟨destroyed p.vbo.a0, destroyed p.vbo.a1, destroyed p.vbo.a2⟩
      vao := destroyed p.vao
      program := destroyed p.program },
   [.BindBuffer .ARRAY_BUFFER 0, .BindVertexArray 0] ++
   destroyCall p.vbo.a0 .DeleteBuffers ++
   destroyCall p.vbo.a1 .DeleteBuffers ++
   destroyCall p.vbo.a2 .DeleteBuffers ++
   destroyCall p.vao .DeleteVertexArrays ++
   destroyCall p.program .DeleteProgram)

/-- The operation `SceneGL41StreamingSync::load`. -/
def load (e : SceneGL41StreamingSyncLoadEnv) (p : SceneGL41StreamingSyncPrivate) :
    Bool × SceneGL41StreamingSyncPrivate × List GLCall :=
  let pl := GL41Procs.load e.dl true
  let p0 := { p with procs := pl.2.1 }
  if !pl.1 then (false, p0, pl.2.2) else
  if !p0.procs.MapBufferRange || !p0.procs.UnmapBuffer || !p0.procs.FenceSync ||
     !p0.procs.ClientWaitSync || !p0.procs.DeleteSync then (false, p0, pl.2.2) else
  let vs := compile_shader .VERTEX_SHADER e.vs
  if vs.1 = 0 then
    (false, p0, pl.2.2 ++ vs.2 ++ [.Log .error "gl41-streaming-sync vertex shader: %s"]) else
  let fs := compile_shader .FRAGMENT_SHADER e.fs
  if fs.1 = 0 then
    (false, p0, pl.2.2 ++ vs.2 ++ fs.2 ++
      [.Log .error "gl41-streaming-sync fragment shader: %s", .DeleteShader vs.1]) else
  let lk := link_program [vs.1, fs.1] e.link
  let p1 := { p0 with program := lk.1 }
  let t1 := pl.2.2 ++ vs.2 ++ fs.2 ++ lk.2 ++ [.DeleteShader vs.1, .DeleteShader fs.1]
  if p1.program = 0 then (false, p1, t1 ++ [.Log .error "gl41-streaming-sync link: %s"]) else
  let p2 := { p1 with u_mvp := e.u_mvp, vao := e.vao }
  let r := gl41_streaming_realloc e.vbo p2
  let p3 := { r.1 with attr_position := e.attr_position }
  let t2 := t1 ++ [.GenVertexArrays e.vao, .BindVertexArray e.vao] ++ r.2 ++
    [.BindBuffer .ARRAY_BUFFER p3.vbo.a0]
  if e.attr_position < 0 then
    (false, (cleanup_streaming_load p3).1,
     t2 ++ [.Log .error "gl41-streaming-sync: missing vertex attribute 'position'"] ++
       (cleanup_streaming_load p3).2) else
  (true, p3,
   t2 ++ [.EnableVertexAttribArray e.attr_position.toNat,
          .VertexAttribPointer e.attr_position.toNat 3 0 0,
          .BindBuffer .ARRAY_BUFFER 0, .BindVertexArray 0])

/-- The size computed by `setup()` from the option string: parse (default
4 MiB when `std::stoull` throws), clamp to 256 KiB .. 64 MiB, then clear the
low bits with `bytes &= ~static_cast<size_t>(kStreamingBufferAlignment - 1u)`.
The pair is (`requested_bytes`, `bytes`). -/
def realized_bytes (value : String) : Nat × Nat :=
  let parsed := match stoull value with
    | some v => v
    | none => 4 * 1024 * 1024
  let requested_bytes := clampUnsigned (256 * 1024) (64 * 1024 * 1024) parsed
  (requested_bytes, requested_bytes &&& (ULONG_MAX - (kStreamingBufferAlignment - 1)))

/-- The operation `SceneGL41StreamingSync::setup`; `names` are the buffer
names the driver hands out if the buffers are reallocated. -/
def setup (o : SceneGL41StreamingSyncOptions) (names : Arr3 Nat)
    (p : SceneGL41StreamingSyncPrivate) :
    Bool × SceneGL41StreamingSyncPrivate × List GLCall :=
  let requested_bytes := (realized_bytes o.bytes).1
  let bytes := (realized_bytes o.bytes).2
  let warn : Bool := bytes ≠ requested_bytes && !p.warned_alignment
  let p1 := { p with warned_alignment := if warn then true else p.warned_alignment }
  let t1 := if warn then
      [GLCall.Log .info "gl41-streaming-sync: bytes aligned down from %zu to %zu"] else []
  let changed : Bool := bytes ≠ p1.bytes
  let p2 := { p1 with bytes := bytes }
  if changed then (true, (gl41_streaming_realloc names p2).1, t1 ++ (gl41_streaming_realloc names p2).2)
  else (true, p2, t1)

/-- The operation `SceneGL41StreamingSync::unload`. -/
def unload (p : SceneGL41StreamingSyncPrivate) : SceneGL41StreamingSyncPrivate × List GLCall :=
  ({ p with
      fence := ⟨destroyed p.fence.a0, destroyed p.fence.a1, destroyed p.fence.a2⟩
      vbo := ⟨destroyed p.vbo.a0, destroyed p.vbo.a1, destroyed p.vbo.a2⟩
      vao := destroyed p.vao
      program := destroyed p.program },
   destroyCall p.fence.a0 .DeleteSync ++ destroyCall p.vbo.a0 .DeleteBuffers ++
   destroyCall p.fence.a1 .DeleteSync ++ destroyCall p.vbo.a1 .DeleteBuffers ++
   destroyCall p.fence.a2 .DeleteSync ++ destroyCall p.vbo.a2 .DeleteBuffers ++
   destroyCall p.vao .DeleteVertexArrays ++
   destroyCall p.program .DeleteProgram)

/-- A `glClientWaitSync` result that the scene treats as "not signaled". -/
def wait_failed (r : Nat) : Bool := r = GL_TIMEOUT_EXPIRED || r = GL_WAIT_FAILED

/-- First block of `draw()`: the wait on the fence `f` of the selected slot
(`f = 0`: no fence pending) and its deletion. -/
def draw_wait (e : SceneGL41StreamingSyncDrawEnv) (warned_sync_timeout : Bool) (f : Nat) :
    List GLCall :=
  if f ≠ 0 then
    [GLCall.ClientWaitSync f GL_SYNC_FLUSH_COMMANDS_BIT 1000000 e.wait_res] ++
    (if wait_failed e.wait_res then
      (if !warned_sync_timeout then
        [GLCall.Log .info "gl41-streaming-sync: ClientWaitSync returned %s"] else []) ++
      [GLCall.ClientWaitSync f GL_SYNC_FLUSH_COMMANDS_BIT 5000000 e.wait_res2] ++
      (if wait_failed e.wait_res2 then
        [GLCall.Log .info "gl41-streaming-sync: sync wait exceeded, forcing glFinish", .Finish]
       else [])
     else []) ++
    [.DeleteSync f]
  else []

/-- Second block of `draw()`: binding the slot buffer `vbo` and writing the
frame's vertices, through the mapping or through the fallback upload. -/
def draw_upload (e : SceneGL41StreamingSyncDrawEnv) (p : SceneGL41StreamingSyncPrivate)
    (vbo : Nat) : List GLCall :=
  let verts := toSizeT p.vertex_count
  let tris := verts / 3
  [.BindVertexArray p.vao, .BindBuffer .ARRAY_BUFFER vbo,
   .VertexAttribPointer (toGLuint p.attr_position) 3 0 0,
   .MapBufferRange .ARRAY_BUFFER 0 p.bytes (GL_MAP_WRITE_BIT ||| GL_MAP_INVALIDATE_BUFFER_BIT)
      e.mapped] ++
  (if e.mapped then
    [GLCall.MappedWrite (tris * 9), .UnmapBuffer .ARRAY_BUFFER e.unmap_ok] ++
    (if !e.unmap_ok && !p.warned_unmap_failure then
      [GLCall.Log .info "gl41-streaming-sync: UnmapBuffer reported corruption"] else [])
   else
    (if !p.warned_map_failure then
      [GLCall.Log .info "gl41-streaming-sync: MapBufferRange failed, falling back to glBufferSubData"]
     else []) ++
    [.BufferData .ARRAY_BUFFER p.bytes, .BufferSubData .ARRAY_BUFFER 0 (verts * 3 * 4)])

/-- The call `glEnable(cap)` or `glDisable(cap)` restoring a saved flag. -/
def restore_cap (cap : Capability) (was_enabled : Bool) : GLCall :=
  if was_enabled then .Enable cap else .Disable cap

/-- Third block of `draw()`: capture of the context state `g` (the state
current at that point), rendering, restoration, and the new fence. -/
def draw_render (e : SceneGL41StreamingSyncDrawEnv) (p : SceneGL41StreamingSyncPrivate)
    (g : GLState) : List GLCall :=
  [.BindFramebuffer .FRAMEBUFFER 0, .Viewport 0 0 e.canvas_width e.canvas_height,
   .Disable .CULL_FACE, .Enable .DEPTH_TEST, .Disable .BLEND, .Disable .SCISSOR_TEST,
   .Disable .STENCIL_TEST, .ColorMask true true true true, .UseProgram p.program] ++
  (if p.u_mvp ≥ 0 then [GLCall.UniformMatrix4fv p.u_mvp] else []) ++
  [.ClearColor, .Clear, .DrawArrays .TRIANGLES 0 p.vertex_count, .UseProgram 0,
   restore_cap .DEPTH_TEST (g.isEnabled .DEPTH_TEST),
   restore_cap .CULL_FACE (g.isEnabled .CULL_FACE),
   restore_cap .BLEND (g.isEnabled .BLEND),
   restore_cap .SCISSOR_TEST (g.isEnabled .SCISSOR_TEST),
   restore_cap .STENCIL_TEST (g.isEnabled .STENCIL_TEST),
   .ColorMask g.color_mask.1 g.color_mask.2.1 g.color_mask.2.2.1 g.color_mask.2.2.2,
   .Viewport g.viewport.1 g.viewport.2.1 g.viewport.2.2.1 g.viewport.2.2.2,
   .BindFramebuffer .READ_FRAMEBUFFER g.read_fbo,
   .BindFramebuffer .DRAW_FRAMEBUFFER g.draw_fbo,
   .FenceSync e.fence, .BindBuffer .ARRAY_BUFFER 0, .BindVertexArray 0]

/-- The operation `SceneGL41StreamingSync::draw` in context state `g`: the
new record and the calls issued. -/
def draw (e : SceneGL41StreamingSyncDrawEnv) (p : SceneGL41StreamingSyncPrivate) (g : GLState) :
    SceneGL41StreamingSyncPrivate × List GLCall :=
  let idx := p.buffer_index % 3
  let f := p.fence.get idx
  let t1 := draw_wait e p.warned_sync_timeout f ++ draw_upload e p (p.vbo.get idx)
  ({ p with
      buffer_index := (p.buffer_index + 1) % UINT_RANGE
      fence := p.fence.set idx e.fence
      warned_sync_timeout :=
        if f ≠ 0 ∧ wait_failed e.wait_res = true ∧ p.warned_sync_timeout = false then true
        else p.warned_sync_timeout
      warned_unmap_failure :=
        if e.mapped = true ∧ e.unmap_ok = false ∧ p.warned_unmap_failure = false then true
        else p.warned_unmap_failure
      warned_map_failure :=
        if e.mapped = false ∧ p.warned_map_failure = false then true
        else p.warned_map_failure },
   t1 ++ draw_render e p (g.run t1))

end SceneGL41StreamingSync

/-! ## Scene gl41-geometry -/

/-- The record `SceneGL41GeometryPrivate`. -/
structure SceneGL41GeometryPrivate where
  procs : GL41Procs := {}
  program : Nat := 0
  vao : Nat := 0
  vbo : Nat := 0
  u_size : Int := -1
  u_time : Int := -1
  points : Nat := 65536
deriving DecidableEq

/-- The options registered by the constructor, with their defaults. -/
structure SceneGL41GeometryOptions where
  points : String := "65536"
  size : String := "0.012"

/-- Driver answers during `SceneGL41Geometry::load`. -/
structure SceneGL41GeometryLoadEnv where
  dl : String → DlsymResult
  vs : CompileEnv
  gs : CompileEnv
  fs : CompileEnv
  link : LinkEnv
  u_size : Int
  u_time : Int
  vao : Nat
  vbo : Nat
  pos_loc : Int

namespace SceneGL41Geometry

/-- The lambda `cleanup_geometry_load` of `load()`. -/
def cleanup_geometry_load (p : SceneGL41GeometryPrivate) :
    SceneGL41GeometryPrivate × List GLCall :=
  ({ p with
      vbo := destroyed p.vbo
      vao := destroyed p.vao
      program := destroyed p.program },
   [.BindBuffer .ARRAY_BUFFER 0, .BindVertexArray 0] ++
   destroyCall p.vbo .DeleteBuffers ++
   destroyCall p.vao .DeleteVertexArrays ++
   destroyCall p.program .DeleteProgram)

/-- The operation `SceneGL41Geometry::load`. -/
def load (e : SceneGL41GeometryLoadEnv) (p : SceneGL41GeometryPrivate) :
    Bool × SceneGL41GeometryPrivate × List GLCall :=
  let pl := GL41Procs.load e.dl true
  let p0 := { p with procs := pl.2.1 }
  if !pl.1 then (false, p0, pl.2.2) else
  let vs := compile_shader .VERTEX_SHADER e.vs
  if vs.1 = 0 then
    (false, p0, pl.2.2 ++ vs.2 ++ [.Log .error "gl41-geometry vertex shader: %s"]) else
  let gs := compile_shader .GEOMETRY_SHADER e.gs
  if gs.1 = 0 then
    (false, p0, pl.2.2 ++ vs.2 ++ gs.2 ++
      [.Log .error "gl41-geometry geometry shader: %s", .DeleteShader vs.1]) else
  let fs := compile_shader .FRAGMENT_SHADER e.fs
  if fs.1 = 0 then
    (false, p0, pl.2.2 ++ vs.2 ++ gs.2 ++ fs.2 ++
      [.Log .error "gl41-geometry fragment shader: %s", .DeleteShader vs.1,
       .DeleteShader gs.1]) else
  let lk := link_program [vs.1, gs.1, fs.1] e.link
  let p1 := { p0 with program := lk.1 }
  let t1 := pl.2.2 ++ vs.2 ++ gs.2 ++ fs.2 ++ lk.2 ++
    [.DeleteShader vs.1, .DeleteShader gs.1, .DeleteShader fs.1]
  if p1.program = 0 then (false, p1, t1 ++ [.Log .error "gl41-geometry link: %s"]) else
  let p2 := { p1 with u_size := e.u_size, u_time := e.u_time, vao := e.vao, vbo := e.vbo }
  let t2 := t1 ++
    [.GenVertexArrays e.vao, .BindVertexArray e.vao,
     .GenBuffers [e.vbo], .BindBuffer .ARRAY_BUFFER e.vbo,
     .BufferData .ARRAY_BUFFER (p2.points * 2 * 4)]
  if e.pos_loc < 0 then
    (false, (cleanup_geometry_load p2).1,
     t2 ++ [.Log .error "gl41-geometry: missing vertex attribute 'position'"] ++
       (cleanup_geometry_load p2).2) else
  (true, p2,
   t2 ++ [.EnableVertexAttribArray e.pos_loc.toNat, .VertexAttribPointer e.pos_loc.toNat 2 0 0,
          .BindBuffer .ARRAY_BUFFER 0, .BindVertexArray 0])

/-- The operation `SceneGL41Geometry::setup`. -/
def setup (stof : String → Option FloatVal) (o : SceneGL41GeometryOptions)
    (p : SceneGL41GeometryPrivate) : Bool × SceneGL41GeometryPrivate × List GLCall :=
  let points := clampUnsigned 1024 262144 (parseUnsigned o.points 65536)
  let size := clampFloat (.finite (1 / 1000)) (.finite (5 / 100))
    (parseFloat stof o.size (.finite (12 / 1000)))
  let p1 := { p with points := points }
  (true, p1,
   [.BindBuffer .ARRAY_BUFFER p1.vbo, .BufferData .ARRAY_BUFFER (points * 2 * 4),
    .BindBuffer .ARRAY_BUFFER 0, .UseProgram p1.program] ++
   (if p1.u_size ≥ 0 then [GLCall.Uniform2f p1.u_size size size] else []) ++
   [.UseProgram 0])

/-- The operation `SceneGL41Geometry::unload`. -/
def unload (p : SceneGL41GeometryPrivate) : SceneGL41GeometryPrivate × List GLCall :=
  ({ p with
      vao := destroyed p.vao
      vbo := destroyed p.vbo
      program := destroyed p.program },
   destroyCall p.vao .DeleteVertexArrays ++
   destroyCall p.vbo .DeleteBuffers ++
   destroyCall p.program .DeleteProgram)

end SceneGL41Geometry

/-! ## Vocabulary of the properties -/

/-- Every handle of the instancing record is at the sentinel. -/
def SceneGL41InstancingPrivate.allSentinel (p : SceneGL41InstancingPrivate) : Prop :=
  p.program = 0 ∧ p.vao = 0 ∧ p.vbo_pos = 0 ∧ p.vbo_offsets = 0 ∧ p.ubo = 0

/-- Every handle of the pipeline record is at the sentinel. -/
def SceneGL41PipelinePrivate.allSentinel (p : SceneGL41PipelinePrivate) : Prop :=
  p.pipeline = 0 ∧ p.prog_vs = 0 ∧ p.prog_fs = 0 ∧ p.vao = 0 ∧ p.vbo = 0 ∧
  p.ubo_scene = 0 ∧ p.ubo_model = 0

/-- Every handle of the MRT record is at the sentinel and the colour texture
list is empty. -/
def SceneGL41MRTPrivate.allSentinel (p : SceneGL41MRTPrivate) : Prop :=
  p.program = 0 ∧ p.vao = 0 ∧ p.vbo = 0 ∧ p.fbo = 0 ∧ p.rbo_depth = 0 ∧ p.color_tex = []

/-- Every handle of the texture array record is at the sentinel. -/
def SceneGL41TexArrayPrivate.allSentinel (p : SceneGL41TexArrayPrivate) : Prop :=
  p.program = 0 ∧ p.vao = 0 ∧ p.vbo_pos = 0 ∧ p.vbo_instance = 0 ∧ p.ubo = 0 ∧ p.tex = 0

/-- Every handle of the streaming record is at the sentinel: program, vertex
array, the three buffers, and the three fences are null. -/
def SceneGL41StreamingSyncPrivate.allSentinel (p : SceneGL41StreamingSyncPrivate) : Prop :=
  p.program = 0 ∧ p.vao = 0 ∧ p.vbo = ⟨0, 0, 0⟩ ∧ p.fence = ⟨0, 0, 0⟩

/-- Every handle of the geometry record is at the sentinel. -/
def SceneGL41GeometryPrivate.allSentinel (p : SceneGL41GeometryPrivate) : Prop :=
  p.program = 0 ∧ p.vao = 0 ∧ p.vbo = 0

/-- A call that starts or performs a write into the buffer bound to
`GL_ARRAY_BUFFER`: the mapping for writing, the client write through the
mapping, and the two uploads of the fallback path. -/
def GLCall.writesBuffer : GLCall → Bool
  | .MapBufferRange _ _ _ _ _ => true
  | .MappedWrite _ => true
  | .BufferData _ _ => true
  | .BufferSubData _ _ _ => true
  | _ => false

/-- A call after which the commands guarded by fence `f` are known to be
complete: a wait on `f` answered with a status other than
`GL_TIMEOUT_EXPIRED` and `GL_WAIT_FAILED`, or `glFinish`. -/
def GLCall.releasesFence (f : Nat) : GLCall → Bool
  | .ClientWaitSync s _ _ r => s = f && r ≠ GL_TIMEOUT_EXPIRED && r ≠ GL_WAIT_FAILED
  | .Finish => true
  | _ => false

/-- Left-to-right check of a call list: every buffer write comes after a
call releasing fence `f` (`R` tells whether one was already seen). -/
def writesGuarded (f : Nat) : Bool → List GLCall → Bool
  | _, [] => true
  | R, c :: cs => (!c.writesBuffer || R) && writesGuarded f (R || c.releasesFence f) cs

/-- The string is a plain decimal numeral (digits only, at least one) and
denotes `n`. -/
def IsDecimalOf (s : String) (n : Nat) : Prop :=
  s.data ≠ [] ∧ (∀ c ∈ s.data, isdigit c = true) ∧ digitsValue s.data = n

/-- The integer options of the six scenes. -/
inductive IntOption where
  | instancing_instances
  | pipeline_grid
  | mrt_targets
  | mrt_size
  | texarray_instances
  | texarray_layers
  | texarray_tex_size
  | streaming_bytes
  | geometry_points
deriving DecidableEq, Repr

/-- Lower end of the range documented for the option. -/
def IntOption.minimum : IntOption → Nat
  | .instancing_instances => 1
  | .pipeline_grid => 1
  | .mrt_targets => 1
  | .mrt_size => 64
  | .texarray_instances => 1
  | .texarray_layers => 1
  | .texarray_tex_size => 8
  | .streaming_bytes => 256 * 1024
  | .geometry_points => 1024

/-- Upper end of the range documented for the option. -/
def IntOption.maximum : IntOption → Nat
  | .instancing_instances => 16384
  | .pipeline_grid => 16
  | .mrt_targets => 4
  | .mrt_size => 4096
  | .texarray_instances => 16384
  | .texarray_layers => 256
  | .texarray_tex_size => 512
  | .streaming_bytes => 64 * 1024 * 1024
  | .geometry_points => 262144

/-- Default declared for the option by the scene constructor. -/
def IntOption.default : IntOption → Nat
  | .instancing_instances => 4096
  | .pipeline_grid => 10
  | .mrt_targets => 4
  | .mrt_size => 1024
  | .texarray_instances => 4096
  | .texarray_layers => 64
  | .texarray_tex_size => 64
  | .streaming_bytes => 4194304
  | .geometry_points => 65536

/-- Number of values of the unsigned type the parsed option is stored in:
`size_t` for the streaming size, `unsigned` for all others. -/
def IntOption.storeRange : IntOption → Nat
  | .streaming_bytes => 2 ^ 64
  | _ => 2 ^ 32

/-- Everything a `setup()` call of any scene depends on besides the option
under test: the float parser, the records before the call, the other option
strings and the driver answers. -/
structure SetupContext where
  stof : String → Option FloatVal
  instancing : SceneGL41InstancingPrivate
  pipeline : SceneGL41PipelinePrivate
  mrt : SceneGL41MRTPrivate
  mrt_options : SceneGL41MRTOptions
  mrt_env : MRTRecreateEnv
  texarray : SceneGL41TexArrayPrivate
  texarray_options : SceneGL41TexArrayOptions
  streaming : SceneGL41StreamingSyncPrivate
  streaming_names : Arr3 Nat
  geometry : SceneGL41GeometryPrivate
  geometry_options : SceneGL41GeometryOptions

/-- The value of the option's field in the scene record after `setup()` ran
with the option string `value`. -/
def IntOption.realized (c : SetupContext) (value : String) : IntOption → Nat
  | .instancing_instances =>
      (SceneGL41Instancing.setup { instances := value } c.instancing).2.1.instances
  | .pipeline_grid => (SceneGL41Pipeline.setup { grid := value } c.pipeline).2.1.grid
  | .mrt_targets =>
      (SceneGL41MRT.setup { c.mrt_options with targets := value } c.mrt_env c.mrt).2.1.targets
  | .mrt_size =>
      (SceneGL41MRT.setup { c.mrt_options with size := value } c.mrt_env c.mrt).2.1.size
  | .texarray_instances =>
      (SceneGL41TexArray.setup c.stof { c.texarray_options with instances := value }
        c.texarray).2.1.instances
  | .texarray_layers =>
      (SceneGL41TexArray.setup c.stof { c.texarray_options with layers := value }
        c.texarray).2.1.layers
  | .texarray_tex_size =>
      (SceneGL41TexArray.setup c.stof { c.texarray_options with tex_size := value }
        c.texarray).2.1.tex_size
  | .streaming_bytes =>
      (SceneGL41StreamingSync.setup { bytes := value } c.streaming_names c.streaming).2.1.bytes
  | .geometry_points =>
      (SceneGL41Geometry.setup c.stof { c.geometry_options with points := value }
        c.geometry).2.1.points

/-- The value returned by the `setup()` call that realizes the option. -/
def IntOption.setupResult (c : SetupContext) (value : String) : IntOption → Bool
  | .instancing_instances => (SceneGL41Instancing.setup { instances := value } c.instancing).1
  | .pipeline_grid => (SceneGL41Pipeline.setup { grid := value } c.pipeline).1
  | .mrt_targets =>
      (SceneGL41MRT.setup { c.mrt_options with targets := value } c.mrt_env c.mrt).1
  | .mrt_size =>
      (SceneGL41MRT.setup { c.mrt_options with size := value } c.mrt_env c.mrt).1
  | .texarray_instances =>
      (SceneGL41TexArray.setup c.stof { c.texarray_options with instances := value }
        c.texarray).1
  | .texarray_layers =>
      (SceneGL41TexArray.setup c.stof { c.texarray_options with layers := value }
        c.texarray).1
  | .texarray_tex_size =>
      (SceneGL41TexArray.setup c.stof { c.texarray_options with tex_size := value }
        c.texarray).1
  | .streaming_bytes =>
      (SceneGL41StreamingSync.setup { bytes := value } c.streaming_names c.streaming).1
  | .geometry_points =>
      (SceneGL41Geometry.setup c.stof { c.geometry_options with points := value }
        c.geometry).1

/-- The parser applied to the option string: `std::stoull` for the streaming
size, `std::stoul` for all others. -/
def IntOption.parser : IntOption → String → Option Nat
  | .streaming_bytes => stoull
  | _ => stoul

/-- The result of an operation either reports success or leaves a record
satisfying `ok`. -/
def failsInto {σ : Type} (ok : σ → Prop) (r : Bool × σ × List GLCall) : Prop :=
  r.1 = true ∨ ok r.2.1

/-! ## Concrete runs used to exercise the statements -/

/-- A driver on which every entry point resolves. -/
def exampleDlAll : String → DlsymResult := fun _ => ⟨true, false⟩

/-- A run of the instancing `load()` in which the uniform block `Matrices`
is not found. -/
def exampleInstancingLoadFail : SceneGL41InstancingLoadEnv :=
  { dl := exampleDlAll, vs := ⟨1, true⟩, fs := ⟨2, true⟩, link := ⟨3, true⟩, vao := 4,
    vbo_pos := 5, pos_loc := 0, off_loc := 1, vbo_offsets := 6, ubo := 7,
    block := GL_INVALID_INDEX }

/-- A run of the pipeline `load()` in which the attribute `normal` is not
found. -/
def examplePipelineLoadFail : SceneGL41PipelineLoadEnv :=
  { dl := exampleDlAll, vs := ⟨1, true⟩, fs := ⟨2, true⟩, prog_vs := 3, prog_fs := 4,
    vs_link_ok := true, fs_link_ok := true, pipeline := 5, ubo_scene := 6, ubo_model := 7,
    scene_vs := 0, scene_fs := 0, model_vs := 1, vao := 8, vbo := 9,
    attr_position := 0, attr_normal := -1 }

/-- A run of the MRT `load()` in which the framebuffer is reported
incomplete (status `GL_FRAMEBUFFER_INCOMPLETE_ATTACHMENT`). -/
def exampleMRTLoadFail : SceneGL41MRTLoadEnv :=
  { dl := exampleDlAll, vs := ⟨1, true⟩, fs := ⟨2, true⟩, program := 3, link_ok := true,
    u_time := 0, vao := 4, vbo := 5, pos_loc := 0,
    recreate := { tex := fun i => 10 + i, rbo := 6, fbo := 7, status := 0x8CD6 } }

/-- A run of the texture array `load()` in which the uniform block is not
found. -/
def exampleTexArrayLoadFail : SceneGL41TexArrayLoadEnv :=
  { dl := exampleDlAll, generate_mipmap := true, vs := ⟨1, true⟩, fs := ⟨2, true⟩,
    link := ⟨3, true⟩, loc_tex := 0, u_bias := 1, vao := 4, vbo_pos := 5, pos_loc := 0,
    vbo_instance := 6, inst_loc := 1, ubo := 7, block := GL_INVALID_INDEX, tex := 8 }

/-- A run of the streaming `load()` in which the attribute `position` is not
found. -/
def exampleStreamingLoadFail : SceneGL41StreamingSyncLoadEnv :=
  { dl := exampleDlAll, vs := ⟨1, true⟩, fs := ⟨2, true⟩, link := ⟨3, true⟩, u_mvp := 0,
    vao := 4, vbo := ⟨5, 6, 7⟩, attr_position := -1 }

/-- A run of the geometry `load()` in which the attribute `position` is not
found. -/
def exampleGeometryLoadFail : SceneGL41GeometryLoadEnv :=
  { dl := exampleDlAll, vs := ⟨1, true⟩, gs := ⟨2, true⟩, fs := ⟨3, true⟩, link := ⟨4, true⟩,
    u_size := 0, u_time := 1, vao := 5, vbo := 6, pos_loc := -1 }

/-- A texture array record as left by a successful `load()`. -/
def exampleTexArrayLoaded : SceneGL41TexArrayPrivate :=
  { procs := GL41Procs.resolved exampleDlAll, program := 3, vao := 4, vbo_pos := 5,
    vbo_instance := 6, ubo := 7, tex := 8, u_bias := 1 }

/-- A context state with nothing bound and every capability disabled. -/
def exampleGLState : GLState :=
  { read_fbo := 0, draw_fbo := 0, array_buffer := 0, uniform_buffer := 0,
    viewport := (0, 0, 800, 600), depth_test := false, cull_face := false,
    blend := fun _ => false, scissor_test := false, stencil_test := false,
    depth_func := GL_LESS, color_mask := (true, true, true, true),
    active_texture := GL_TEXTURE0, read_buffer := fun _ => GL_BACK }

/-- A streaming draw in which both waits time out. -/
def exampleStreamingTimedOut : SceneGL41StreamingSyncDrawEnv :=
  { wait_res := GL_TIMEOUT_EXPIRED, wait_res2 := GL_TIMEOUT_EXPIRED, mapped := true,
    unmap_ok := true, fence := 21, canvas_width := 800, canvas_height := 600 }

/-- A streaming record whose slot 0 is selected next and holds fence 20. -/
def exampleStreamingPending : SceneGL41StreamingSyncPrivate :=
  { program := 3, vao := 4, vbo := ⟨5, 6, 7⟩, fence := ⟨20, 0, 0⟩, buffer_index := 3,
    vertex_count := 9, base_xy_size := 6, attr_position := 0, u_mvp := 0 }

/-- A context for concrete `setup()` runs: freshly constructed scenes,
default option strings, a float parser that always throws. -/
def exampleSetupContext : SetupContext :=
  { stof := fun _ => none, instancing := {}, pipeline := {}, mrt := {}, mrt_options := {},
    mrt_env := { tex := fun i => 10 + i, rbo := 6, fbo := 7, status := GL_FRAMEBUFFER_COMPLETE },
    texarray := {}, texarray_options := {}, streaming := {}, streaming_names := ⟨1, 2, 3⟩,
    geometry := {}, geometry_options := {} }

/-! ## Draw operations of the other five scenes

Each returns the (unchanged) record and the calls issued; `g` is the context
state at entry, from which the state queries of the function are answered. -/

namespace SceneGL41Instancing

/-- The operation `SceneGL41Instancing::draw`. -/
def draw (p : SceneGL41InstancingPrivate) : SceneGL41InstancingPrivate × List GLCall :=
  (p,
   [.UseProgram p.program, .BindBuffer .UNIFORM_BUFFER p.ubo,
    .BufferSubData .UNIFORM_BUFFER 0 64, .BindBuffer .UNIFORM_BUFFER 0,
    .BindVertexArray p.vao, .DrawArraysInstanced .TRIANGLES 0 6 (toGLsizei p.instances),
    .BindVertexArray 0, .UseProgram 0])

end SceneGL41Instancing

namespace SceneGL41Pipeline

/-- The operation `SceneGL41Pipeline::draw`. -/
def draw (p : SceneGL41PipelinePrivate) (g : GLState) :
    SceneGL41PipelinePrivate × List GLCall :=
  (p,
   [.Enable .DEPTH_TEST, .DepthFunc GL_LESS,
    .BindBuffer .UNIFORM_BUFFER p.ubo_scene, .BufferSubData .UNIFORM_BUFFER 0 96,
    .BindBuffer .UNIFORM_BUFFER 0, .ClearColor, .Clear,
    .BindProgramPipeline p.pipeline, .BindVertexArray p.vao,
    .DrawArraysInstanced .TRIANGLES 0 36 (toGLsizei p.instance_count),
    .BindVertexArray 0, .BindProgramPipeline 0,
    SceneGL41StreamingSync.restore_cap .DEPTH_TEST (g.isEnabled .DEPTH_TEST),
    .DepthFunc g.depth_func])

end SceneGL41Pipeline

/-- Platform answers during one `SceneGL41MRT::draw`: the elapsed time and
the canvas size. -/
structure SceneGL41MRTDrawEnv where
  t : FloatVal
  canvas_width : Int
  canvas_height : Int

namespace SceneGL41MRT

/-- The blend function selected for target `i` by the `switch (i % 4)`. -/
def blend_func (i : Nat) : GLCall :=
  match i % 4 with
  | 0 => .BlendFunci i GL_SRC_ALPHA GL_ONE_MINUS_SRC_ALPHA
  | 1 => .BlendFunci i GL_ONE GL_ONE_MINUS_SRC_ALPHA
  | 2 => .BlendFunci i GL_SRC_ALPHA GL_ONE
  | _ => .BlendFunci i GL_ONE GL_ONE

/-- The first loop of `draw()`: per-target blending for the targets in `is`. -/
def blend_enable_calls (is : List Nat) : List GLCall :=
  (is.map fun i => [GLCall.Enablei .BLEND i, .BlendEquationi i GL_FUNC_ADD, blend_func i]).flatten

/-- The second loop of `draw()`: `glDisablei(GL_BLEND, i)` for the targets in
`is`. -/
def blend_disable_calls (is : List Nat) : List GLCall :=
  is.map fun i => GLCall.Disablei .BLEND i

/-- The operation `SceneGL41MRT::draw`. -/
def draw (e : SceneGL41MRTDrawEnv) (p : SceneGL41MRTPrivate) (g : GLState) :
    SceneGL41MRTPrivate × List GLCall :=
  if !p.procs.Enablei || !p.procs.Disablei || !p.procs.BlendFunci ||
     !p.procs.BlendEquationi || !p.procs.BlitFramebuffer then (p, []) else
  (p,
   [.Enable .DEPTH_TEST, .DepthFunc GL_LESS,
    .BindFramebuffer .FRAMEBUFFER p.fbo,
    .Viewport 0 0 (toGLsizei p.size) (toGLsizei p.size), .ClearColor, .Clear] ++
   blend_enable_calls (List.range p.targets) ++
   [.UseProgram p.program] ++
   (if p.u_time ≥ 0 then [GLCall.Uniform1f p.u_time e.t] else []) ++
   [.BindVertexArray p.vao, .DrawArrays .TRIANGLES 0 3, .BindVertexArray 0, .UseProgram 0] ++
   blend_disable_calls (List.range p.targets) ++
   [.BindFramebuffer .READ_FRAMEBUFFER p.fbo, .ReadBuffer GL_COLOR_ATTACHMENT0,
    .BindFramebuffer .DRAW_FRAMEBUFFER 0,
    .BlitFramebuffer (toGLsizei p.size) (toGLsizei p.size) e.canvas_width e.canvas_height,
    .ReadBuffer (g.read_buffer g.read_fbo),
    .BindFramebuffer .READ_FRAMEBUFFER g.read_fbo,
    .BindFramebuffer .DRAW_FRAMEBUFFER g.draw_fbo,
    .Viewport g.viewport.1 g.viewport.2.1 g.viewport.2.2.1 g.viewport.2.2.2,
    SceneGL41StreamingSync.restore_cap .DEPTH_TEST (g.isEnabled .DEPTH_TEST),
    .DepthFunc g.depth_func])

end SceneGL41MRT

namespace SceneGL41TexArray

/-- The operation `SceneGL41TexArray::draw`. -/
def draw (p : SceneGL41TexArrayPrivate) (g : GLState) :
    SceneGL41TexArrayPrivate × List GLCall :=
  (p,
   [.UseProgram p.program, .ActiveTexture GL_TEXTURE0, .BindTexture .TEXTURE_2D_ARRAY p.tex,
    .BindBuffer .UNIFORM_BUFFER p.ubo, .BufferSubData .UNIFORM_BUFFER 0 64,
    .BindBuffer .UNIFORM_BUFFER 0,
    .BindVertexArray p.vao, .DrawArraysInstanced .TRIANGLES 0 6 (toGLsizei p.instances),
    .BindVertexArray 0, .BindTexture .TEXTURE_2D_ARRAY 0, .UseProgram 0,
    .ActiveTexture g.active_texture])

end SceneGL41TexArray

namespace SceneGL41Geometry

/-- The operation `SceneGL41Geometry::draw`; `t` is the elapsed time. -/
def draw (t : FloatVal) (p : SceneGL41GeometryPrivate) :
    SceneGL41GeometryPrivate × List GLCall :=
  (p,
   [.UseProgram p.program] ++
   (if p.u_time ≥ 0 then [GLCall.Uniform1f p.u_time t] else []) ++
   [.BindVertexArray p.vao, .DrawArrays .POINTS 0 (toGLsizei p.points),
    .BindVertexArray 0, .UseProgram 0])

end SceneGL41Geometry

/-! ## The lambda `fill_vertices` of the streaming draw -/

namespace SceneGL41StreamingSync

/-- The indices of `dst` (in floats) written by `fill_vertices` for `tris`
triangles, in program order. -/
def fill_vertices_writes (tris : Nat) : List Nat :=
  ((List.range tris).map fun i =>
    [(i * 3 + 0) * 3 + 0, (i * 3 + 0) * 3 + 1, (i * 3 + 0) * 3 + 2,
     (i * 3 + 1) * 3 + 0, (i * 3 + 1) * 3 + 1, (i * 3 + 1) * 3 + 2,
     (i * 3 + 2) * 3 + 0, (i * 3 + 2) * 3 + 1, (i * 3 + 2) * 3 + 2]).flatten

/-- The indices of `base_xy` read by `fill_vertices` for `tris` triangles. -/
def fill_vertices_reads (tris : Nat) : List Nat :=
  ((List.range tris).map fun i => [i * 2 + 0, i * 2 + 1]).flatten

end SceneGL41StreamingSync

/-! ## Capability probing (`gl-headers.cpp` and the `supported()` operations) -/

/-- The preprocessor configuration `GLExtensions::is_core_profile` is built
with. -/
structure BuildConfig where
  GLMARK2_USE_GL : Bool
  has_GL_CONTEXT_PROFILE_MASK : Bool
  has_GL_CONTEXT_CORE_PROFILE_BIT : Bool

/-- The desktop GL build: all three macros defined. -/
def BuildConfig.desktop : BuildConfig := ⟨true, true, true⟩

/-- Driver answers during one `GLExtensions::is_core_profile`: the 32-bit
pattern left in `mask` after `glGetIntegerv(GL_CONTEXT_PROFILE_MASK, &mask)`
(0 when the query wrote nothing), the value of `glGetError()`, and the
strings returned for `GL_EXTENSIONS` and `GL_VERSION` (`none`: null). -/
structure CoreProfileEnv where
  mask : Nat
  error : Nat
  extensions : Option String
  version : Option String

/-- Whether `pat` matches at the start of `s`. -/
def startsWithChars : List Char → List Char → Bool
  | _, [] => true
  | [], _ :: _ => false
  | c :: cs, q :: qs => c = q && startsWithChars cs qs

/-- Search of `pat` in `s`, whose first character has index `i`. -/
def findChars (pat : List Char) : List Char → Nat → Option Nat
  | [], i => if pat = [] then some i else none
  | c :: cs, i => if startsWithChars (c :: cs) pat then some i else findChars pat cs (i + 1)

/-- Model of `std::string::find(pat, pos)`; `none` is `npos`. -/
def stringFind (s pat : String) (pos : Nat) : Option Nat :=
  if pos > s.data.length then none else findChars pat.data (s.data.drop pos) pos

/-- The function `GLExtensions::is_core_profile`. -/
def GLExtensions.is_core_profile (cfg : BuildConfig) (e : CoreProfileEnv) : Bool :=
  if !cfg.GLMARK2_USE_GL then false
  else if cfg.has_GL_CONTEXT_PROFILE_MASK ∧ e.error = GL_NO_ERROR ∧ e.mask ≠ 0 then
    (if cfg.has_GL_CONTEXT_CORE_PROFILE_BIT then (e.mask &&& GL_CONTEXT_CORE_PROFILE_BIT) ≠ 0
     else false)
  else
    match e.extensions with
    | none => true
    | some _ =>
      match e.version with
      | none => false
      | some ver => if (stringFind ver "OpenGL ES" 0).isSome then false else false

/-- Everything a `supported()` call depends on: whether
`Options::macos_gl_profile` is `MacOSGLProfileLegacy`, the build and the
driver answers of `is_core_profile`, the `dlsym` outcomes, and whether the
pointer `GLExtensions::GenerateMipmap` is non-null. -/
structure SupportedEnv where
  legacy_profile : Bool
  config : BuildConfig
  core : CoreProfileEnv
  dl : String → DlsymResult
  generate_mipmap : Bool

/-- The two guards every `supported()` starts with; `some` is an early
return with the diagnostic printed under `show_errors`. -/
def supported_profile_guard (scene : String) (e : SupportedEnv) (show_errors : Bool) :
    Option (List GLCall) :=
  if e.legacy_profile then
    some (if show_errors then [.Log .info (scene ++ ": disabled in legacy profile")] else [])
  else if !GLExtensions.is_core_profile e.config e.core then
    some (if show_errors then [.Log .info (scene ++ ": requires a core profile context")] else [])
  else none

/-- The operation `SceneGL41Instancing::supported`; the table filled is a
local one, the record is not touched. -/
def SceneGL41Instancing.supported (e : SupportedEnv) (show_errors : Bool)
    (p : SceneGL41InstancingPrivate) : Bool × SceneGL41InstancingPrivate × List GLCall :=
  match supported_profile_guard "gl41-instancing" e show_errors with
  | some t => (false, p, t)
  | none => ((GL41Procs.load e.dl show_errors).1, p, (GL41Procs.load e.dl show_errors).2.2)

/-- The operation `SceneGL41Pipeline::supported`. -/
def SceneGL41Pipeline.supported (e : SupportedEnv) (show_errors : Bool)
    (p : SceneGL41PipelinePrivate) : Bool × SceneGL41PipelinePrivate × List GLCall :=
  match supported_profile_guard "gl41-pipeline" e show_errors with
  | some t => (false, p, t)
  | none =>
    let pl := GL41Procs.load e.dl show_errors
    if !pl.1 then (false, p, pl.2.2) else
    let have_pipeline := pl.2.1.GenProgramPipelines && pl.2.1.BindProgramPipeline &&
      pl.2.1.UseProgramStages && pl.2.1.DeleteProgramPipelines && pl.2.1.ProgramParameteri
    if !have_pipeline then
      (false, p, pl.2.2 ++ (if show_errors then
        [.Log .info "gl41-pipeline: missing program pipeline entry points"] else []))
    else (true, p, pl.2.2)

/-- The operation `SceneGL41MRT::supported`. -/
def SceneGL41MRT.supported (e : SupportedEnv) (show_errors : Bool)
    (p : SceneGL41MRTPrivate) : Bool × SceneGL41MRTPrivate × List GLCall :=
  match supported_profile_guard "gl41-mrt" e show_errors with
  | some t => (false, p, t)
  | none =>
    let pl := GL41Procs.load e.dl show_errors
    if !pl.1 then (false, p, pl.2.2) else
    let have_blend_i := pl.2.1.Enablei && pl.2.1.Disablei && pl.2.1.BlendFunci &&
      pl.2.1.BlendEquationi
    let have_blit := pl.2.1.BlitFramebuffer
    if !have_blend_i || !have_blit then
      (false, p, pl.2.2 ++ (if show_errors then
        [.Log .info "gl41-mrt: missing per-target blend or blit entry points"] else []))
    else (true, p, pl.2.2)

/-- The operation `SceneGL41TexArray::supported`. -/
def SceneGL41TexArray.supported (e : SupportedEnv) (show_errors : Bool)
    (p : SceneGL41TexArrayPrivate) : Bool × SceneGL41TexArrayPrivate × List GLCall :=
  match supported_profile_guard "gl41-texarray" e show_errors with
  | some t => (false, p, t)
  | none =>
    let pl := GL41Procs.load e.dl show_errors
    if !pl.1 then (false, p, pl.2.2) else
    if !e.generate_mipmap then
      (false, p, pl.2.2 ++ (if show_errors then
        [.Log .info "gl41-texarray: missing glGenerateMipmap entry point"] else []))
    else (true, p, pl.2.2)

/-- The operation `SceneGL41StreamingSync::supported`. -/
def SceneGL41StreamingSync.supported (e : SupportedEnv) (show_errors : Bool)
    (p : SceneGL41StreamingSyncPrivate) :
    Bool × SceneGL41StreamingSyncPrivate × List GLCall :=
  match supported_profile_guard "gl41-streaming-sync" e show_errors with
  | some t => (false, p, t)
  | none =>
    let pl := GL41Procs.load e.dl show_errors
    if !pl.1 then (false, p, pl.2.2) else
    let have_map := pl.2.1.MapBufferRange && pl.2.1.UnmapBuffer
    let have_sync := pl.2.1.FenceSync && pl.2.1.ClientWaitSync && pl.2.1.DeleteSync
    if !have_map || !have_sync then
      (false, p, pl.2.2 ++ (if show_errors then
        [.Log .info
          "gl41-streaming-sync: missing MapBufferRange and/or sync object entry points"]
        else []))
    else (true, p, pl.2.2)

/-- The operation `SceneGL41Geometry::supported`. -/
def SceneGL41Geometry.supported (e : SupportedEnv) (show_errors : Bool)
    (p : SceneGL41GeometryPrivate) : Bool × SceneGL41GeometryPrivate × List GLCall :=
  match supported_profile_guard "gl41-geometry" e show_errors with
  | some t => (false, p, t)
  | none => ((GL41Procs.load e.dl show_errors).1, p, (GL41Procs.load e.dl show_errors).2.2)

/-! ## Sequences of operations on one streaming scene -/

/-- One call of a lifecycle operation on a streaming scene, with the
answers of the driver and (for a draw) the context state at entry. -/
inductive StreamingOp where
  | load (e : SceneGL41StreamingSyncLoadEnv)
  | setup (o : SceneGL41StreamingSyncOptions) (names : Arr3 Nat)
  | draw (e : SceneGL41StreamingSyncDrawEnv) (g : GLState)
  | unload

/-- The record after the operation and the calls it issued. -/
def StreamingOp.apply (p : SceneGL41StreamingSyncPrivate) :
    StreamingOp → SceneGL41StreamingSyncPrivate × List GLCall
  | .load e => (SceneGL41StreamingSync.load e p).2
  | .setup o names => (SceneGL41StreamingSync.setup o names p).2
  | .draw e g => SceneGL41StreamingSync.draw e p g
  | .unload => SceneGL41StreamingSync.unload p

/-- The record after a sequence of operations. -/
def StreamingOp.run (p : SceneGL41StreamingSyncPrivate) (ops : List StreamingOp) :
    SceneGL41StreamingSyncPrivate :=
  ops.foldl (fun q op => (op.apply q).1) p

/-- Number of `draw()` calls in a sequence of operations. -/
def StreamingOp.draws (ops : List StreamingOp) : Nat :=
  ops.countP fun op => match op with
    | .draw _ _ => true
    | _ => false

/-- The calls issued by a sequence of `setup()` calls, one list per call. -/
def SceneGL41StreamingSync.setup_seq :
    List (SceneGL41StreamingSyncOptions × Arr3 Nat) → SceneGL41StreamingSyncPrivate →
      List (List GLCall)
  | [], _ => []
  | (o, names) :: rest, p =>
      (SceneGL41StreamingSync.setup o names p).2.2 ::
        setup_seq rest (SceneGL41StreamingSync.setup o names p).2.1

/-! ## Vocabulary of the properties (continued) -/

/-- The snapshot of the ambient state named by the specification: bound
framebuffers, bound buffers, viewport, enable flags (blend: as answered by
`glIsEnabled`), depth function, colour mask, active texture unit and the read
buffer selector of the framebuffer bound for reading. -/
structure AmbientState where
  read_fbo : Nat
  draw_fbo : Nat
  array_buffer : Nat
  uniform_buffer : Nat
  viewport : Int × Int × Int × Int
  depth_test : Bool
  cull_face : Bool
  blend : Bool
  scissor_test : Bool
  stencil_test : Bool
  depth_func : Nat
  color_mask : Bool × Bool × Bool × Bool
  active_texture : Nat
  read_buffer : Nat
deriving DecidableEq

/-- The snapshot of a context state. -/
def GLState.snapshot (g : GLState) : AmbientState :=
  { read_fbo := g.read_fbo, draw_fbo := g.draw_fbo, array_buffer := g.array_buffer,
    uniform_buffer := g.uniform_buffer, viewport := g.viewport,
    depth_test := g.isEnabled .DEPTH_TEST, cull_face := g.isEnabled .CULL_FACE,
    blend := g.isEnabled .BLEND, scissor_test := g.isEnabled .SCISSOR_TEST,
    stencil_test := g.isEnabled .STENCIL_TEST, depth_func := g.depth_func,
    color_mask := g.color_mask, active_texture := g.active_texture,
    read_buffer := g.read_buffer g.read_fbo }

def GLCall.isGenFramebuffers : GLCall → Bool
  | .GenFramebuffers _ => true
  | _ => false

def GLCall.isTexImage3D : GLCall → Bool
  | .TexImage3D _ _ _ => true
  | _ => false

def GLCall.isGenBuffers : GLCall → Bool
  | .GenBuffers _ => true
  | _ => false

def GLCall.isClientWaitSync : GLCall → Bool
  | .ClientWaitSync _ _ _ _ => true
  | _ => false

def GLCall.isFinish : GLCall → Bool
  | .Finish => true
  | _ => false

def GLCall.isDeleteSync : GLCall → Bool
  | .DeleteSync _ => true
  | _ => false

def GLCall.isFenceSync : GLCall → Bool
  | .FenceSync _ => true
  | _ => false

def GLCall.isDrawArrays : GLCall → Bool
  | .DrawArrays _ _ _ => true
  | _ => false

/-- The log line of the streaming `setup()` reporting an alignment rounding. -/
def GLCall.isAlignmentLog : GLCall → Bool
  | .Log .info msg => msg = "gl41-streaming-sync: bytes aligned down from %zu to %zu"
  | _ => false

/-- The predicate `P` holds of the result of an operation.  The marker keeps
`P` folded while a proof walks the branches of the operation. -/
@[irreducible]
def resultSat {σ : Type} (P : Bool × σ × List GLCall → Prop) (r : Bool × σ × List GLCall) :
    Prop :=
  P r

/-! ## Concrete runs used to exercise the statements (continued) -/

/-- A run of the MRT `load()` in which every step succeeds. -/
def exampleMRTLoadOk : SceneGL41MRTLoadEnv :=
  { exampleMRTLoadFail with
    recreate := { tex := fun i => 10 + i, rbo := 6, fbo := 7, status := GL_FRAMEBUFFER_COMPLETE } }

/-- A context state with buffers 8 and 9 bound to the array and uniform
buffer binding points. -/
def exampleGLStateBound : GLState :=
  { exampleGLState with array_buffer := 8, uniform_buffer := 9 }

/-- The buffers written by a list of calls issued from context state `g`:
for every call that writes the buffer bound to `GL_ARRAY_BUFFER`, the name
bound at that point, in order. -/
def GLState.writeTargets (g : GLState) : List GLCall → List Nat
  | [] => []
  | c :: cs => (if c.writesBuffer then [g.array_buffer] else []) ++ (g.apply c).writeTargets cs

/-- A streaming draw in which the first wait is answered as signaled. -/
def exampleStreamingSignaled : SceneGL41StreamingSyncDrawEnv :=
  { wait_res := GL_ALREADY_SIGNALED, wait_res2 := GL_ALREADY_SIGNALED, mapped := true,
    unmap_ok := true, fence := 22, canvas_width := 800, canvas_height := 600 }

/-- A life of a streaming scene: `load()`, `setup()` and four draws. -/
def exampleStreamingOps : List StreamingOp :=
  [.load { exampleStreamingLoadFail with attr_position := 0 }, .setup {} ⟨5, 6, 7⟩,
   .draw exampleStreamingSignaled exampleGLState, .draw exampleStreamingTimedOut exampleGLState,
   .draw exampleStreamingSignaled exampleGLState, .draw exampleStreamingTimedOut exampleGLState]

/-- The eight entry points every scene needs are resolved: three for vertex
arrays, two for instancing, three for uniform buffers. -/
def GL41Procs.coreResolved (r : GL41Procs) : Prop :=
  (r.GenVertexArrays = true ∧ r.BindVertexArray = true ∧ r.DeleteVertexArrays = true) ∧
  (r.DrawArraysInstanced = true ∧ r.VertexAttribDivisor = true) ∧
  (r.BindBufferBase = true ∧ r.GetUniformBlockIndex = true ∧ r.UniformBlockBinding = true)

/-- A platform on which every probe of `supported()` succeeds. -/
def exampleSupportedEnv : SupportedEnv :=
  { legacy_profile := false, config := BuildConfig.desktop,
    core := { mask := 1, error := 0, extensions := none, version := some "4.1" },
    dl := exampleDlAll, generate_mipmap := true }

/-- A run of the MRT `load()` in which every step succeeds and the lookup of
the uniform `uTime` reports not-found (-1). -/
def exampleMRTLoadNoUniform : SceneGL41MRTLoadEnv :=
  { exampleMRTLoadOk with u_time := -1 }

/-- A context in which the profile-mask query fails with `GL_INVALID_ENUM`
and `glGetString(GL_EXTENSIONS)` returns null. -/
def exampleCoreUnqueryable : CoreProfileEnv :=
  { mask := 0, error := 0x0500, extensions := none, version := none }

/-- The calls issued by a sequence of `draw()` calls on one streaming scene,
one list per call. -/
def SceneGL41StreamingSync.draw_seq :
    List (SceneGL41StreamingSyncDrawEnv × GLState) → SceneGL41StreamingSyncPrivate →
      List (List GLCall)
  | [], _ => []
  | (e, g) :: rest, p =>
      (SceneGL41StreamingSync.draw e p g).2 ::
        draw_seq rest (SceneGL41StreamingSync.draw e p g).1

/-- The diagnostic of a `glClientWaitSync` timeout or failure. -/
def GLCall.isSyncTimeoutLog : GLCall → Bool
  | .Log .info msg => msg = "gl41-streaming-sync: ClientWaitSync returned %s"
  | _ => false

/-- The diagnostic of the forced `glFinish`. -/
def GLCall.isForcedFinishLog : GLCall → Bool
  | .Log .info msg => msg = "gl41-streaming-sync: sync wait exceeded, forcing glFinish"
  | _ => false

/-- The diagnostic of a failed `glMapBufferRange`. -/
def GLCall.isMapFailureLog : GLCall → Bool
  | .Log .info msg =>
      msg = "gl41-streaming-sync: MapBufferRange failed, falling back to glBufferSubData"
  | _ => false

/-- The diagnostic of a `glUnmapBuffer` reporting corruption. -/
def GLCall.isUnmapFailureLog : GLCall → Bool
  | .Log .info msg => msg = "gl41-streaming-sync: UnmapBuffer reported corruption"
  | _ => false

/-- Total number of calls satisfying `P` over the call lists of a sequence
of operations. -/
def totalCount (P : GLCall → Bool) (traces : List (List GLCall)) : Nat :=
  (traces.map (List.countP P)).sum

/-- A run of the pipeline `load()` in which every step succeeds. -/
def examplePipelineLoadOk : SceneGL41PipelineLoadEnv :=
  { examplePipelineLoadFail with attr_normal := 1 }

/-- A context state like `exampleGLState` with blending enabled for every
draw buffer. -/
def exampleGLStateBlend : GLState :=
  { exampleGLState with blend := fun _ => true }

/-- Elapsed time and canvas size for a concrete MRT draw. -/
def exampleMRTDrawEnv : SceneGL41MRTDrawEnv :=
  { t := .finite 1, canvas_width := 800, canvas_height := 600 }

/-- A driver on which every entry point resolves except
`glBindFragDataLocation`. -/
def exampleDlNoFragData : String → DlsymResult := fun name =>
  if name = "glBindFragDataLocation" then ⟨false, true⟩ else ⟨true, false⟩

/-- The call is the error log line `msg`. -/
def GLCall.isErrorLog (msg : String) : GLCall → Bool
  | .Log .error m => m = msg
  | _ => false

/-- Driver answers of a framebuffer re-creation that is reported incomplete
(status `GL_FRAMEBUFFER_INCOMPLETE_ATTACHMENT`). -/
def exampleRecreateIncomplete : MRTRecreateEnv :=
  { tex := fun i => 30 + i, rbo := 26, fbo := 27, status := 0x8CD6 }

/-! ## Extension lookup (`gl-headers.cpp`) -/

/-- Model of `std::string::find(pat, pos)` on character lists; `none` is
`npos`. -/
def listFind (s pat : List Char) (pos : Nat) : Option Nat :=
  if pos > s.length then none else findChars pat (s.drop pos) pos

/-- The `while` loop of `GLExtensions::support` over the extension string
`ext_string`, entered with `pos`; the first argument bounds the number of
iterations. -/
def GLExtensions.support_scan (ext_string ext : List Char) : Nat → Nat → Bool
  | 0, _ => false
  | fuel + 1, pos =>
    match listFind ext_string ext pos with
    | none => false
    | some p =>
      let ok_before : Bool := p = 0 || ext_string.getD (p - 1) ' ' = ' '
      let after := p + ext.length
      let ok_after : Bool := after = ext_string.length || ext_string.getD after ' ' = ' '
      if ok_before && ok_after then true
      else GLExtensions.support_scan ext_string ext fuel after

/-- Driver answers during one `GLExtensions::support`: those of the nested
`is_core_profile` (its `extensions` is also the answer to the
`glGetString(GL_EXTENSIONS)` of `support`), whether `GL_NUM_EXTENSIONS` is
defined, the count and error of its query, and the indexed extension
names. -/
structure SupportEnv where
  core : CoreProfileEnv
  has_GL_NUM_EXTENSIONS : Bool
  num_ext : Int
  num_error : Nat
  stringi : Nat → Option String

/-- The function `GLExtensions::support`. -/
def GLExtensions.support (cfg : BuildConfig) (e : SupportEnv) (ext : String) : Bool :=
  if ext = "GL_ARB_depth_texture" ∧ cfg.GLMARK2_USE_GL = true ∧
      GLExtensions.is_core_profile cfg e.core = true then true
  else
    let indexed : Bool :=
      if e.has_GL_NUM_EXTENSIONS = true ∧ e.num_error = GL_NO_ERROR ∧ e.num_ext > 0 then
        (List.range e.num_ext.toNat).any fun i => e.stringi i = some ext
      else false
    match e.core.extensions with
    | none => indexed
    | some exts =>
      if exts.data ≠ [] then
        GLExtensions.support_scan exts.data ext.data (exts.data.length + 1) 0
      else indexed

/-! ## Shader source rewriting (`libmatrix/program.cc`) -/

/-- The C locale `isalnum`. -/
def isalnum (c : Char) : Bool :=
  isdigit c || (65 ≤ c.toNat && c.toNat ≤ 90) || (97 ≤ c.toNat && c.toNat ≤ 122)

/-- The function `is_ident_char`. -/
def is_ident_char (c : Char) : Bool := isalnum c || c = '_'

/-- The `while` loop of `replace_word` on the string `s`, entered with
`pos`; the first argument bounds the number of iterations. -/
def replace_word_loop (from_ to_ : List Char) : Nat → List Char → Nat → List Char
  | 0, s, _ => s
  | fuel + 1, s, pos =>
    match listFind s from_ pos with
    | none => s
    | some p =>
      let ok_before : Bool := p = 0 || !is_ident_char (s.getD (p - 1) ' ')
      let after := p + from_.length
      let ok_after : Bool := after ≥ s.length || !is_ident_char (s.getD after ' ')
      if ok_before && ok_after then
        replace_word_loop from_ to_ fuel (s.take p ++ to_ ++ s.drop after) (p + to_.length)
      else replace_word_loop from_ to_ fuel s (p + from_.length)

/-- The function `replace_word(s, from, to)`: the new value of `s`.  Every
iteration of the loop shortens the part of `s` after `pos`, so `s.size() + 1`
iterations are enough. -/
def replace_word (s from_ to_ : String) : String :=
  if from_.data = [] ∨ s.data = [] then s
  else ⟨replace_word_loop from_.data to_.data (s.data.length + 1) s.data 0⟩

/-- The function `has_version_directive`. -/
def has_version_directive (s : String) : Bool :=
  let rest := s.data.dropWhile isspace
  decide (8 ≤ rest.length) && rest.take 8 == "#version".data

def GL_FRAGMENT_SHADER : Nat := 0x8B30
def GL_VERTEX_SHADER : Nat := 0x8B31

/-- The function `make_core_compat_glsl(type, src)`. -/
def make_core_compat_glsl (type : Nat) (src : String) : String :=
  let s0 := if !has_version_directive src then "#version 330\n" ++ src else src
  let s1 := replace_word s0 "texture2D" "texture"
  let s2 := replace_word s1 "textureCube" "texture"
  if type = GL_VERTEX_SHADER then
    replace_word (replace_word s2 "attribute" "in") "varying" "out"
  else if type = GL_FRAGMENT_SHADER then
    let s3 := replace_word s2 "varying" "in"
    if (listFind s3.data "gl_FragColor".data 0).isSome then
      let s4 := replace_word s3 "gl_FragColor" "glmark2_FragColor"
      match listFind s4.data ['\n'] 0 with
      | some nl =>
        ⟨s4.data.take (nl + 1) ++ "layout(location = 0) out vec4 glmark2_FragColor;\n".data ++
          s4.data.drop (nl + 1)⟩
      | none => s4
    else s3
  else s2

/-- A fragment shader whose version directive follows a blank line. -/
def exampleFragmentSource : String :=
  "\n#version 120\nvoid main() { gl_FragColor = vec4(1.0); }\n"

/-- The name `w` occurs in `s` at position `q` as a whole token: the
occurrence is preceded by the start of the string or a space and followed by
the end of the string or a space. -/
def TokenAt (s w : List Char) (q : Nat) : Prop :=
  w <+: s.drop q ∧ (q = 0 ∨ s.getD (q - 1) ' ' = ' ') ∧
    (q + w.length = s.length ∨ s.getD (q + w.length) ' ' = ' ')

/-- A legacy context advertising two extensions in its extension string. -/
def exampleSupportEnv : SupportEnv :=
  { core := { mask := 0, error := 0x0500,
              extensions := some "GL_ARB_depth_texture GL_EXT_foo", version := some "2.1" },
    has_GL_NUM_EXTENSIONS := true, num_ext := 0, num_error := 0, stringi := fun _ => none }

/-- The text a finished identifier run is replaced with: `to_` when the run
is the word `from_`, the run itself otherwise. -/
def flushRun (from_ to_ run : List Char) : List Char :=
  if run = from_ then to_ else run

/-- Left-to-right pass over the text with the identifier run read so far in
`run`: a run ends at the first character that is not an identifier character
(or at the end of the text) and is then replaced by `flushRun`; every other
character is copied. -/
def replaceIdentRunsGo (from_ to_ : List Char) : List Char → List Char → List Char
  | run, [] => flushRun from_ to_ run
  | run, c :: cs =>
    if is_ident_char c then replaceIdentRunsGo from_ to_ (run ++ [c]) cs
    else flushRun from_ to_ run ++ c :: replaceIdentRunsGo from_ to_ [] cs

/-- The specification of `replace_word` in the words of the claim: the text
with exactly the maximal identifier runs equal to `from_` replaced by `to_`
and every other character unchanged and in order. -/
def replaceIdentRuns (from_ to_ s : List Char) : List Char :=
  replaceIdentRunsGo from_ to_ [] s

/-- The text with the identifier run it starts with copied and the rest
rewritten by `replaceIdentRuns`: what is left to produce when the position
stands inside a run that is not replaced. -/
def copyRunThenReplace (from_ to_ : List Char) : List Char → List Char
  | [] => []
  | c :: cs =>
    if is_ident_char c then c :: copyRunThenReplace from_ to_ cs
    else c :: replaceIdentRuns from_ to_ cs

/-- No occurrence of `pat` starts at a position below `n` of `l`. -/
def NoOccurrenceBefore (pat : List Char) (n : Nat) (l : List Char) : Prop :=
  ∀ j, j < n → ¬ pat <+: l.drop j

/-- The last character of the text is an identifier character. -/
def endsWithIdent (l : List Char) : Bool :=
  match l.getLast? with
  | some c => is_ident_char c
  | none => false

/-- The first character of the text is an identifier character. -/
def startsWithIdent (l : List Char) : Bool :=
  match l.head? with
  | some c => is_ident_char c
  | none => false

/-! # Properties -/

/-! ## Teardown idiom -/

theorem destroyed_eq_zero (h : Nat) : destroyed h = 0 := by
  unfold destroyed
  split <;> simp_all

theorem destroyCall_zero (call : Nat → GLCall) : destroyCall 0 call = [] := by
  simp [destroyCall]

/-- Claim C1: for each of the six scenes, whatever the private record holds
(so in particular for every record reachable through any sequence of load,
setup and draw calls, a failed load included), unload leaves every handle at
the sentinel: every GL name is 0, the three streaming fences are null and the
MRT colour texture list is empty. -/
theorem unload_leaves_every_handle_at_sentinel :
    (∀ p : SceneGL41InstancingPrivate, (SceneGL41Instancing.unload p).1.allSentinel) ∧
    (∀ p : SceneGL41PipelinePrivate, (SceneGL41Pipeline.unload p).1.allSentinel) ∧
    (∀ p : SceneGL41MRTPrivate, (SceneGL41MRT.unload p).1.allSentinel) ∧
    (∀ p : SceneGL41TexArrayPrivate, (SceneGL41TexArray.unload p).1.allSentinel) ∧
    (∀ p : SceneGL41StreamingSyncPrivate, (SceneGL41StreamingSync.unload p).1.allSentinel) ∧
    (∀ p : SceneGL41GeometryPrivate, (SceneGL41Geometry.unload p).1.allSentinel) := by
  refine ⟨?_, ?_, ?_, ?_, ?_, ?_⟩
  · intro p
    simp [SceneGL41Instancing.unload, SceneGL41InstancingPrivate.allSentinel, destroyed_eq_zero]
  · intro p
    simp [SceneGL41Pipeline.unload, SceneGL41Pipeline.release,
      SceneGL41PipelinePrivate.allSentinel, destroyed_eq_zero]
  · intro p
    simp [SceneGL41MRT.unload, SceneGL41MRTPrivate.allSentinel, destroyed_eq_zero]
  · intro p
    simp [SceneGL41TexArray.unload, SceneGL41TexArrayPrivate.allSentinel, destroyed_eq_zero]
  · intro p
    simp [SceneGL41StreamingSync.unload, SceneGL41StreamingSyncPrivate.allSentinel,
      destroyed_eq_zero]
  · intro p
    simp [SceneGL41Geometry.unload, SceneGL41GeometryPrivate.allSentinel, destroyed_eq_zero]

/-! ## Failed load -/

theorem failsInto_true {σ : Type} (ok : σ → Prop) (s : σ) (t : List GLCall) :
    failsInto ok (true, s, t) := by
  simp [failsInto]

theorem failsInto_false {σ : Type} (ok : σ → Prop) (s : σ) (t : List GLCall) (h : ok s) :
    failsInto ok (false, s, t) := Or.inr h

theorem failsInto_ite {σ : Type} (ok : σ → Prop) (c : Prop) [Decidable c]
    (a b : Bool × σ × List GLCall) (ha : c → failsInto ok a) (hb : ¬c → failsInto ok b) :
    failsInto ok (if c then a else b) := by
  split
  · exact ha ‹_›
  · exact hb ‹_›

theorem failsInto_elim {σ : Type} {ok : σ → Prop} {r : Bool × σ × List GLCall}
    (h : failsInto ok r) (hf : r.1 = false) : ok r.2.1 := by
  rcases h with h | h
  · rw [hf] at h
    exact absurd h (by decide)
  · exact h

theorem instancing_load_failsInto (e : SceneGL41InstancingLoadEnv)
    (p : SceneGL41InstancingPrivate) (hp : p.allSentinel) :
    failsInto SceneGL41InstancingPrivate.allSentinel (SceneGL41Instancing.load e p) := by
  obtain ⟨h1, h2, h3, h4, h5⟩ := hp
  unfold SceneGL41Instancing.load
  dsimp only
  repeat' first
    | (apply failsInto_ite <;> intro _)
    | exact failsInto_true _ _ _
    | apply failsInto_false
  all_goals
    simp_all [SceneGL41InstancingPrivate.allSentinel,
      SceneGL41Instancing.cleanup_instancing_load, destroyed_eq_zero]

theorem pipeline_load_failsInto (e : SceneGL41PipelineLoadEnv) (p : SceneGL41PipelinePrivate)
    (hp : p.allSentinel) :
    failsInto SceneGL41PipelinePrivate.allSentinel (SceneGL41Pipeline.load e p) := by
  obtain ⟨h1, h2, h3, h4, h5, h6, h7⟩ := hp
  unfold SceneGL41Pipeline.load
  dsimp only
  repeat' first
    | (apply failsInto_ite <;> intro _)
    | exact failsInto_true _ _ _
    | apply failsInto_false
  all_goals
    simp [SceneGL41PipelinePrivate.allSentinel, SceneGL41Pipeline.cleanup_pipeline_load,
      SceneGL41Pipeline.release, destroyed_eq_zero, h1, h2, h3, h4, h5, h6, h7]

theorem mrt_load_failsInto (e : SceneGL41MRTLoadEnv) (p : SceneGL41MRTPrivate)
    (hp : p.allSentinel) :
    failsInto SceneGL41MRTPrivate.allSentinel (SceneGL41MRT.load e p) := by
  obtain ⟨h1, h2, h3, h4, h5, h6⟩ := hp
  unfold SceneGL41MRT.load
  dsimp only
  repeat' first
    | (apply failsInto_ite <;> intro _)
    | exact failsInto_true _ _ _
    | apply failsInto_false
  all_goals
    simp [SceneGL41MRTPrivate.allSentinel, SceneGL41MRT.cleanup_mrt_load,
      destroyed_eq_zero, h1, h2, h3, h4, h5, h6]

theorem texarray_load_failsInto (e : SceneGL41TexArrayLoadEnv) (p : SceneGL41TexArrayPrivate)
    (hp : p.allSentinel) :
    failsInto SceneGL41TexArrayPrivate.allSentinel (SceneGL41TexArray.load e p) := by
  obtain ⟨h1, h2, h3, h4, h5, h6⟩ := hp
  unfold SceneGL41TexArray.load
  dsimp only
  repeat' first
    | (apply failsInto_ite <;> intro _)
    | exact failsInto_true _ _ _
    | apply failsInto_false
  all_goals
    simp_all [SceneGL41TexArrayPrivate.allSentinel,
      SceneGL41TexArray.cleanup_texarray_load, destroyed_eq_zero]

theorem streaming_load_failsInto (e : SceneGL41StreamingSyncLoadEnv)
    (p : SceneGL41StreamingSyncPrivate) (hp : p.allSentinel) :
    failsInto SceneGL41StreamingSyncPrivate.allSentinel (SceneGL41StreamingSync.load e p) := by
  obtain ⟨h1, h2, h3, h4⟩ := hp
  unfold SceneGL41StreamingSync.load
  dsimp only
  repeat' first
    | (apply failsInto_ite <;> intro _)
    | exact failsInto_true _ _ _
    | apply failsInto_false
  all_goals
    simp_all [SceneGL41StreamingSyncPrivate.allSentinel,
      SceneGL41StreamingSync.cleanup_streaming_load, gl41_streaming_realloc, destroyed_eq_zero]

theorem geometry_load_failsInto (e : SceneGL41GeometryLoadEnv) (p : SceneGL41GeometryPrivate)
    (hp : p.allSentinel) :
    failsInto SceneGL41GeometryPrivate.allSentinel (SceneGL41Geometry.load e p) := by
  obtain ⟨h1, h2, h3⟩ := hp
  unfold SceneGL41Geometry.load
  dsimp only
  repeat' first
    | (apply failsInto_ite <;> intro _)
    | exact failsInto_true _ _ _
    | apply failsInto_false
  all_goals
    simp_all [SceneGL41GeometryPrivate.allSentinel,
      SceneGL41Geometry.cleanup_geometry_load, destroyed_eq_zero]

/-- Claim C2: for each scene started with every handle at the sentinel and
for every combination of driver answers, if load returns false (missing entry
point, shader compile, program link, attribute or uniform block lookup,
framebuffer completeness) then every handle of the record is at the sentinel
when load returns. -/
theorem failed_load_leaves_every_handle_at_sentinel :
    (∀ (e : SceneGL41InstancingLoadEnv) (p : SceneGL41InstancingPrivate),
      p.allSentinel → (SceneGL41Instancing.load e p).1 = false →
        (SceneGL41Instancing.load e p).2.1.allSentinel) ∧
    (∀ (e : SceneGL41PipelineLoadEnv) (p : SceneGL41PipelinePrivate),
      p.allSentinel → (SceneGL41Pipeline.load e p).1 = false →
        (SceneGL41Pipeline.load e p).2.1.allSentinel) ∧
    (∀ (e : SceneGL41MRTLoadEnv) (p : SceneGL41MRTPrivate),
      p.allSentinel → (SceneGL41MRT.load e p).1 = false →
        (SceneGL41MRT.load e p).2.1.allSentinel) ∧
    (∀ (e : SceneGL41TexArrayLoadEnv) (p : SceneGL41TexArrayPrivate),
      p.allSentinel → (SceneGL41TexArray.load e p).1 = false →
        (SceneGL41TexArray.load e p).2.1.allSentinel) ∧
    (∀ (e : SceneGL41StreamingSyncLoadEnv) (p : SceneGL41StreamingSyncPrivate),
      p.allSentinel → (SceneGL41StreamingSync.load e p).1 = false →
        (SceneGL41StreamingSync.load e p).2.1.allSentinel) ∧
    (∀ (e : SceneGL41GeometryLoadEnv) (p : SceneGL41GeometryPrivate),
      p.allSentinel → (SceneGL41Geometry.load e p).1 = false →
        (SceneGL41Geometry.load e p).2.1.allSentinel) :=
  ⟨fun e p hp hf => failsInto_elim (instancing_load_failsInto e p hp) hf,
   fun e p hp hf => failsInto_elim (pipeline_load_failsInto e p hp) hf,
   fun e p hp hf => failsInto_elim (mrt_load_failsInto e p hp) hf,
   fun e p hp hf => failsInto_elim (texarray_load_failsInto e p hp) hf,
   fun e p hp hf => failsInto_elim (streaming_load_failsInto e p hp) hf,
   fun e p hp hf => failsInto_elim (geometry_load_failsInto e p hp) hf⟩

/-- Claim C2 at concrete runs: in each scene a load that fails at its last
fallible step, after every resource was created, ends with all handles at the
sentinel. -/
theorem failed_load_leaves_every_handle_at_sentinel_witness :
    (({} : SceneGL41InstancingPrivate).allSentinel ∧
      (SceneGL41Instancing.load exampleInstancingLoadFail {}).1 = false ∧
      (SceneGL41Instancing.load exampleInstancingLoadFail {}).2.1.allSentinel) ∧
    (({} : SceneGL41PipelinePrivate).allSentinel ∧
      (SceneGL41Pipeline.load examplePipelineLoadFail {}).1 = false ∧
      (SceneGL41Pipeline.load examplePipelineLoadFail {}).2.1.allSentinel) ∧
    (({} : SceneGL41MRTPrivate).allSentinel ∧
      (SceneGL41MRT.load exampleMRTLoadFail {}).1 = false ∧
      (SceneGL41MRT.load exampleMRTLoadFail {}).2.1.allSentinel) ∧
    (({} : SceneGL41TexArrayPrivate).allSentinel ∧
      (SceneGL41TexArray.load exampleTexArrayLoadFail {}).1 = false ∧
      (SceneGL41TexArray.load exampleTexArrayLoadFail {}).2.1.allSentinel) ∧
    (({} : SceneGL41StreamingSyncPrivate).allSentinel ∧
      (SceneGL41StreamingSync.load exampleStreamingLoadFail {}).1 = false ∧
      (SceneGL41StreamingSync.load exampleStreamingLoadFail {}).2.1.allSentinel) ∧
    (({} : SceneGL41GeometryPrivate).allSentinel ∧
      (SceneGL41Geometry.load exampleGeometryLoadFail {}).1 = false ∧
      (SceneGL41Geometry.load exampleGeometryLoadFail {}).2.1.allSentinel) :=
  ⟨⟨by simp [SceneGL41InstancingPrivate.allSentinel], rfl,
      failed_load_leaves_every_handle_at_sentinel.1 exampleInstancingLoadFail {}
        (by simp [SceneGL41InstancingPrivate.allSentinel]) rfl⟩,
   ⟨by simp [SceneGL41PipelinePrivate.allSentinel], rfl,
      failed_load_leaves_every_handle_at_sentinel.2.1 examplePipelineLoadFail {}
        (by simp [SceneGL41PipelinePrivate.allSentinel]) rfl⟩,
   ⟨by simp [SceneGL41MRTPrivate.allSentinel], rfl,
      failed_load_leaves_every_handle_at_sentinel.2.2.1 exampleMRTLoadFail {}
        (by simp [SceneGL41MRTPrivate.allSentinel]) rfl⟩,
   ⟨by simp [SceneGL41TexArrayPrivate.allSentinel], rfl,
      failed_load_leaves_every_handle_at_sentinel.2.2.2.1 exampleTexArrayLoadFail {}
        (by simp [SceneGL41TexArrayPrivate.allSentinel]) rfl⟩,
   ⟨by simp [SceneGL41StreamingSyncPrivate.allSentinel], rfl,
      failed_load_leaves_every_handle_at_sentinel.2.2.2.2.1 exampleStreamingLoadFail {}
        (by simp [SceneGL41StreamingSyncPrivate.allSentinel]) rfl⟩,
   ⟨by simp [SceneGL41GeometryPrivate.allSentinel], rfl,
      failed_load_leaves_every_handle_at_sentinel.2.2.2.2.2 exampleGeometryLoadFail {}
        (by simp [SceneGL41GeometryPrivate.allSentinel]) rfl⟩⟩

/-! ## Repeated unload -/

/-- Claim C3: for each scene, an unload that directly follows an unload
changes no field of the record and issues no call that destroys a driver
object, and an unload of a freshly constructed scene changes nothing and
issues no call at all.  (The pipeline and texture array scenes, once their
entry points were resolved, still issue their unbinding glBindBufferBase
calls on the repeated unload; these destroy nothing.) -/
theorem unload_twice_or_on_empty_scene_is_inert :
    ((∀ p : SceneGL41InstancingPrivate,
        (SceneGL41Instancing.unload (SceneGL41Instancing.unload p).1).1 =
          (SceneGL41Instancing.unload p).1 ∧
        ∀ c ∈ (SceneGL41Instancing.unload (SceneGL41Instancing.unload p).1).2,
          c.destroysResource = false) ∧
      SceneGL41Instancing.unload {} = ({}, [])) ∧
    ((∀ p : SceneGL41PipelinePrivate,
        (SceneGL41Pipeline.unload (SceneGL41Pipeline.unload p).1).1 =
          (SceneGL41Pipeline.unload p).1 ∧
        ∀ c ∈ (SceneGL41Pipeline.unload (SceneGL41Pipeline.unload p).1).2,
          c.destroysResource = false) ∧
      SceneGL41Pipeline.unload {} = ({}, [])) ∧
    ((∀ p : SceneGL41MRTPrivate,
        (SceneGL41MRT.unload (SceneGL41MRT.unload p).1).1 = (SceneGL41MRT.unload p).1 ∧
        ∀ c ∈ (SceneGL41MRT.unload (SceneGL41MRT.unload p).1).2,
          c.destroysResource = false) ∧
      SceneGL41MRT.unload {} = ({}, [])) ∧
    ((∀ p : SceneGL41TexArrayPrivate,
        (SceneGL41TexArray.unload (SceneGL41TexArray.unload p).1).1 =
          (SceneGL41TexArray.unload p).1 ∧
        ∀ c ∈ (SceneGL41TexArray.unload (SceneGL41TexArray.unload p).1).2,
          c.destroysResource = false) ∧
      SceneGL41TexArray.unload {} = ({}, [])) ∧
    ((∀ p : SceneGL41StreamingSyncPrivate,
        (SceneGL41StreamingSync.unload (SceneGL41StreamingSync.unload p).1).1 =
          (SceneGL41StreamingSync.unload p).1 ∧
        ∀ c ∈ (SceneGL41StreamingSync.unload (SceneGL41StreamingSync.unload p).1).2,
          c.destroysResource = false) ∧
      SceneGL41StreamingSync.unload {} = ({}, [])) ∧
    ((∀ p : SceneGL41GeometryPrivate,
        (SceneGL41Geometry.unload (SceneGL41Geometry.unload p).1).1 =
          (SceneGL41Geometry.unload p).1 ∧
        ∀ c ∈ (SceneGL41Geometry.unload (SceneGL41Geometry.unload p).1).2,
          c.destroysResource = false) ∧
      SceneGL41Geometry.unload {} = ({}, [])) := by
  refine ⟨⟨?_, ?_⟩, ⟨?_, ?_⟩, ⟨?_, ?_⟩, ⟨?_, ?_⟩, ⟨?_, ?_⟩, ⟨?_, ?_⟩⟩
  · intro p
    simp [SceneGL41Instancing.unload, destroyed_eq_zero, destroyCall_zero]
  · simp [SceneGL41Instancing.unload, destroyed, destroyCall]
  · intro p
    constructor
    · simp [SceneGL41Pipeline.unload, SceneGL41Pipeline.release, destroyed_eq_zero]
    · intro c hc
      simp only [SceneGL41Pipeline.unload, SceneGL41Pipeline.release, destroyed_eq_zero,
        destroyCall_zero, ne_eq, not_true_eq_false, false_and, if_false, List.append_nil] at hc
      by_cases hb : p.procs.BindBufferBase = true
      · simp [hb] at hc
        rcases hc with rfl | rfl <;> rfl
      · simp [hb] at hc
  · simp [SceneGL41Pipeline.unload, SceneGL41Pipeline.release, destroyed, destroyCall]
  · intro p
    simp [SceneGL41MRT.unload, destroyed_eq_zero, destroyCall_zero]
  · simp [SceneGL41MRT.unload, destroyed, destroyCall]
  · intro p
    constructor
    · simp [SceneGL41TexArray.unload, destroyed_eq_zero]
    · intro c hc
      simp only [SceneGL41TexArray.unload, destroyed_eq_zero, destroyCall_zero,
        List.append_nil] at hc
      by_cases hb : p.procs.BindBufferBase = true
      · simp [hb] at hc
        subst hc
        rfl
      · simp [hb] at hc
  · simp [SceneGL41TexArray.unload, destroyed, destroyCall]
  · intro p
    simp [SceneGL41StreamingSync.unload, destroyed_eq_zero, destroyCall_zero]
  · simp [SceneGL41StreamingSync.unload, destroyed, destroyCall]
  · intro p
    simp [SceneGL41Geometry.unload, destroyed_eq_zero, destroyCall_zero]
  · simp [SceneGL41Geometry.unload, destroyed, destroyCall]

/-- Claim C3 at a concrete run: the second unload of a loaded texture array
scene issues exactly one call, the unbinding glBindBufferBase, and that call
destroys nothing. -/
theorem unload_twice_or_on_empty_scene_is_inert_witness :
    GLCall.BindBufferBase .UNIFORM_BUFFER 0 0 ∈
      (SceneGL41TexArray.unload (SceneGL41TexArray.unload exampleTexArrayLoaded).1).2 ∧
    (GLCall.BindBufferBase .UNIFORM_BUFFER 0 0).destroysResource = false :=
  ⟨by simp [SceneGL41TexArray.unload, exampleTexArrayLoaded, GL41Procs.resolved, exampleDlAll,
      destroyed_eq_zero, destroyCall_zero],
   (unload_twice_or_on_empty_scene_is_inert.2.2.2.1.1 exampleTexArrayLoaded).2 _
     (by simp [SceneGL41TexArray.unload, exampleTexArrayLoaded, GL41Procs.resolved,
       exampleDlAll, destroyed_eq_zero, destroyCall_zero])⟩

/-! ## Fence before write -/

theorem writesGuarded_true (f : Nat) (l : List GLCall) : writesGuarded f true l = true := by
  induction l with
  | nil => rfl
  | cons c cs ih => simp [writesGuarded, ih]

theorem writesGuarded_append (f : Nat) (a b : List GLCall) (R : Bool) :
    writesGuarded f R (a ++ b) =
      (writesGuarded f R a && writesGuarded f (R || a.any (GLCall.releasesFence f)) b) := by
  induction a generalizing R with
  | nil => simp [writesGuarded]
  | cons c cs ih => simp [writesGuarded, ih, Bool.and_assoc, Bool.or_assoc]

theorem writesGuarded_split (f : Nat) (tr : List GLCall) (R : Bool)
    (h : writesGuarded f R tr = true) (pre : List GLCall) (c : GLCall) (post : List GLCall)
    (htr : tr = pre ++ c :: post) (hc : c.writesBuffer = true) :
    R = true ∨ ∃ d ∈ pre, d.releasesFence f = true := by
  subst htr
  induction pre generalizing R with
  | nil =>
    simp [writesGuarded, hc] at h
    exact Or.inl h.1
  | cons a as ih =>
    simp only [List.cons_append, writesGuarded, Bool.and_eq_true] at h
    rcases ih _ h.2 with h1 | ⟨d, hd, hr⟩
    · simp only [Bool.or_eq_true] at h1
      rcases h1 with h1 | h1
      · exact Or.inl h1
      · exact Or.inr ⟨a, List.mem_cons_self _ _, h1⟩
    · exact Or.inr ⟨d, List.mem_cons_of_mem _ hd, hr⟩

theorem draw_wait_guarded (e : SceneGL41StreamingSyncDrawEnv) (w : Bool) (f : Nat) (R : Bool) :
    writesGuarded f R (SceneGL41StreamingSync.draw_wait e w f) = true := by
  unfold SceneGL41StreamingSync.draw_wait
  split_ifs <;> simp [writesGuarded, GLCall.writesBuffer]

theorem draw_wait_releases (e : SceneGL41StreamingSyncDrawEnv) (w : Bool) (f : Nat)
    (hf : f ≠ 0) :
    (SceneGL41StreamingSync.draw_wait e w f).any (GLCall.releasesFence f) = true := by
  unfold SceneGL41StreamingSync.draw_wait
  simp only [hf, ne_eq, not_false_eq_true, if_true]
  by_cases h1 : SceneGL41StreamingSync.wait_failed e.wait_res = true
  · by_cases h2 : SceneGL41StreamingSync.wait_failed e.wait_res2 = true
    · cases w <;> simp [h1, h2, GLCall.releasesFence]
    · have h2' := h2
      simp only [SceneGL41StreamingSync.wait_failed, Bool.or_eq_true, decide_eq_true_eq,
        not_or] at h2'
      cases w <;> simp [h1, h2, GLCall.releasesFence, h2'.1, h2'.2]
  · have h1' := h1
    simp only [SceneGL41StreamingSync.wait_failed, Bool.or_eq_true, decide_eq_true_eq,
      not_or] at h1'
    simp [h1, GLCall.releasesFence, h1'.1, h1'.2]

/-- Claim C4: in the streaming draw, when the selected ring slot holds a
fence, every call that starts or performs a write into the slot buffer
(glMapBufferRange, the write through the mapping, or the fallback
glBufferData / glBufferSubData) is preceded in the call list by a
glClientWaitSync on that fence answered with a status other than
GL_TIMEOUT_EXPIRED and GL_WAIT_FAILED, or by glFinish. -/
theorem streaming_write_starts_after_fence_release (e : SceneGL41StreamingSyncDrawEnv)
    (p : SceneGL41StreamingSyncPrivate) (g : GLState)
    (hf : p.fence.get (p.buffer_index % 3) ≠ 0) :
    ∀ (pre : List GLCall) (c : GLCall) (post : List GLCall),
      (SceneGL41StreamingSync.draw e p g).2 = pre ++ c :: post → c.writesBuffer = true →
      ∃ d ∈ pre, d.releasesFence (p.fence.get (p.buffer_index % 3)) = true := by
  intro pre c post htr hc
  have hg : writesGuarded (p.fence.get (p.buffer_index % 3)) false
      (SceneGL41StreamingSync.draw e p g).2 = true := by
    simp only [SceneGL41StreamingSync.draw, List.append_assoc]
    rw [writesGuarded_append, draw_wait_guarded, draw_wait_releases e _ _ hf]
    simp [writesGuarded_true]
  rcases writesGuarded_split _ _ _ hg pre c post htr hc with h | h
  · exact absurd h (by decide)
  · exact h

/-- Claim C4 at a concrete run: slot 0 holds fence 20, both waits time out,
and the mapping of the slot buffer comes after the glFinish. -/
theorem streaming_write_starts_after_fence_release_witness :
    exampleStreamingPending.fence.get (exampleStreamingPending.buffer_index % 3) ≠ 0 ∧
    (SceneGL41StreamingSync.draw exampleStreamingTimedOut exampleStreamingPending
        exampleGLState).2 =
      [GLCall.ClientWaitSync 20 1 1000000 GL_TIMEOUT_EXPIRED,
       GLCall.Log .info "gl41-streaming-sync: ClientWaitSync returned %s",
       GLCall.ClientWaitSync 20 1 5000000 GL_TIMEOUT_EXPIRED,
       GLCall.Log .info "gl41-streaming-sync: sync wait exceeded, forcing glFinish",
       GLCall.Finish, GLCall.DeleteSync 20, GLCall.BindVertexArray 4,
       GLCall.BindBuffer .ARRAY_BUFFER 5, GLCall.VertexAttribPointer 0 3 0 0] ++
      GLCall.MapBufferRange .ARRAY_BUFFER 0 4194304 10 true ::
      (SceneGL41StreamingSync.draw exampleStreamingTimedOut exampleStreamingPending
        exampleGLState).2.drop 10 ∧
    ∃ d ∈ [GLCall.ClientWaitSync 20 1 1000000 GL_TIMEOUT_EXPIRED,
       GLCall.Log .info "gl41-streaming-sync: ClientWaitSync returned %s",
       GLCall.ClientWaitSync 20 1 5000000 GL_TIMEOUT_EXPIRED,
       GLCall.Log .info "gl41-streaming-sync: sync wait exceeded, forcing glFinish",
       GLCall.Finish, GLCall.DeleteSync 20, GLCall.BindVertexArray 4,
       GLCall.BindBuffer .ARRAY_BUFFER 5, GLCall.VertexAttribPointer 0 3 0 0],
      d.releasesFence
        (exampleStreamingPending.fence.get (exampleStreamingPending.buffer_index % 3)) = true :=
  ⟨by decide, rfl,
   streaming_write_starts_after_fence_release exampleStreamingTimedOut exampleStreamingPending
     exampleGLState (by decide) _ _ _ rfl rfl⟩

/-! ## Clamping and parsing -/

theorem clampUnsigned_bounds (lo hi x : Nat) (h : lo ≤ hi) :
    lo ≤ clampUnsigned lo hi x ∧ clampUnsigned lo hi x ≤ hi := by
  unfold clampUnsigned
  dsimp only
  split_ifs <;> omega

theorem clampUnsigned_of_mem (lo hi x : Nat) (h1 : lo ≤ x) (h2 : x ≤ hi) :
    clampUnsigned lo hi x = x := by
  unfold clampUnsigned
  dsimp only
  split_ifs <;> omega

theorem clampUnsigned_of_lt (lo hi x : Nat) (h : lo ≤ hi) (h1 : x < lo) :
    clampUnsigned lo hi x = lo := by
  unfold clampUnsigned
  dsimp only
  split_ifs <;> omega

theorem clampUnsigned_of_gt (lo hi x : Nat) (h : lo ≤ hi) (h1 : hi < x) :
    clampUnsigned lo hi x = hi := by
  unfold clampUnsigned
  dsimp only
  split_ifs <;> omega

theorem parseUnsigned_of_some (s : String) (d v : Nat) (h : stoul s = some v)
    (hv : v < 2 ^ 32) : parseUnsigned s d = v := by
  simp only [parseUnsigned, h, toUnsigned, UINT_RANGE]
  exact Nat.mod_eq_of_lt hv

theorem parseUnsigned_of_none (s : String) (d : Nat) (h : stoul s = none) :
    parseUnsigned s d = d := by
  simp [parseUnsigned, h]

/-- On a plain decimal numeral the parser returns the number denoted, or
throws when it exceeds `ULONG_MAX`. -/
theorem strtoul10_of_digits (cs : List Char) (hne : cs ≠ [])
    (hd : ∀ c ∈ cs, isdigit c = true) :
    strtoul10 cs = if digitsValue cs > ULONG_MAX then none else some (digitsValue cs) := by
  obtain ⟨c, rest, rfl⟩ := List.exists_cons_of_ne_nil hne
  have hc : isdigit c = true := hd c (List.mem_cons_self _ _)
  have hc' : 48 ≤ c.toNat ∧ c.toNat ≤ 57 := by
    simpa [isdigit] using hc
  have hsp : isspace c = false := by
    simp [isspace]
    omega
  have h45 : ¬ (c.toNat = 45) := by omega
  have h43 : ¬ (c.toNat = 43) := by omega
  have htake : List.takeWhile isdigit (c :: rest) = c :: rest := by
    rw [List.takeWhile_eq_self_iff]
    exact hd
  simp only [strtoul10, List.dropWhile_cons, hsp, Bool.false_eq_true, if_false, List.head?_cons,
    Option.map_some', Option.some.injEq, h45, h43, decide_False, Bool.or_self, htake]
  simp

theorem stoul_of_decimal (s : String) (n : Nat) (h : IsDecimalOf s n) :
    stoul s = if n > ULONG_MAX then none else some n := by
  obtain ⟨h1, h2, h3⟩ := h
  rw [stoul, strtoul10_of_digits _ h1 h2, h3]

theorem parseUnsigned_decimal (s : String) (n d : Nat) (h : IsDecimalOf s n) (hn : n < 2 ^ 32) :
    parseUnsigned s d = n := by
  apply parseUnsigned_of_some _ _ _ _ hn
  rw [stoul_of_decimal s n h, if_neg]
  simp only [ULONG_MAX]
  omega

theorem parseUnsigned_decimal_huge (s : String) (n d : Nat) (h : IsDecimalOf s n)
    (hn : 2 ^ 64 ≤ n) : parseUnsigned s d = d := by
  apply parseUnsigned_of_none
  rw [stoul_of_decimal s n h, if_pos]
  simp only [ULONG_MAX]
  omega

/-! ## Streaming buffer size -/

/-- Clearing the low eight bits of a 64-bit value rounds it down to a
multiple of 256. -/
theorem and_clear_low_byte (x : Nat) (hx : x < 2 ^ 64) :
    x &&& (ULONG_MAX - (kStreamingBufferAlignment - 1)) = x - x % 256 := by
  have hM : ULONG_MAX - (kStreamingBufferAlignment - 1) = 2 ^ 64 - (255 + 1) := by
    simp [ULONG_MAX, kStreamingBufferAlignment]
  have hR : x - x % 256 = 2 ^ 8 * (x >>> 8) := by
    rw [Nat.shiftRight_eq_div_pow]
    have := Nat.div_add_mod x 256
    norm_num
    omega
  rw [hM, hR]
  apply Nat.eq_of_testBit_eq
  intro i
  have h255 : (255 : Nat) = 2 ^ 8 - 1 := by norm_num
  rw [Nat.testBit_and, Nat.testBit_two_pow_sub_succ (by norm_num : (255 : Nat) < 2 ^ 64),
    Nat.testBit_mul_pow_two, Nat.testBit_shiftRight, h255, Nat.testBit_two_pow_sub_one]
  by_cases h8 : i < 8
  · have : ¬ (i ≥ 8) := by omega
    simp [h8, this]
  · have h8' : i ≥ 8 := by omega
    have hi : 8 + (i - 8) = i := by omega
    by_cases h64 : i < 64
    · simp [h8, h8', h64, hi]
    · have : x.testBit i = false := by
        apply Nat.testBit_lt_two_pow
        calc x < 2 ^ 64 := hx
          _ ≤ 2 ^ i := Nat.pow_le_pow_right (by norm_num) (by omega)
      simp [h8, h8', h64, hi, this]

theorem streaming_setup_bytes (o : SceneGL41StreamingSyncOptions) (names : Arr3 Nat)
    (p : SceneGL41StreamingSyncPrivate) :
    (SceneGL41StreamingSync.setup o names p).2.1.bytes =
      (SceneGL41StreamingSync.realized_bytes o.bytes).2 := by
  unfold SceneGL41StreamingSync.setup
  dsimp only
  split_ifs <;> simp [gl41_streaming_realloc]

theorem streaming_setup_result (o : SceneGL41StreamingSyncOptions) (names : Arr3 Nat)
    (p : SceneGL41StreamingSyncPrivate) :
    (SceneGL41StreamingSync.setup o names p).1 = true := by
  unfold SceneGL41StreamingSync.setup
  dsimp only
  split_ifs <;> rfl

theorem realized_bytes_requested_bounds (value : String) :
    262144 ≤ (SceneGL41StreamingSync.realized_bytes value).1 ∧
      (SceneGL41StreamingSync.realized_bytes value).1 ≤ 67108864 := by
  unfold SceneGL41StreamingSync.realized_bytes
  exact clampUnsigned_bounds _ _ _ (by norm_num)

theorem realized_bytes_eq (value : String) :
    (SceneGL41StreamingSync.realized_bytes value).2 =
      (SceneGL41StreamingSync.realized_bytes value).1 -
        (SceneGL41StreamingSync.realized_bytes value).1 % 256 := by
  have hb := realized_bytes_requested_bounds value
  show (SceneGL41StreamingSync.realized_bytes value).1 &&&
      (ULONG_MAX - (kStreamingBufferAlignment - 1)) = _
  apply and_clear_low_byte
  omega

theorem realized_bytes_of_parsed (s : String) (v : Nat) (h : stoull s = some v) :
    (SceneGL41StreamingSync.realized_bytes s).1 =
      clampUnsigned (256 * 1024) (64 * 1024 * 1024) v := by
  simp only [SceneGL41StreamingSync.realized_bytes, h]

theorem realized_bytes_of_throw (s : String) (h : stoull s = none) :
    (SceneGL41StreamingSync.realized_bytes s).2 = 4194304 := by
  rw [realized_bytes_eq]
  have : (SceneGL41StreamingSync.realized_bytes s).1 = 4194304 := by
    simp only [SceneGL41StreamingSync.realized_bytes, h]
    decide
  rw [this]

/-- Claim C5: for every value of the bytes option string, the buffer size
held after the streaming setup is a multiple of 256 between 262144 and
67108864, and when the string parses to a size B inside that range the size
held is B - (B mod 256). -/
theorem streaming_bytes_aligned_and_clamped (o : SceneGL41StreamingSyncOptions)
    (names : Arr3 Nat) (p : SceneGL41StreamingSyncPrivate) :
    (256 ∣ (SceneGL41StreamingSync.setup o names p).2.1.bytes ∧
      262144 ≤ (SceneGL41StreamingSync.setup o names p).2.1.bytes ∧
      (SceneGL41StreamingSync.setup o names p).2.1.bytes ≤ 67108864) ∧
    (∀ B : Nat, stoull o.bytes = some B → 262144 ≤ B → B ≤ 67108864 →
      (SceneGL41StreamingSync.setup o names p).2.1.bytes = B - B % 256) := by
  rw [streaming_setup_bytes, realized_bytes_eq]
  have hb := realized_bytes_requested_bounds o.bytes
  refine ⟨⟨Nat.dvd_sub_mod _, ?_, ?_⟩, ?_⟩
  · omega
  · omega
  · intro B hB hlo hhi
    have h1 : (SceneGL41StreamingSync.realized_bytes o.bytes).1 = B := by
      simp only [SceneGL41StreamingSync.realized_bytes, hB]
      exact clampUnsigned_of_mem _ _ _ (by omega) (by omega)
    rw [h1]

/-- Claim C5 at a concrete run: the request 4194369 parses inside the range
and is realized as 4194369 - 65 = 4194304. -/
theorem streaming_bytes_aligned_and_clamped_witness :
    stoull "4194369" = some 4194369 ∧
    (SceneGL41StreamingSync.setup { bytes := "4194369" } ⟨1, 2, 3⟩ {}).2.1.bytes =
      4194369 - 4194369 % 256 :=
  ⟨by decide,
   (streaming_bytes_aligned_and_clamped { bytes := "4194369" } ⟨1, 2, 3⟩ {}).2 4194369
     (by decide) (by decide) (by decide)⟩

/-! ## Instance count of the instancing scene -/

/-- Claim C6, the code at the failing input: the instancing setup only
applies the lower bound (`std::max(1u, instances)`), so the request 200000
is realized as 200000, not as 16384; the same request to the texture array
scene, which clamps both ends, is realized as 16384. -/
theorem instancing_setup_has_no_upper_clamp (p : SceneGL41InstancingPrivate)
    (stof : String → Option FloatVal) (o : SceneGL41TexArrayOptions)
    (q : SceneGL41TexArrayPrivate) :
    (SceneGL41Instancing.setup { instances := "200000" } p).2.1.instances = 200000 ∧
    (SceneGL41Instancing.setup { instances := "200000" } p).1 = true ∧
    (SceneGL41TexArray.setup stof { o with instances := "200000" } q).2.1.instances = 16384 := by
  refine ⟨?_, rfl, ?_⟩
  · show max 1 (parseUnsigned "200000" 4096) = 200000
    decide
  · show clampUnsigned 1 16384 (parseUnsigned "200000" 4096) = 16384
    decide

/-! ## MRT and texture array options -/

theorem mrt_setup_targets (o : SceneGL41MRTOptions) (e : MRTRecreateEnv)
    (p : SceneGL41MRTPrivate) :
    (SceneGL41MRT.setup o e p).2.1.targets = clampUnsigned 1 4 (parseUnsigned o.targets 4) := by
  unfold SceneGL41MRT.setup
  dsimp only
  split_ifs
  · unfold gl41_mrt_recreate_fbo
    dsimp only
    split_ifs <;> rfl
  · rfl

theorem mrt_setup_size (o : SceneGL41MRTOptions) (e : MRTRecreateEnv)
    (p : SceneGL41MRTPrivate) :
    (SceneGL41MRT.setup o e p).2.1.size =
      clampUnsigned 64 4096 (parseUnsigned o.size 1024) := by
  unfold SceneGL41MRT.setup
  dsimp only
  split_ifs
  · unfold gl41_mrt_recreate_fbo
    dsimp only
    split_ifs <;> rfl
  · rfl

/-- Claim C7: for every pair of targets and size option strings, after the
MRT setup the target count lies in 1..4 and the render size in 64..4096; a
value that parses inside its range is realized unchanged; and the targets
string "10" realizes 4. -/
theorem mrt_setup_realizes_clamped_targets_and_size (o : SceneGL41MRTOptions)
    (e : MRTRecreateEnv) (p : SceneGL41MRTPrivate) :
    (1 ≤ (SceneGL41MRT.setup o e p).2.1.targets ∧ (SceneGL41MRT.setup o e p).2.1.targets ≤ 4 ∧
      64 ≤ (SceneGL41MRT.setup o e p).2.1.size ∧ (SceneGL41MRT.setup o e p).2.1.size ≤ 4096) ∧
    (∀ v : Nat, stoul o.targets = some v → 1 ≤ v → v ≤ 4 →
      (SceneGL41MRT.setup o e p).2.1.targets = v) ∧
    (∀ v : Nat, stoul o.size = some v → 64 ≤ v → v ≤ 4096 →
      (SceneGL41MRT.setup o e p).2.1.size = v) ∧
    (o.targets = "10" → (SceneGL41MRT.setup o e p).2.1.targets = 4) := by
  rw [mrt_setup_targets, mrt_setup_size]
  have ht := clampUnsigned_bounds 1 4 (parseUnsigned o.targets 4) (by norm_num)
  have hs := clampUnsigned_bounds 64 4096 (parseUnsigned o.size 1024) (by norm_num)
  refine ⟨⟨ht.1, ht.2, hs.1, hs.2⟩, ?_, ?_, ?_⟩
  · intro v hv h1 h2
    rw [parseUnsigned_of_some _ _ v hv (by omega)]
    exact clampUnsigned_of_mem _ _ _ h1 h2
  · intro v hv h1 h2
    rw [parseUnsigned_of_some _ _ v hv (by omega)]
    exact clampUnsigned_of_mem _ _ _ h1 h2
  · intro h
    rw [h]
    decide

/-- Claim C7 at a concrete run: targets "10" with size "1024" on a fresh
scene realizes 4 targets and size 1024. -/
theorem mrt_setup_realizes_clamped_targets_and_size_witness :
    stoul "1024" = some 1024 ∧
    (SceneGL41MRT.setup { targets := "10", size := "1024" } exampleSetupContext.mrt_env
      {}).2.1.size = 1024 ∧
    (SceneGL41MRT.setup { targets := "10", size := "1024" } exampleSetupContext.mrt_env
      {}).2.1.targets = 4 :=
  ⟨by decide,
   (mrt_setup_realizes_clamped_targets_and_size { targets := "10", size := "1024" }
      exampleSetupContext.mrt_env {}).2.2.1 1024 (by decide) (by decide) (by decide),
   (mrt_setup_realizes_clamped_targets_and_size { targets := "10", size := "1024" }
      exampleSetupContext.mrt_env {}).2.2.2 rfl⟩

/-- Claim C8: for every assignment of option strings, after the texture
array setup the instance count lies in 1..16384, the layer count in 1..256
and the per-layer size in 8..512; a value that parses inside its range is
realized unchanged; and every layer index written for an instance is smaller
than the layer count. -/
theorem texarray_setup_realizes_clamped_values (stof : String → Option FloatVal)
    (o : SceneGL41TexArrayOptions) (p : SceneGL41TexArrayPrivate) :
    (1 ≤ (SceneGL41TexArray.setup stof o p).2.1.instances ∧
      (SceneGL41TexArray.setup stof o p).2.1.instances ≤ 16384 ∧
      1 ≤ (SceneGL41TexArray.setup stof o p).2.1.layers ∧
      (SceneGL41TexArray.setup stof o p).2.1.layers ≤ 256 ∧
      8 ≤ (SceneGL41TexArray.setup stof o p).2.1.tex_size ∧
      (SceneGL41TexArray.setup stof o p).2.1.tex_size ≤ 512) ∧
    (∀ v : Nat, stoul o.instances = some v → 1 ≤ v → v ≤ 16384 →
      (SceneGL41TexArray.setup stof o p).2.1.instances = v) ∧
    (∀ v : Nat, stoul o.layers = some v → 1 ≤ v → v ≤ 256 →
      (SceneGL41TexArray.setup stof o p).2.1.layers = v) ∧
    (∀ v : Nat, stoul o.tex_size = some v → 8 ≤ v → v ≤ 512 →
      (SceneGL41TexArray.setup stof o p).2.1.tex_size = v) ∧
    (∀ x ∈ SceneGL41TexArray.instance_layers (SceneGL41TexArray.setup stof o p).2.1.instances
        (SceneGL41TexArray.setup stof o p).2.1.layers,
      x < (SceneGL41TexArray.setup stof o p).2.1.layers) := by
  have hi := clampUnsigned_bounds 1 16384 (parseUnsigned o.instances 4096) (by norm_num)
  have hl := clampUnsigned_bounds 1 256 (parseUnsigned o.layers 64) (by norm_num)
  have hs := clampUnsigned_bounds 8 512 (parseUnsigned o.tex_size 64) (by norm_num)
  simp only [SceneGL41TexArray.setup]
  refine ⟨⟨hi.1, hi.2, hl.1, hl.2, hs.1, hs.2⟩, ?_, ?_, ?_, ?_⟩
  · intro v hv h1 h2
    rw [parseUnsigned_of_some _ _ v hv (by omega)]
    exact clampUnsigned_of_mem _ _ _ h1 h2
  · intro v hv h1 h2
    rw [parseUnsigned_of_some _ _ v hv (by omega)]
    exact clampUnsigned_of_mem _ _ _ h1 h2
  · intro v hv h1 h2
    rw [parseUnsigned_of_some _ _ v hv (by omega)]
    exact clampUnsigned_of_mem _ _ _ h1 h2
  · intro x hx
    simp only [SceneGL41TexArray.instance_layers, List.mem_map, List.mem_range] at hx
    obtain ⟨i, _, rfl⟩ := hx
    exact Nat.mod_lt _ (by omega)

/-- Claim C8 at a concrete run: instances "5", layers "3", tex-size "16"
are realized unchanged, and the layer index 2 written for instance 2 is
below the layer count. -/
theorem texarray_setup_realizes_clamped_values_witness :
    (stoul "5" = some 5 ∧
      (SceneGL41TexArray.setup exampleSetupContext.stof
        { instances := "5", layers := "3", tex_size := "16" } {}).2.1.instances = 5) ∧
    (stoul "3" = some 3 ∧
      (SceneGL41TexArray.setup exampleSetupContext.stof
        { instances := "5", layers := "3", tex_size := "16" } {}).2.1.layers = 3) ∧
    (stoul "16" = some 16 ∧
      (SceneGL41TexArray.setup exampleSetupContext.stof
        { instances := "5", layers := "3", tex_size := "16" } {}).2.1.tex_size = 16) ∧
    (2 ∈ SceneGL41TexArray.instance_layers
        (SceneGL41TexArray.setup exampleSetupContext.stof
          { instances := "5", layers := "3", tex_size := "16" } {}).2.1.instances
        (SceneGL41TexArray.setup exampleSetupContext.stof
          { instances := "5", layers := "3", tex_size := "16" } {}).2.1.layers ∧
      2 < (SceneGL41TexArray.setup exampleSetupContext.stof
        { instances := "5", layers := "3", tex_size := "16" } {}).2.1.layers) :=
  ⟨⟨by decide,
      (texarray_setup_realizes_clamped_values exampleSetupContext.stof
        { instances := "5", layers := "3", tex_size := "16" } {}).2.1 5
        (by decide) (by decide) (by decide)⟩,
   ⟨by decide,
      (texarray_setup_realizes_clamped_values exampleSetupContext.stof
        { instances := "5", layers := "3", tex_size := "16" } {}).2.2.1 3
        (by decide) (by decide) (by decide)⟩,
   ⟨by decide,
      (texarray_setup_realizes_clamped_values exampleSetupContext.stof
        { instances := "5", layers := "3", tex_size := "16" } {}).2.2.2.1 16
        (by decide) (by decide) (by decide)⟩,
   ⟨by decide,
      (texarray_setup_realizes_clamped_values exampleSetupContext.stof
        { instances := "5", layers := "3", tex_size := "16" } {}).2.2.2.2 2 (by decide)⟩⟩

/-! ## Out-of-range and unparsable option strings -/

/-- What each option realizes, as a function of the parsed value. -/
theorem realized_eq (c : SetupContext) (s : String) (opt : IntOption) :
    opt.realized c s =
      match opt with
      | .instancing_instances => max 1 (parseUnsigned s 4096)
      | .streaming_bytes => (SceneGL41StreamingSync.realized_bytes s).2
      | o => clampUnsigned o.minimum o.maximum (parseUnsigned s o.default) := by
  cases opt
  case mrt_targets => exact mrt_setup_targets _ _ _
  case mrt_size => exact mrt_setup_size _ _ _
  case streaming_bytes => exact streaming_setup_bytes _ _ _
  all_goals rfl

theorem setupResult_eq_true (c : SetupContext) (s : String) (opt : IntOption)
    (h1 : opt ≠ .mrt_targets) (h2 : opt ≠ .mrt_size) : opt.setupResult c s = true := by
  cases opt
  case mrt_targets => exact absurd rfl h1
  case mrt_size => exact absurd rfl h2
  case streaming_bytes => exact streaming_setup_result _ _ _
  all_goals rfl

theorem recreate_fst (e : MRTRecreateEnv) (p : SceneGL41MRTPrivate) (s : Bool) :
    (gl41_mrt_recreate_fbo e p s).1 = decide (e.status = GL_FRAMEBUFFER_COMPLETE) := by
  unfold gl41_mrt_recreate_fbo
  dsimp only
  split <;> simp_all

/-- When the clamped targets or size differ from the record, the MRT
`setup()` is the framebuffer re-creation on the updated record. -/
theorem mrt_setup_of_changed (o : SceneGL41MRTOptions) (e : MRTRecreateEnv)
    (p : SceneGL41MRTPrivate)
    (h : (SceneGL41MRT.setup o e p).2.1.targets ≠ p.targets ∨
      (SceneGL41MRT.setup o e p).2.1.size ≠ p.size) :
    SceneGL41MRT.setup o e p =
      gl41_mrt_recreate_fbo e
        { p with targets := (SceneGL41MRT.setup o e p).2.1.targets,
                 size := (SceneGL41MRT.setup o e p).2.1.size } true := by
  rw [mrt_setup_targets, mrt_setup_size] at h
  have hc : (decide (clampUnsigned 1 4 (parseUnsigned o.targets 4) ≠ p.targets) ||
      decide (clampUnsigned 64 4096 (parseUnsigned o.size 1024) ≠ p.size)) = true := by
    simpa using h
  rw [mrt_setup_targets, mrt_setup_size]
  unfold SceneGL41MRT.setup
  dsimp only
  rw [if_pos hc]

theorem mrt_targets_setup_size (c : SetupContext) (s : String) :
    (SceneGL41MRT.setup { c.mrt_options with targets := s } c.mrt_env c.mrt).2.1.size =
      IntOption.realized c c.mrt_options.size .mrt_size := by
  show _ = (SceneGL41MRT.setup _ _ _).2.1.size
  rw [mrt_setup_size, mrt_setup_size]

theorem mrt_size_setup_targets (c : SetupContext) (s : String) :
    (SceneGL41MRT.setup { c.mrt_options with size := s } c.mrt_env c.mrt).2.1.targets =
      IntOption.realized c c.mrt_options.targets .mrt_targets := by
  show _ = (SceneGL41MRT.setup _ _ _).2.1.targets
  rw [mrt_setup_targets, mrt_setup_targets]

theorem mrt_targets_setupResult (c : SetupContext) (s : String)
    (h : IntOption.realized c s .mrt_targets ≠ c.mrt.targets ∨
      IntOption.realized c c.mrt_options.size .mrt_size ≠ c.mrt.size) :
    IntOption.setupResult c s .mrt_targets =
      (gl41_mrt_recreate_fbo c.mrt_env
        { c.mrt with targets := IntOption.realized c s .mrt_targets,
                     size := IntOption.realized c c.mrt_options.size .mrt_size } true).1 := by
  rw [← mrt_targets_setup_size c s] at h ⊢
  show (SceneGL41MRT.setup { c.mrt_options with targets := s } c.mrt_env c.mrt).1 = _
  exact congrArg Prod.fst (mrt_setup_of_changed _ _ _ h)

theorem mrt_size_setupResult (c : SetupContext) (s : String)
    (h : IntOption.realized c c.mrt_options.targets .mrt_targets ≠ c.mrt.targets ∨
      IntOption.realized c s .mrt_size ≠ c.mrt.size) :
    IntOption.setupResult c s .mrt_size =
      (gl41_mrt_recreate_fbo c.mrt_env
        { c.mrt with targets := IntOption.realized c c.mrt_options.targets .mrt_targets,
                     size := IntOption.realized c s .mrt_size } true).1 := by
  rw [← mrt_size_setup_targets c s] at h ⊢
  show (SceneGL41MRT.setup { c.mrt_options with size := s } c.mrt_env c.mrt).1 = _
  exact congrArg Prod.fst (mrt_setup_of_changed _ _ _ h)

/-- Claim C9 fails as stated: the numeral 18446744073709551616 (2^64) lies
above the maximum 256 of the layers option, yet the texture array setup
realizes 64 layers, not 256.  The conversion `std::stoul` throws on a
magnitude above `ULONG_MAX`, the handler `catch (...)` assigns the declared
default 64, and the clamp leaves a value inside 1..256 unchanged. -/
theorem numeral_beyond_conversion_range_realizes_default :
    IsDecimalOf "18446744073709551616" 18446744073709551616 ∧
    IntOption.maximum .texarray_layers < 18446744073709551616 ∧
    stoul "18446744073709551616" = none ∧
    IntOption.realized exampleSetupContext "18446744073709551616" .texarray_layers = 64 ∧
    IntOption.default .texarray_layers = 64 ∧
    IntOption.maximum .texarray_layers = 256 := by
  refine ⟨⟨by decide, by decide, by decide⟩, by decide, by decide, ?_, rfl, rfl⟩
  rw [realized_eq]
  decide

/-- Claim C9 as amended: for every integer option and every plain decimal
numeral denoting n, (1) if n is below the minimum of the option, setup
realizes the minimum; (2) if n is above the maximum and fits the unsigned
type the option is stored in (below 2^32, or below 2^64 for the streaming
size), setup realizes the maximum, for every option but the instancing
instance count; (3) if n is 2^64 or more, the conversion throws and setup
realizes the declared default; (4) setup returns true in every scene but
MRT; (5) in the MRT scene, for the targets option and for the size option
alike, when the realized targets or the realized size differs from the value
held in the record, setup returns what `gl41_mrt_recreate_fbo` returns on the
record with the realized values, which is true exactly when the framebuffer
status is `GL_FRAMEBUFFER_COMPLETE`. -/
theorem out_of_range_decimal_realizes_nearest_end (c : SetupContext) (opt : IntOption)
    (s : String) (n : Nat) (h : IsDecimalOf s n) :
    (n < opt.minimum → opt.realized c s = opt.minimum) ∧
    (opt.maximum < n → n < opt.storeRange → opt ≠ .instancing_instances →
      opt.realized c s = opt.maximum) ∧
    (2 ^ 64 ≤ n → opt.realized c s = opt.default) ∧
    (opt ≠ .mrt_targets → opt ≠ .mrt_size → opt.setupResult c s = true) ∧
    (opt = .mrt_targets →
      opt.realized c s ≠ c.mrt.targets ∨
        IntOption.realized c c.mrt_options.size .mrt_size ≠ c.mrt.size →
      opt.setupResult c s =
        (gl41_mrt_recreate_fbo c.mrt_env
          { c.mrt with targets := opt.realized c s,
                       size := IntOption.realized c c.mrt_options.size .mrt_size } true).1 ∧
      (opt.setupResult c s = true ↔ c.mrt_env.status = GL_FRAMEBUFFER_COMPLETE)) ∧
    (opt = .mrt_size →
      IntOption.realized c c.mrt_options.targets .mrt_targets ≠ c.mrt.targets ∨
        opt.realized c s ≠ c.mrt.size →
      opt.setupResult c s =
        (gl41_mrt_recreate_fbo c.mrt_env
          { c.mrt with targets := IntOption.realized c c.mrt_options.targets .mrt_targets,
                       size := opt.realized c s } true).1 ∧
      (opt.setupResult c s = true ↔ c.mrt_env.status = GL_FRAMEBUFFER_COMPLETE)) := by
  refine ⟨?_, ?_, ?_, setupResult_eq_true c s opt, ?_, ?_⟩
  · intro hn
    rw [realized_eq]
    cases opt
    case instancing_instances =>
      simp only [IntOption.minimum] at hn
      rw [parseUnsigned_decimal s n _ h (by omega)]
      simp only [IntOption.minimum]
      omega
    case streaming_bytes =>
      simp only [IntOption.minimum] at hn
      have hp : stoull s = some n := by
        show stoul s = some n
        rw [stoul_of_decimal s n h, if_neg]
        simp only [ULONG_MAX]
        omega
      dsimp only
      rw [realized_bytes_eq, realized_bytes_of_parsed s n hp,
        clampUnsigned_of_lt _ _ _ (by norm_num) (by omega)]
      rfl
    all_goals
      simp only [IntOption.minimum] at hn
      dsimp only
      rw [parseUnsigned_decimal s n _ h (by omega)]
      exact clampUnsigned_of_lt _ _ _ (by decide) hn
  · intro hn hr hne
    rw [realized_eq]
    cases opt
    case instancing_instances => exact absurd rfl hne
    case streaming_bytes =>
      simp only [IntOption.maximum] at hn
      simp only [IntOption.storeRange] at hr
      have hp : stoull s = some n := by
        show stoul s = some n
        rw [stoul_of_decimal s n h, if_neg]
        simp only [ULONG_MAX]
        omega
      dsimp only
      rw [realized_bytes_eq, realized_bytes_of_parsed s n hp,
        clampUnsigned_of_gt _ _ _ (by norm_num) (by omega)]
      rfl
    all_goals
      simp only [IntOption.maximum] at hn
      simp only [IntOption.storeRange] at hr
      dsimp only
      rw [parseUnsigned_decimal s n _ h hr]
      exact clampUnsigned_of_gt _ _ _ (by decide) hn
  · intro hn
    rw [realized_eq]
    cases opt
    case instancing_instances =>
      dsimp only
      rw [parseUnsigned_decimal_huge s n _ h hn]
      rfl
    case streaming_bytes =>
      dsimp only
      apply realized_bytes_of_throw
      show stoul s = none
      rw [stoul_of_decimal s n h, if_pos]
      simp only [ULONG_MAX]
      omega
    all_goals
      dsimp only
      rw [parseUnsigned_decimal_huge s n _ h hn]
      rfl
  · intro ho hch
    subst ho
    refine ⟨mrt_targets_setupResult c s hch, ?_⟩
    rw [mrt_targets_setupResult c s hch, recreate_fst]
    exact decide_eq_true_iff
  · intro ho hch
    subst ho
    refine ⟨mrt_size_setupResult c s hch, ?_⟩
    rw [mrt_size_setupResult c s hch, recreate_fst]
    exact decide_eq_true_iff

/-- Claim C9 as amended, at concrete runs: layers "1000" realizes 256,
tex-size "3" realizes 8, points "18446744073709551616" realizes the default
65536 and the geometry setup returns true; MRT targets "0" realizes 1 on a
fresh scene and setup returns true exactly when the framebuffer is complete;
MRT size "5000" realizes 4096 and, on a driver reporting the framebuffer
incomplete, setup returns true exactly when the status is complete, which it
is not. -/
theorem out_of_range_decimal_realizes_nearest_end_witness :
    (IsDecimalOf "1000" 1000 ∧
      IntOption.realized exampleSetupContext "1000" .texarray_layers = 256) ∧
    (IsDecimalOf "3" 3 ∧
      IntOption.realized exampleSetupContext "3" .texarray_tex_size = 8) ∧
    (IsDecimalOf "18446744073709551616" 18446744073709551616 ∧
      IntOption.realized exampleSetupContext "18446744073709551616" .geometry_points = 65536 ∧
      IntOption.setupResult exampleSetupContext "18446744073709551616" .geometry_points =
        true) ∧
    (IsDecimalOf "0" 0 ∧
      IntOption.realized exampleSetupContext "0" .mrt_targets = 1 ∧
      (IntOption.setupResult exampleSetupContext "0" .mrt_targets = true ↔
        exampleSetupContext.mrt_env.status = GL_FRAMEBUFFER_COMPLETE)) ∧
    (IsDecimalOf "5000" 5000 ∧
      exampleRecreateIncomplete.status ≠ GL_FRAMEBUFFER_COMPLETE ∧
      IntOption.realized { exampleSetupContext with mrt_env := exampleRecreateIncomplete }
        "5000" .mrt_size = 4096 ∧
      (IntOption.setupResult { exampleSetupContext with mrt_env := exampleRecreateIncomplete }
          "5000" .mrt_size = true ↔
        exampleRecreateIncomplete.status = GL_FRAMEBUFFER_COMPLETE)) :=
  ⟨⟨⟨by decide, by decide, by decide⟩,
      (out_of_range_decimal_realizes_nearest_end exampleSetupContext .texarray_layers "1000"
        1000 ⟨by decide, by decide, by decide⟩).2.1 (by decide) (by decide) (by decide)⟩,
   ⟨⟨by decide, by decide, by decide⟩,
      (out_of_range_decimal_realizes_nearest_end exampleSetupContext .texarray_tex_size "3"
        3 ⟨by decide, by decide, by decide⟩).1 (by decide)⟩,
   ⟨⟨by decide, by decide, by decide⟩,
      (out_of_range_decimal_realizes_nearest_end exampleSetupContext .geometry_points
        "18446744073709551616" 18446744073709551616
        ⟨by decide, by decide, by decide⟩).2.2.1 (by decide),
      (out_of_range_decimal_realizes_nearest_end exampleSetupContext .geometry_points
        "18446744073709551616" 18446744073709551616
        ⟨by decide, by decide, by decide⟩).2.2.2.1 (by decide) (by decide)⟩,
   ⟨⟨by decide, by decide, by decide⟩,
      (out_of_range_decimal_realizes_nearest_end exampleSetupContext .mrt_targets "0" 0
        ⟨by decide, by decide, by decide⟩).1 (by decide),
      ((out_of_range_decimal_realizes_nearest_end exampleSetupContext .mrt_targets "0" 0
        ⟨by decide, by decide, by decide⟩).2.2.2.2.1 rfl (Or.inl (by decide))).2⟩,
   ⟨⟨by decide, by decide, by decide⟩, by decide,
      (out_of_range_decimal_realizes_nearest_end
        { exampleSetupContext with mrt_env := exampleRecreateIncomplete } .mrt_size "5000" 5000
        ⟨by decide, by decide, by decide⟩).2.1 (by decide) (by decide) (by decide),
      ((out_of_range_decimal_realizes_nearest_end
        { exampleSetupContext with mrt_env := exampleRecreateIncomplete } .mrt_size "5000" 5000
        ⟨by decide, by decide, by decide⟩).2.2.2.2.2 rfl (Or.inr (by decide))).2⟩⟩

theorem clampFloat_bias_default :
    clampFloat (.finite (-4)) (.finite 4) (.finite (3 / 4)) = .finite (3 / 4) := by
  simp only [clampFloat, FloatVal.lt]
  norm_num

theorem clampFloat_size_default :
    clampFloat (.finite (1 / 1000)) (.finite (5 / 100)) (.finite (12 / 1000)) =
      .finite (12 / 1000) := by
  simp only [clampFloat, FloatVal.lt]
  norm_num

/-- Claim C10: when the conversion of an option string throws, setup
realizes the declared default of the option and returns normally: every
integer option realizes its default (instances 4096, grid 10, targets 4,
size 1024, layers 64, tex-size 64, bytes 4194304, points 65536), the bias and
the quad size handed to the driver are 0.75 and 0.012, and setup returns true
in the instancing, pipeline, texture array, streaming and geometry scenes. -/
theorem unparsable_option_realizes_declared_default (c : SetupContext) :
    (∀ (opt : IntOption) (s : String), opt.parser s = none →
      opt.realized c s = opt.default ∧
      (opt ≠ .mrt_targets → opt ≠ .mrt_size → opt.setupResult c s = true)) ∧
    (∀ (o : SceneGL41TexArrayOptions) (p : SceneGL41TexArrayPrivate), c.stof o.bias = none →
      (∀ (loc : Int) (v : FloatVal),
        GLCall.Uniform1f loc v ∈ (SceneGL41TexArray.setup c.stof o p).2.2 →
          v = .finite (3 / 4)) ∧
      (0 ≤ p.u_bias →
        GLCall.Uniform1f p.u_bias (.finite (3 / 4)) ∈ (SceneGL41TexArray.setup c.stof o p).2.2) ∧
      (SceneGL41TexArray.setup c.stof o p).1 = true) ∧
    (∀ (o : SceneGL41GeometryOptions) (p : SceneGL41GeometryPrivate), c.stof o.size = none →
      (∀ (loc : Int) (v0 v1 : FloatVal),
        GLCall.Uniform2f loc v0 v1 ∈ (SceneGL41Geometry.setup c.stof o p).2.2 →
          v0 = .finite (12 / 1000) ∧ v1 = .finite (12 / 1000)) ∧
      (0 ≤ p.u_size →
        GLCall.Uniform2f p.u_size (.finite (12 / 1000)) (.finite (12 / 1000)) ∈
          (SceneGL41Geometry.setup c.stof o p).2.2) ∧
      (SceneGL41Geometry.setup c.stof o p).1 = true) := by
  refine ⟨?_, ?_, ?_⟩
  · intro opt s hs
    refine ⟨?_, setupResult_eq_true c s opt⟩
    rw [realized_eq]
    cases opt
    case instancing_instances =>
      dsimp only
      rw [parseUnsigned_of_none s _ hs]
      rfl
    case streaming_bytes => exact realized_bytes_of_throw s hs
    all_goals
      dsimp only
      rw [parseUnsigned_of_none s _ hs]
      rfl
  · intro o p hb
    have hbias : clampFloat (.finite (-4)) (.finite 4)
        (parseFloat c.stof o.bias (.finite (3 / 4))) = .finite (3 / 4) := by
      simp only [parseFloat, hb]
      exact clampFloat_bias_default
    simp only [SceneGL41TexArray.setup, hbias]
    refine ⟨?_, ?_, trivial⟩
    · intro loc v hmem
      split_ifs at hmem <;> simp_all [gl41_texarray_upload]
    · intro hu
      simp [hu]
  · intro o p hb
    have hsize : clampFloat (.finite (1 / 1000)) (.finite (5 / 100))
        (parseFloat c.stof o.size (.finite (12 / 1000))) = .finite (12 / 1000) := by
      simp only [parseFloat, hb]
      exact clampFloat_size_default
    simp only [SceneGL41Geometry.setup, hsize]
    refine ⟨?_, ?_, trivial⟩
    · intro loc v0 v1 hmem
      split_ifs at hmem <;> simp_all
    · intro hu
      simp [hu]

/-- Claim C10 at concrete runs: the grid string "many" makes std::stoul
throw and realizes grid 10 with setup returning true; with a float parser
that throws, the loaded texture array scene hands bias 0.75 to the driver. -/
theorem unparsable_option_realizes_declared_default_witness :
    (IntOption.parser .pipeline_grid "many" = none ∧
      IntOption.realized exampleSetupContext "many" .pipeline_grid = 10 ∧
      IntOption.setupResult exampleSetupContext "many" .pipeline_grid = true) ∧
    (exampleSetupContext.stof ({} : SceneGL41TexArrayOptions).bias = none ∧
      GLCall.Uniform1f exampleTexArrayLoaded.u_bias (.finite (3 / 4)) ∈
        (SceneGL41TexArray.setup exampleSetupContext.stof {} exampleTexArrayLoaded).2.2) :=
  ⟨⟨by decide,
      ((unparsable_option_realizes_declared_default exampleSetupContext).1 .pipeline_grid
        "many" (by decide)).1,
      ((unparsable_option_realizes_declared_default exampleSetupContext).1 .pipeline_grid
        "many" (by decide)).2 (by decide) (by decide)⟩,
   ⟨rfl,
      ((unparsable_option_realizes_declared_default exampleSetupContext).2.1 {}
        exampleTexArrayLoaded rfl).2.1 (by decide)⟩⟩

/-! ## Reallocation in `setup()` -/

theorem resultSat_intro {σ : Type} {P : Bool × σ × List GLCall → Prop}
    {r : Bool × σ × List GLCall} (h : P r) : resultSat P r := by
  unfold resultSat
  exact h

theorem resultSat_elim {σ : Type} {P : Bool × σ × List GLCall → Prop}
    {r : Bool × σ × List GLCall} (h : resultSat P r) : P r := by
  unfold resultSat at h
  exact h

theorem resultSat_ite {σ : Type} (P : Bool × σ × List GLCall → Prop) (c : Prop) [Decidable c]
    (a b : Bool × σ × List GLCall) (ha : c → resultSat P a) (hb : ¬c → resultSat P b) :
    resultSat P (if c then a else b) := by
  split
  · exact ha ‹_›
  · exact hb ‹_›

theorem countP_destroyCall_genfb (h : Nat) (call : Nat → GLCall)
    (hc : ∀ x, (call x).isGenFramebuffers = false) :
    (destroyCall h call).countP GLCall.isGenFramebuffers = 0 := by
  unfold destroyCall
  split <;> simp [hc]

theorem procs_load_no_genfb (dl : String → DlsymResult) (b : Bool) :
    (GL41Procs.load dl b).2.2.countP GLCall.isGenFramebuffers = 0 := by
  rw [List.countP_eq_zero]
  intro c hc
  unfold GL41Procs.load at hc
  dsimp only at hc
  have hl : ∀ c ∈ (GL41Procs.names.map fun n => (GL41Procs.sym dl b n).2).flatten,
      c.isGenFramebuffers = false := by
    intro c hc
    simp only [List.mem_flatten, List.mem_map] at hc
    obtain ⟨l, ⟨n, _, rfl⟩, hcl⟩ := hc
    simp only [GL41Procs.sym] at hcl
    split_ifs at hcl
    · simp at hcl
      subst hcl
      rfl
    · simp at hcl
  split_ifs at hc
  · simp only [List.mem_append, List.mem_singleton] at hc
    rcases hc with hc | hc
    · simp [hl c hc]
    · subst hc
      simp [GLCall.isGenFramebuffers]
  · simp only [List.mem_append, List.not_mem_nil, or_false] at hc
    simp [hl c hc]
  · simp [hl c hc]

theorem compile_shader_no_genfb (t : ShaderType) (e : CompileEnv) :
    (compile_shader t e).2.countP GLCall.isGenFramebuffers = 0 := by
  unfold compile_shader
  split_ifs <;> simp [GLCall.isGenFramebuffers]

theorem recreate_genfb_count (e : MRTRecreateEnv) (p : SceneGL41MRTPrivate) (s : Bool) :
    (gl41_mrt_recreate_fbo e p s).2.2.countP GLCall.isGenFramebuffers = 1 := by
  unfold gl41_mrt_recreate_fbo
  dsimp only
  have h1 : ∀ l : List Nat, List.countP GLCall.isGenFramebuffers
      (l.map fun n =>
        [GLCall.BindTexture .TEXTURE_2D n, .TexParameteri .TEXTURE_2D, .TexParameteri .TEXTURE_2D,
         .TexParameteri .TEXTURE_2D, .TexParameteri .TEXTURE_2D, .TexImage2D p.size p.size]).flatten
      = 0 := by
    intro l
    induction l with
    | nil => rfl
    | cons a l ih =>
      rw [List.map_cons, List.flatten_cons, List.countP_append, ih]
      rfl
  have h2 : ∀ l : List Nat, List.countP GLCall.isGenFramebuffers
      (l.map fun i => GLCall.FramebufferTexture2D (GL_COLOR_ATTACHMENT0 + i) (e.tex i)) = 0 := by
    intro l
    induction l with
    | nil => rfl
    | cons a l ih =>
      rw [List.map_cons, List.countP_cons, ih]
      rfl
  have h3 := countP_destroyCall_genfb p.fbo GLCall.DeleteFramebuffers (fun _ => rfl)
  have h4 := countP_destroyCall_genfb p.rbo_depth GLCall.DeleteRenderbuffers (fun _ => rfl)
  have h5 : List.countP GLCall.isGenFramebuffers
      (if p.color_tex ≠ [] then [GLCall.DeleteTextures p.color_tex] else []) = 0 := by
    split <;> rfl
  have h6 : List.countP GLCall.isGenFramebuffers
      (if s = true then [GLCall.Log .error "gl41-mrt: FBO incomplete (0x%x)"] else []) = 0 := by
    split <;> rfl
  split <;>
  · dsimp only
    simp only [List.countP_append, h1, h2, h3, h4, h5, h6]
    rfl

theorem recreate_record (e : MRTRecreateEnv) (p : SceneGL41MRTPrivate) (s : Bool) :
    (gl41_mrt_recreate_fbo e p s).2.1 =
      { p with fbo := e.fbo, rbo_depth := e.rbo, color_tex := (List.range p.targets).map e.tex } := by
  unfold gl41_mrt_recreate_fbo
  dsimp only
  split <;> rfl

theorem mrt_load_creates_one_framebuffer (e : SceneGL41MRTLoadEnv) (p : SceneGL41MRTPrivate) :
    resultSat (fun r => r.1 = false ∨
      (r.2.2.countP GLCall.isGenFramebuffers = 1 ∧ r.2.1.targets = p.targets ∧
        r.2.1.size = p.size)) (SceneGL41MRT.load e p) := by
  unfold SceneGL41MRT.load
  dsimp only
  repeat' (apply resultSat_ite <;> intro _)
  all_goals apply resultSat_intro
  all_goals first
    | exact Or.inl rfl
    | skip
  right
  refine ⟨?_, ?_, ?_⟩
  · simp only [List.countP_append, procs_load_no_genfb, compile_shader_no_genfb,
      recreate_genfb_count]
    rfl
  · rw [recreate_record]
  · rw [recreate_record]

theorem mrt_setup_genfb_count (o : SceneGL41MRTOptions) (e : MRTRecreateEnv)
    (p : SceneGL41MRTPrivate) :
    (SceneGL41MRT.setup o e p).2.2.countP GLCall.isGenFramebuffers =
      if (SceneGL41MRT.setup o e p).2.1.targets ≠ p.targets ∨
         (SceneGL41MRT.setup o e p).2.1.size ≠ p.size then 1 else 0 := by
  rw [mrt_setup_targets, mrt_setup_size]
  unfold SceneGL41MRT.setup
  dsimp only
  by_cases h : clampUnsigned 1 4 (parseUnsigned o.targets 4) ≠ p.targets ∨
      clampUnsigned 64 4096 (parseUnsigned o.size 1024) ≠ p.size
  · rw [if_pos (by simpa using h), if_pos h]
    exact recreate_genfb_count _ _ _
  · rw [if_neg (by simpa using h), if_neg h]
    rfl

theorem mrt_setup_repeated (o : SceneGL41MRTOptions) (e e' : MRTRecreateEnv)
    (p : SceneGL41MRTPrivate) :
    (SceneGL41MRT.setup o e' (SceneGL41MRT.setup o e p).2.1).2 =
      ((SceneGL41MRT.setup o e p).2.1, []) := by
  have ht := mrt_setup_targets o e p
  have hs := mrt_setup_size o e p
  generalize (SceneGL41MRT.setup o e p).2.1 = q at ht hs
  unfold SceneGL41MRT.setup
  dsimp only
  rw [if_neg (by simp [ht, hs])]
  rw [← ht, ← hs]

theorem countP_destroyCall_teximage (h : Nat) (call : Nat → GLCall)
    (hc : ∀ x, (call x).isTexImage3D = false) :
    (destroyCall h call).countP GLCall.isTexImage3D = 0 := by
  unfold destroyCall
  split <;> simp [hc]

theorem texarray_upload_count (p : SceneGL41TexArrayPrivate) :
    (gl41_texarray_upload p).countP GLCall.isTexImage3D = 1 := by
  unfold gl41_texarray_upload
  have h1 : ∀ l : List Nat, List.countP GLCall.isTexImage3D
      (l.map fun layer => GLCall.TexSubImage3D layer p.tex_size p.tex_size) = 0 := by
    intro l
    induction l with
    | nil => rfl
    | cons a l ih =>
      rw [List.map_cons, List.countP_cons, ih]
      rfl
  simp only [List.countP_append, h1]
  rfl

theorem texarray_setup_teximage_count (stof : String → Option FloatVal)
    (o : SceneGL41TexArrayOptions) (p : SceneGL41TexArrayPrivate) :
    (SceneGL41TexArray.setup stof o p).2.2.countP GLCall.isTexImage3D =
      if (SceneGL41TexArray.setup stof o p).2.1.layers ≠ p.layers ∨
         (SceneGL41TexArray.setup stof o p).2.1.tex_size ≠ p.tex_size then 1 else 0 := by
  unfold SceneGL41TexArray.setup
  dsimp only
  have hb : ∀ (l : Int) (v : FloatVal), List.countP GLCall.isTexImage3D
      (if l ≥ 0 then [GLCall.Uniform1f l v] else []) = 0 := by
    intro l v
    split <;> rfl
  by_cases h : clampUnsigned 1 256 (parseUnsigned o.layers 64) ≠ p.layers ∨
      clampUnsigned 8 512 (parseUnsigned o.tex_size 64) ≠ p.tex_size
  · rw [if_pos (by simpa using h), if_pos h]
    simp only [List.countP_append, texarray_upload_count, hb]
    rfl
  · rw [if_neg (by simpa using h), if_neg h]
    simp only [List.countP_append, hb]
    rfl

theorem texarray_setup_repeated (stof : String → Option FloatVal)
    (o : SceneGL41TexArrayOptions) (p : SceneGL41TexArrayPrivate) :
    (SceneGL41TexArray.setup stof o (SceneGL41TexArray.setup stof o p).2.1).2.1 =
      (SceneGL41TexArray.setup stof o p).2.1 ∧
    (SceneGL41TexArray.setup stof o (SceneGL41TexArray.setup stof o p).2.1).2.2.countP
      GLCall.isTexImage3D = 0 := by
  constructor
  · rfl
  · rw [texarray_setup_teximage_count]
    rw [if_neg]
    simp [SceneGL41TexArray.setup]

theorem realloc_genbuffers_count (names : Arr3 Nat) (p : SceneGL41StreamingSyncPrivate) :
    (gl41_streaming_realloc names p).2.countP GLCall.isGenBuffers = 1 := by
  unfold gl41_streaming_realloc
  have hd : ∀ (h : Nat) (call : Nat → GLCall), (∀ x, (call x).isGenBuffers = false) →
      (destroyCall h call).countP GLCall.isGenBuffers = 0 := by
    intro h call hc
    unfold destroyCall
    split <;> simp [hc]
  dsimp only
  simp only [List.countP_append, hd _ GLCall.DeleteSync (fun _ => rfl),
    hd _ GLCall.DeleteBuffers (fun _ => rfl)]
  rfl

theorem streaming_setup_genbuffers_count (o : SceneGL41StreamingSyncOptions) (names : Arr3 Nat)
    (p : SceneGL41StreamingSyncPrivate) :
    (SceneGL41StreamingSync.setup o names p).2.2.countP GLCall.isGenBuffers =
      if (SceneGL41StreamingSync.setup o names p).2.1.bytes ≠ p.bytes then 1 else 0 := by
  rw [streaming_setup_bytes]
  unfold SceneGL41StreamingSync.setup
  dsimp only
  have hl : ∀ b : Bool, List.countP GLCall.isGenBuffers
      (if b = true then
        [GLCall.Log .info "gl41-streaming-sync: bytes aligned down from %zu to %zu"]
       else []) = 0 := by
    intro b
    split <;> rfl
  by_cases h : (SceneGL41StreamingSync.realized_bytes o.bytes).2 ≠ p.bytes
  · rw [if_pos (by simpa using h), if_pos h]
    simp only [List.countP_append, realloc_genbuffers_count, hl]
  · rw [if_neg (by simpa using h), if_neg h]
    exact hl _

theorem streaming_setup_repeated (o : SceneGL41StreamingSyncOptions) (names names' : Arr3 Nat)
    (p : SceneGL41StreamingSyncPrivate) :
    (SceneGL41StreamingSync.setup o names' (SceneGL41StreamingSync.setup o names p).2.1).2 =
      ((SceneGL41StreamingSync.setup o names p).2.1, []) := by
  have hb := streaming_setup_bytes o names p
  have hw : (SceneGL41StreamingSync.realized_bytes o.bytes).2 ≠
      (SceneGL41StreamingSync.realized_bytes o.bytes).1 →
      (SceneGL41StreamingSync.setup o names p).2.1.warned_alignment = true := by
    intro hne
    unfold SceneGL41StreamingSync.setup
    dsimp only
    split <;> cases hp : p.warned_alignment <;> simp [gl41_streaming_realloc, hne, hp]
  generalize (SceneGL41StreamingSync.setup o names p).2.1 = q at hb hw
  unfold SceneGL41StreamingSync.setup
  dsimp only
  cases q
  simp only at hb hw
  subst hb
  by_cases hne : (SceneGL41StreamingSync.realized_bytes o.bytes).2 =
      (SceneGL41StreamingSync.realized_bytes o.bytes).1
  · simp [hne]
  · have hq := hw hne
    subst hq
    simp [hne]

/-- Claim C11: `setup()` reallocates exactly when a realized size parameter
differs from the value held.  The MRT setup issues one `glGenFramebuffers`
when the realized targets or size differ from the held ones and none
otherwise, the TexArray setup one `glTexImage3D` when layers or tex-size
differ, the StreamingSync setup one `glGenBuffers` when the aligned byte size
differs.  A setup repeated with the same option strings issues no call in MRT
and StreamingSync and no allocation in TexArray, and leaves the record
unchanged.  A successful `load()` followed by two setups with targets "4" and
the default size creates exactly one framebuffer in total. -/
theorem setup_reallocates_exactly_on_size_change :
    (∀ (o : SceneGL41MRTOptions) (e : MRTRecreateEnv) (p : SceneGL41MRTPrivate),
      (SceneGL41MRT.setup o e p).2.2.countP GLCall.isGenFramebuffers =
        if (SceneGL41MRT.setup o e p).2.1.targets ≠ p.targets ∨
           (SceneGL41MRT.setup o e p).2.1.size ≠ p.size then 1 else 0) ∧
    (∀ (stof : String → Option FloatVal) (o : SceneGL41TexArrayOptions)
        (p : SceneGL41TexArrayPrivate),
      (SceneGL41TexArray.setup stof o p).2.2.countP GLCall.isTexImage3D =
        if (SceneGL41TexArray.setup stof o p).2.1.layers ≠ p.layers ∨
           (SceneGL41TexArray.setup stof o p).2.1.tex_size ≠ p.tex_size then 1 else 0) ∧
    (∀ (o : SceneGL41StreamingSyncOptions) (names : Arr3 Nat)
        (p : SceneGL41StreamingSyncPrivate),
      (SceneGL41StreamingSync.setup o names p).2.2.countP GLCall.isGenBuffers =
        if (SceneGL41StreamingSync.setup o names p).2.1.bytes ≠ p.bytes then 1 else 0) ∧
    (∀ (o : SceneGL41MRTOptions) (e e' : MRTRecreateEnv) (p : SceneGL41MRTPrivate),
      (SceneGL41MRT.setup o e' (SceneGL41MRT.setup o e p).2.1).2 =
        ((SceneGL41MRT.setup o e p).2.1, [])) ∧
    (∀ (stof : String → Option FloatVal) (o : SceneGL41TexArrayOptions)
        (p : SceneGL41TexArrayPrivate),
      (SceneGL41TexArray.setup stof o (SceneGL41TexArray.setup stof o p).2.1).2.1 =
        (SceneGL41TexArray.setup stof o p).2.1 ∧
      (SceneGL41TexArray.setup stof o (SceneGL41TexArray.setup stof o p).2.1).2.2.countP
        GLCall.isTexImage3D = 0) ∧
    (∀ (o : SceneGL41StreamingSyncOptions) (names names' : Arr3 Nat)
        (p : SceneGL41StreamingSyncPrivate),
      (SceneGL41StreamingSync.setup o names' (SceneGL41StreamingSync.setup o names p).2.1).2 =
        ((SceneGL41StreamingSync.setup o names p).2.1, [])) ∧
    (∀ (e : SceneGL41MRTLoadEnv) (e1 e2 : MRTRecreateEnv),
      (SceneGL41MRT.load e {}).1 = true →
      ((SceneGL41MRT.load e {}).2.2 ++
        (SceneGL41MRT.setup { targets := "4" } e1 (SceneGL41MRT.load e {}).2.1).2.2 ++
        (SceneGL41MRT.setup { targets := "4" } e2
          (SceneGL41MRT.setup { targets := "4" } e1 (SceneGL41MRT.load e {}).2.1).2.1).2.2).countP
        GLCall.isGenFramebuffers = 1) := by
  refine ⟨mrt_setup_genfb_count, texarray_setup_teximage_count, streaming_setup_genbuffers_count,
    mrt_setup_repeated, texarray_setup_repeated, streaming_setup_repeated, ?_⟩
  intro e e1 e2 hload
  have h := resultSat_elim (mrt_load_creates_one_framebuffer e {})
  rcases h with h | ⟨hc, ht, hs⟩
  · rw [hload] at h
    exact absurd h (by decide)
  · have h4 : clampUnsigned 1 4 (parseUnsigned "4" 4) = 4 := by decide
    have h1024 : clampUnsigned 64 4096 (parseUnsigned "1024" 1024) = 1024 := by decide
    rw [mrt_setup_repeated]
    simp only [List.countP_append, hc, mrt_setup_genfb_count, mrt_setup_targets, mrt_setup_size,
      ht, hs, h4, h1024]
    rfl

theorem setup_reallocates_exactly_on_size_change_witness :
    (SceneGL41MRT.load exampleMRTLoadOk {}).1 = true ∧
    ((SceneGL41MRT.load exampleMRTLoadOk {}).2.2 ++
      (SceneGL41MRT.setup { targets := "4" } exampleSetupContext.mrt_env
        (SceneGL41MRT.load exampleMRTLoadOk {}).2.1).2.2 ++
      (SceneGL41MRT.setup { targets := "4" } exampleSetupContext.mrt_env
        (SceneGL41MRT.setup { targets := "4" } exampleSetupContext.mrt_env
          (SceneGL41MRT.load exampleMRTLoadOk {}).2.1).2.1).2.2).countP
      GLCall.isGenFramebuffers = 1 :=
  ⟨rfl, setup_reallocates_exactly_on_size_change.2.2.2.2.2.2 exampleMRTLoadOk
    exampleSetupContext.mrt_env exampleSetupContext.mrt_env rfl⟩

/-! ## Ambient state around `draw()` -/

theorem GLState.run_append (g : GLState) (a b : List GLCall) :
    g.run (a ++ b) = (g.run a).run b := by
  simp [GLState.run, List.foldl_append]

theorem GLState.run_nil (g : GLState) : g.run [] = g := rfl

theorem GLState.run_cons (g : GLState) (c : GLCall) (l : List GLCall) :
    g.run (c :: l) = (g.apply c).run l := rfl

theorem apply_blend_func (g : GLState) (i : Nat) :
    g.apply (SceneGL41MRT.blend_func i) = g := by
  unfold SceneGL41MRT.blend_func
  split <;> rfl

theorem apply_restore_cap (g : GLState) (cap : Capability) (b : Bool) :
    g.apply (SceneGL41StreamingSync.restore_cap cap b) = g.setCap cap b := by
  cases b <;> rfl

theorem run_blend_enable_calls (is : List Nat) (g : GLState) :
    ∃ b : Nat → Bool, g.run (SceneGL41MRT.blend_enable_calls is) = { g with blend := b } := by
  induction is generalizing g with
  | nil => exact ⟨g.blend, rfl⟩
  | cons i is ih =>
    have hstep : g.run (SceneGL41MRT.blend_enable_calls (i :: is)) =
        ({ g with blend := fun j => if j = i then true else g.blend j } : GLState).run
          (SceneGL41MRT.blend_enable_calls is) := by
      simp only [SceneGL41MRT.blend_enable_calls, List.map_cons, List.flatten_cons,
        GLState.run_append]
      congr 1
      simp only [GLState.run_cons, GLState.run_nil, apply_blend_func]
      rfl
    obtain ⟨b, hb⟩ := ih { g with blend := fun j => if j = i then true else g.blend j }
    exact ⟨b, by rw [hstep, hb]⟩

theorem run_blend_disable_calls (is : List Nat) (g : GLState) :
    ∃ b : Nat → Bool, g.run (SceneGL41MRT.blend_disable_calls is) = { g with blend := b } := by
  induction is generalizing g with
  | nil => exact ⟨g.blend, rfl⟩
  | cons i is ih =>
    obtain ⟨b, hb⟩ := ih { g with blend := fun j => if j = i then false else g.blend j }
    refine ⟨b, ?_⟩
    simp only [SceneGL41MRT.blend_disable_calls, List.map_cons, GLState.run_cons]
    exact hb

theorem instancing_draw_ambient (p : SceneGL41InstancingPrivate) (g : GLState) :
    (g.run (SceneGL41Instancing.draw p).2).snapshot = { g.snapshot with uniform_buffer := 0 } := by
  rfl

theorem pipeline_draw_ambient (p : SceneGL41PipelinePrivate) (g : GLState) :
    (g.run (SceneGL41Pipeline.draw p g).2).snapshot =
      { g.snapshot with uniform_buffer := 0 } := by
  simp only [SceneGL41Pipeline.draw, GLState.run_cons, GLState.run_nil, apply_restore_cap]
  rfl

theorem texarray_draw_ambient (p : SceneGL41TexArrayPrivate) (g : GLState) :
    (g.run (SceneGL41TexArray.draw p g).2).snapshot =
      { g.snapshot with uniform_buffer := 0 } := by
  rfl

theorem geometry_draw_ambient (t : FloatVal) (p : SceneGL41GeometryPrivate) (g : GLState) :
    (g.run (SceneGL41Geometry.draw t p).2).snapshot = g.snapshot := by
  simp only [SceneGL41Geometry.draw]
  split <;> rfl


theorem mrt_draw_ambient (e : SceneGL41MRTDrawEnv) (p : SceneGL41MRTPrivate) (g : GLState) :
    { (g.run (SceneGL41MRT.draw e p g).2).snapshot with blend := g.snapshot.blend } =
      g.snapshot := by
  unfold SceneGL41MRT.draw
  split
  · rfl
  · have hu : ∀ h : GLState, h.run (if p.u_time ≥ 0 then [GLCall.Uniform1f p.u_time e.t] else [])
        = h := by
      intro h
      split <;> rfl
    simp only [GLState.run_append, hu]
    obtain ⟨b1, h1⟩ := run_blend_enable_calls (List.range p.targets)
      (g.run [.Enable .DEPTH_TEST, .DepthFunc GL_LESS, .BindFramebuffer .FRAMEBUFFER p.fbo,
        .Viewport 0 0 (toGLsizei p.size) (toGLsizei p.size), .ClearColor, .Clear])
    rw [h1]
    obtain ⟨b2, h2⟩ := run_blend_disable_calls (List.range p.targets)
      ((((({ g.run [.Enable .DEPTH_TEST, .DepthFunc GL_LESS, .BindFramebuffer .FRAMEBUFFER p.fbo,
        .Viewport 0 0 (toGLsizei p.size) (toGLsizei p.size), .ClearColor, .Clear] with
        blend := b1 } : GLState).run [.UseProgram p.program])).run
        [.BindVertexArray p.vao, .DrawArrays .TRIANGLES 0 3, .BindVertexArray 0, .UseProgram 0]))
    rw [h2]
    simp only [GLState.run_cons, GLState.run_nil, apply_restore_cap]
    simp only [GLState.snapshot, GLState.apply, GLState.setCap, GLState.isEnabled]
    simp
    intro hne heq
    exact absurd heq hne

theorem streaming_draw_wait_state (e : SceneGL41StreamingSyncDrawEnv) (w : Bool) (f : Nat)
    (g : GLState) : g.run (SceneGL41StreamingSync.draw_wait e w f) = g := by
  unfold SceneGL41StreamingSync.draw_wait
  split
  · simp only [GLState.run_append, GLState.run_cons, GLState.run_nil]
    split
    · simp only [GLState.run_append, GLState.run_cons, GLState.run_nil]
      split <;> split <;> rfl
    · rfl
  · rfl

theorem streaming_draw_upload_state (e : SceneGL41StreamingSyncDrawEnv)
    (p : SceneGL41StreamingSyncPrivate) (vbo : Nat) (g : GLState) :
    g.run (SceneGL41StreamingSync.draw_upload e p vbo) = { g with array_buffer := vbo } := by
  unfold SceneGL41StreamingSync.draw_upload
  simp only [GLState.run_append, GLState.run_cons, GLState.run_nil]
  split
  · simp only [GLState.run_append, GLState.run_cons, GLState.run_nil]
    split <;> rfl
  · simp only [GLState.run_append, GLState.run_cons, GLState.run_nil]
    split <;> rfl

theorem streaming_draw_render_state (e : SceneGL41StreamingSyncDrawEnv)
    (p : SceneGL41StreamingSyncPrivate) (g h : GLState) :
    (h.run (SceneGL41StreamingSync.draw_render e p g)).snapshot =
      { g.snapshot with
        array_buffer := 0, uniform_buffer := h.uniform_buffer, depth_func := h.depth_func,
        active_texture := h.active_texture, read_buffer := h.read_buffer g.read_fbo } := by
  unfold SceneGL41StreamingSync.draw_render
  have hu : ∀ k : GLState, k.run (if p.u_mvp ≥ 0 then [GLCall.UniformMatrix4fv p.u_mvp] else [])
      = k := by
    intro k
    split <;> rfl
  simp only [GLState.run_append, GLState.run_cons, GLState.run_nil, hu, apply_restore_cap]
  rfl

theorem streaming_draw_ambient (e : SceneGL41StreamingSyncDrawEnv)
    (p : SceneGL41StreamingSyncPrivate) (g : GLState) :
    (g.run (SceneGL41StreamingSync.draw e p g).2).snapshot =
      { g.snapshot with array_buffer := 0 } := by
  simp only [SceneGL41StreamingSync.draw, GLState.run_append, streaming_draw_wait_state,
    streaming_draw_upload_state, streaming_draw_render_state]
  rfl

/-- Claim C12, refuted as stated: the instancing `draw()` entered with
buffer 9 bound to `GL_UNIFORM_BUFFER` returns with that binding reset to 0, so
the ambient snapshot after the draw differs from the one before. -/
theorem instancing_draw_resets_uniform_buffer_binding :
    (exampleGLStateBound.run (SceneGL41Instancing.draw {}).2).snapshot ≠
      exampleGLStateBound.snapshot := by
  decide

/-- Claim C12, amended: for every record and every context state before the
call, `draw()` leaves every tracked ambient field other than a buffer binding
at its pre-draw value.  The Instancing, Pipeline and TexArray draws return
with the `GL_UNIFORM_BUFFER` binding at 0, the StreamingSync draw with the
`GL_ARRAY_BUFFER` binding at 0, the Geometry draw changes no tracked field;
for the MRT draw the statement covers every tracked field but the blend
flag. -/
theorem draw_preserves_ambient_state_except_buffer_bindings :
    (∀ (p : SceneGL41InstancingPrivate) (g : GLState),
      (g.run (SceneGL41Instancing.draw p).2).snapshot =
        { g.snapshot with uniform_buffer := 0 }) ∧
    (∀ (p : SceneGL41PipelinePrivate) (g : GLState),
      (g.run (SceneGL41Pipeline.draw p g).2).snapshot =
        { g.snapshot with uniform_buffer := 0 }) ∧
    (∀ (p : SceneGL41TexArrayPrivate) (g : GLState),
      (g.run (SceneGL41TexArray.draw p g).2).snapshot =
        { g.snapshot with uniform_buffer := 0 }) ∧
    (∀ (e : SceneGL41StreamingSyncDrawEnv) (p : SceneGL41StreamingSyncPrivate) (g : GLState),
      (g.run (SceneGL41StreamingSync.draw e p g).2).snapshot =
        { g.snapshot with array_buffer := 0 }) ∧
    (∀ (t : FloatVal) (p : SceneGL41GeometryPrivate) (g : GLState),
      (g.run (SceneGL41Geometry.draw t p).2).snapshot = g.snapshot) ∧
    (∀ (e : SceneGL41MRTDrawEnv) (p : SceneGL41MRTPrivate) (g : GLState),
      { (g.run (SceneGL41MRT.draw e p g).2).snapshot with blend := g.snapshot.blend } =
        g.snapshot) :=
  ⟨instancing_draw_ambient, pipeline_draw_ambient, texarray_draw_ambient,
    streaming_draw_ambient, geometry_draw_ambient, mrt_draw_ambient⟩

/-! ## Vertex count of the streaming buffers -/

theorem toGLsizei_of_lt {x : Nat} (h : x < 2 ^ 31) : toGLsizei x = (x : Int) := by
  have h1 : x % 2 ^ 32 = x := Nat.mod_eq_of_lt (by omega)
  simp only [toGLsizei, h1]
  rw [if_pos h]

theorem toSizeT_natCast {x : Nat} (h : x < 2 ^ 64) : toSizeT (x : Int) = x := by
  unfold toSizeT
  have : ((x : Int) % 2 ^ 64) = (x : Int) := Int.emod_eq_of_lt (by omega) (by omega)
  rw [this]
  exact Int.toNat_natCast x

theorem realloc_vertex_count (names : Arr3 Nat) (p : SceneGL41StreamingSyncPrivate)
    (hhi : p.bytes ≤ 64 * 1024 * 1024) :
    (gl41_streaming_realloc names p).1.vertex_count =
      ((p.bytes / 4 / 3 - p.bytes / 4 / 3 % 3 : Nat) : Int) := by
  have h : p.bytes / 4 / 3 - p.bytes / 4 / 3 % 3 < 2 ^ 31 := by omega
  simp only [gl41_streaming_realloc]
  exact toGLsizei_of_lt h

theorem realloc_base_xy_size (names : Arr3 Nat) (p : SceneGL41StreamingSyncPrivate)
    (hhi : p.bytes ≤ 64 * 1024 * 1024) :
    (gl41_streaming_realloc names p).1.base_xy_size =
      (p.bytes / 4 / 3 - p.bytes / 4 / 3 % 3) / 3 * 2 := by
  have h : p.bytes / 4 / 3 - p.bytes / 4 / 3 % 3 < 2 ^ 31 := by omega
  simp only [gl41_streaming_realloc]
  rw [toGLsizei_of_lt h, toSizeT_natCast (by omega)]

theorem realloc_bytes (names : Arr3 Nat) (p : SceneGL41StreamingSyncPrivate) :
    (gl41_streaming_realloc names p).1.bytes = p.bytes := rfl

theorem mem_fill_vertices_writes {tris w : Nat}
    (h : w ∈ SceneGL41StreamingSync.fill_vertices_writes tris) : w < tris * 9 := by
  simp only [SceneGL41StreamingSync.fill_vertices_writes, List.mem_flatten, List.mem_map,
    List.mem_range] at h
  obtain ⟨l, ⟨i, hi, rfl⟩, hw⟩ := h
  simp only [List.mem_cons, List.mem_singleton, List.not_mem_nil, or_false] at hw
  omega

theorem mem_fill_vertices_reads {tris i : Nat}
    (h : i ∈ SceneGL41StreamingSync.fill_vertices_reads tris) : i < tris * 2 := by
  simp only [SceneGL41StreamingSync.fill_vertices_reads, List.mem_flatten, List.mem_map,
    List.mem_range] at h
  obtain ⟨l, ⟨j, hj, rfl⟩, hw⟩ := h
  simp only [List.mem_cons, List.mem_singleton, List.not_mem_nil, or_false] at hw
  omega

/-- Claim C13: for every realized streaming byte size (a multiple of 256 in
256 KiB..64 MiB) `gl41_streaming_realloc` sets `vertex_count` to
`v - v mod 3` with `v = floor(floor(bytes/4)/3)`, which is the largest multiple
of 3 whose vec3 positions (12 bytes each) fit in the buffer; the table
`base_xy` gets 2 entries per triangle; and the fill of `vertex_count/3`
triangles writes only floats inside the mapped range of `bytes` bytes (and
inside the temporary vector of `3 * vertex_count` floats on the fallback
path) and reads only inside `base_xy`. -/
theorem streaming_vertex_count_fits_buffer (names : Arr3 Nat)
    (p : SceneGL41StreamingSyncPrivate)
    (halign : p.bytes % 256 = 0) (hlo : 256 * 1024 ≤ p.bytes)
    (hhi : p.bytes ≤ 64 * 1024 * 1024) :
    ∃ vc : Nat,
      (gl41_streaming_realloc names p).1.vertex_count = (vc : Int) ∧
      vc = p.bytes / 4 / 3 - p.bytes / 4 / 3 % 3 ∧
      vc % 3 = 0 ∧ 12 * vc ≤ (gl41_streaming_realloc names p).1.bytes ∧
      (∀ m : Nat, m % 3 = 0 → 12 * m ≤ (gl41_streaming_realloc names p).1.bytes → m ≤ vc) ∧
      (gl41_streaming_realloc names p).1.base_xy_size = 2 * (vc / 3) ∧
      toSizeT (gl41_streaming_realloc names p).1.vertex_count = vc ∧
      (∀ w ∈ SceneGL41StreamingSync.fill_vertices_writes
          (toSizeT (gl41_streaming_realloc names p).1.vertex_count / 3),
        4 * (w + 1) ≤ (gl41_streaming_realloc names p).1.bytes ∧ w < vc * 3) ∧
      (∀ i ∈ SceneGL41StreamingSync.fill_vertices_reads
          (toSizeT (gl41_streaming_realloc names p).1.vertex_count / 3),
        i < (gl41_streaming_realloc names p).1.base_xy_size) := by
  have hvc := realloc_vertex_count names p hhi
  have hxy := realloc_base_xy_size names p hhi
  have hts : toSizeT (gl41_streaming_realloc names p).1.vertex_count =
      p.bytes / 4 / 3 - p.bytes / 4 / 3 % 3 := by
    rw [hvc]
    exact toSizeT_natCast (by omega)
  refine ⟨p.bytes / 4 / 3 - p.bytes / 4 / 3 % 3, hvc, rfl, by omega, ?_, ?_, ?_, hts, ?_, ?_⟩
  · rw [realloc_bytes]
    omega
  · intro m hm hle
    rw [realloc_bytes] at hle
    omega
  · rw [hxy]
    omega
  · intro w hw
    have h := mem_fill_vertices_writes hw
    rw [hts] at h
    rw [realloc_bytes]
    omega
  · intro i hi
    have h := mem_fill_vertices_reads hi
    rw [hts] at h
    rw [hxy]
    omega

theorem streaming_vertex_count_fits_buffer_witness :
    ∃ vc : Nat,
      (gl41_streaming_realloc ⟨1, 2, 3⟩ {}).1.vertex_count = (vc : Int) ∧
      vc = (4194304 : Nat) / 4 / 3 - (4194304 : Nat) / 4 / 3 % 3 ∧
      vc % 3 = 0 ∧ 12 * vc ≤ (gl41_streaming_realloc ⟨1, 2, 3⟩ {}).1.bytes ∧
      (∀ m : Nat, m % 3 = 0 → 12 * m ≤ (gl41_streaming_realloc ⟨1, 2, 3⟩ {}).1.bytes → m ≤ vc) ∧
      (gl41_streaming_realloc ⟨1, 2, 3⟩ {}).1.base_xy_size = 2 * (vc / 3) ∧
      toSizeT (gl41_streaming_realloc ⟨1, 2, 3⟩ {}).1.vertex_count = vc ∧
      (∀ w ∈ SceneGL41StreamingSync.fill_vertices_writes
          (toSizeT (gl41_streaming_realloc ⟨1, 2, 3⟩ {}).1.vertex_count / 3),
        4 * (w + 1) ≤ (gl41_streaming_realloc ⟨1, 2, 3⟩ {}).1.bytes ∧ w < vc * 3) ∧
      (∀ i ∈ SceneGL41StreamingSync.fill_vertices_reads
          (toSizeT (gl41_streaming_realloc ⟨1, 2, 3⟩ {}).1.vertex_count / 3),
        i < (gl41_streaming_realloc ⟨1, 2, 3⟩ {}).1.base_xy_size) :=
  streaming_vertex_count_fits_buffer ⟨1, 2, 3⟩ {} (by decide) (by decide) (by decide)

/-! ## The ring of three streaming buffers -/

theorem streaming_load_buffer_index (e : SceneGL41StreamingSyncLoadEnv)
    (p : SceneGL41StreamingSyncPrivate) :
    resultSat (fun r => r.2.1.buffer_index = p.buffer_index) (SceneGL41StreamingSync.load e p) := by
  unfold SceneGL41StreamingSync.load
  dsimp only
  repeat' (apply resultSat_ite <;> intro _)
  all_goals apply resultSat_intro
  all_goals rfl

theorem streaming_setup_buffer_index (o : SceneGL41StreamingSyncOptions) (names : Arr3 Nat)
    (p : SceneGL41StreamingSyncPrivate) :
    resultSat (fun r => r.2.1.buffer_index = p.buffer_index)
      (SceneGL41StreamingSync.setup o names p) := by
  unfold SceneGL41StreamingSync.setup
  dsimp only
  repeat' (apply resultSat_ite <;> intro _)
  all_goals apply resultSat_intro
  all_goals rfl

theorem streaming_op_buffer_index (p : SceneGL41StreamingSyncPrivate) (op : StreamingOp) :
    (op.apply p).1.buffer_index =
      (p.buffer_index + StreamingOp.draws [op]) % UINT_RANGE ∨
    ((op.apply p).1.buffer_index = p.buffer_index ∧ StreamingOp.draws [op] = 0) := by
  cases op with
  | load e => exact Or.inr ⟨resultSat_elim (streaming_load_buffer_index e p), rfl⟩
  | setup o names =>
    exact Or.inr ⟨resultSat_elim (streaming_setup_buffer_index o names p), rfl⟩
  | draw e g => exact Or.inl rfl
  | unload => exact Or.inr ⟨rfl, rfl⟩

theorem streaming_draws_append (a b : List StreamingOp) :
    StreamingOp.draws (a ++ b) = StreamingOp.draws a + StreamingOp.draws b := by
  simp [StreamingOp.draws, List.countP_append]

theorem streaming_run_append (p : SceneGL41StreamingSyncPrivate) (a b : List StreamingOp) :
    StreamingOp.run p (a ++ b) = StreamingOp.run (StreamingOp.run p a) b := by
  simp [StreamingOp.run, List.foldl_append]

theorem streaming_run_buffer_index (ops : List StreamingOp) (p : SceneGL41StreamingSyncPrivate)
    (h : p.buffer_index + StreamingOp.draws ops < UINT_RANGE) :
    (StreamingOp.run p ops).buffer_index = p.buffer_index + StreamingOp.draws ops := by
  induction ops using List.reverseRecOn with
  | nil => rfl
  | append_singleton ops op ih =>
    rw [streaming_draws_append] at h ⊢
    rw [streaming_run_append]
    have ih1 := ih (by omega)
    have hstep : StreamingOp.run (StreamingOp.run p ops) [op] =
        (op.apply (StreamingOp.run p ops)).1 := rfl
    rw [hstep]
    rcases streaming_op_buffer_index (StreamingOp.run p ops) op with h1 | ⟨h1, h0⟩
    · rw [h1, ih1, Nat.mod_eq_of_lt (by omega)]
      omega
    · rw [h1, ih1, h0]
      rfl

theorem draw_wait_delete_syncs (e : SceneGL41StreamingSyncDrawEnv) (w : Bool) (f : Nat) :
    (SceneGL41StreamingSync.draw_wait e w f).filter GLCall.isDeleteSync =
      if f ≠ 0 then [GLCall.DeleteSync f] else [] := by
  unfold SceneGL41StreamingSync.draw_wait
  by_cases hf : f ≠ 0
  · simp only [if_pos hf]
    cases hw : SceneGL41StreamingSync.wait_failed e.wait_res <;>
      cases hw2 : SceneGL41StreamingSync.wait_failed e.wait_res2 <;>
      cases w <;> rfl
  · simp only [if_neg hf]
    rfl

theorem draw_wait_no_write (e : SceneGL41StreamingSyncDrawEnv) (w : Bool) (f : Nat) :
    (SceneGL41StreamingSync.draw_wait e w f).all
      (fun c => !c.writesBuffer && !c.isFenceSync && !c.isDrawArrays) = true := by
  unfold SceneGL41StreamingSync.draw_wait
  by_cases hf : f ≠ 0
  · simp only [if_pos hf]
    cases hw : SceneGL41StreamingSync.wait_failed e.wait_res <;>
      cases hw2 : SceneGL41StreamingSync.wait_failed e.wait_res2 <;>
      cases w <;> rfl
  · simp only [if_neg hf]
    rfl

theorem restore_cap_not_destroy (cap : Capability) (b : Bool) :
    (SceneGL41StreamingSync.restore_cap cap b).destroysResource = false := by
  cases b <;> rfl

theorem draw_upload_no_delete (e : SceneGL41StreamingSyncDrawEnv)
    (p : SceneGL41StreamingSyncPrivate) (vbo : Nat) :
    (SceneGL41StreamingSync.draw_upload e p vbo).all (fun c => !c.destroysResource) = true := by
  unfold SceneGL41StreamingSync.draw_upload
  cases e.mapped <;> cases e.unmap_ok <;> cases p.warned_unmap_failure <;>
    cases p.warned_map_failure <;> rfl

theorem draw_render_no_delete (e : SceneGL41StreamingSyncDrawEnv)
    (p : SceneGL41StreamingSyncPrivate) (g : GLState) :
    (SceneGL41StreamingSync.draw_render e p g).all (fun c => !c.destroysResource) = true := by
  unfold SceneGL41StreamingSync.draw_render
  have hu : (if p.u_mvp ≥ 0 then [GLCall.UniformMatrix4fv p.u_mvp] else []).all
      (fun c => !c.destroysResource) = true := by
    split <;> rfl
  simp only [List.all_append, List.all_cons, List.all_nil, restore_cap_not_destroy, hu]
  rfl

theorem isDeleteSync_destroys (c : GLCall) (h : c.isDeleteSync = true) :
    c.destroysResource = true := by
  cases c <;> first | rfl | exact absurd h Bool.false_ne_true

theorem filter_deleteSync_of_no_destroy (l : List GLCall)
    (h : l.all (fun c => !c.destroysResource) = true) : l.filter GLCall.isDeleteSync = [] := by
  rw [List.filter_eq_nil_iff]
  intro c hc hd
  have h1 := List.all_eq_true.mp h c hc
  rw [isDeleteSync_destroys c hd] at h1
  exact absurd h1 (by decide)

theorem draw_wait_no_draw_or_fence (e : SceneGL41StreamingSyncDrawEnv) (w : Bool) (f : Nat) :
    (SceneGL41StreamingSync.draw_wait e w f).filter
      (fun c => c.isDrawArrays || c.isFenceSync) = [] := by
  rw [List.filter_eq_nil_iff]
  intro c hc hd
  have h1 := List.all_eq_true.mp (draw_wait_no_write e w f) c hc
  revert h1 hd
  cases c.isDrawArrays <;> cases c.isFenceSync <;> cases c.writesBuffer <;> decide

theorem draw_upload_no_draw_or_fence (e : SceneGL41StreamingSyncDrawEnv)
    (p : SceneGL41StreamingSyncPrivate) (vbo : Nat) :
    (SceneGL41StreamingSync.draw_upload e p vbo).filter
      (fun c => c.isDrawArrays || c.isFenceSync) = [] := by
  unfold SceneGL41StreamingSync.draw_upload
  cases e.mapped <;> cases e.unmap_ok <;> cases p.warned_unmap_failure <;>
    cases p.warned_map_failure <;> rfl

theorem restore_cap_no_draw_or_fence (cap : Capability) (b : Bool) :
    ((SceneGL41StreamingSync.restore_cap cap b).isDrawArrays ||
      (SceneGL41StreamingSync.restore_cap cap b).isFenceSync) = false := by
  cases b <;> rfl

theorem draw_render_draw_then_fence (e : SceneGL41StreamingSyncDrawEnv)
    (p : SceneGL41StreamingSyncPrivate) (g : GLState) :
    (SceneGL41StreamingSync.draw_render e p g).filter
        (fun c => c.isDrawArrays || c.isFenceSync) =
      [GLCall.DrawArrays .TRIANGLES 0 p.vertex_count, GLCall.FenceSync e.fence] := by
  unfold SceneGL41StreamingSync.draw_render
  have hu : (if p.u_mvp ≥ 0 then [GLCall.UniformMatrix4fv p.u_mvp] else []).filter
      (fun c => c.isDrawArrays || c.isFenceSync) = [] := by
    split <;> rfl
  simp only [List.filter_append, hu, List.filter_cons, restore_cap_no_draw_or_fence]
  rfl

theorem GLState.writeTargets_append (a b : List GLCall) (g : GLState) :
    g.writeTargets (a ++ b) = g.writeTargets a ++ (g.run a).writeTargets b := by
  induction a generalizing g with
  | nil => rfl
  | cons c a ih =>
    show (if c.writesBuffer then [g.array_buffer] else []) ++
        (g.apply c).writeTargets (a ++ b) = _
    rw [ih]
    simp only [GLState.writeTargets, List.append_assoc, GLState.run_cons]

theorem writeTargets_of_no_write (l : List GLCall) (g : GLState)
    (h : l.all (fun c => !c.writesBuffer) = true) : g.writeTargets l = [] := by
  induction l generalizing g with
  | nil => rfl
  | cons c l ih =>
    simp only [List.all_cons, Bool.and_eq_true, Bool.not_eq_true'] at h
    simp only [GLState.writeTargets, h.1, Bool.false_eq_true, if_false, List.nil_append]
    exact ih _ h.2

theorem draw_wait_writeTargets (e : SceneGL41StreamingSyncDrawEnv) (w : Bool) (f : Nat)
    (g : GLState) : g.writeTargets (SceneGL41StreamingSync.draw_wait e w f) = [] := by
  apply writeTargets_of_no_write
  rw [List.all_eq_true]
  intro c hc
  have h1 := List.all_eq_true.mp (draw_wait_no_write e w f) c hc
  revert h1
  cases c.isDrawArrays <;> cases c.isFenceSync <;> cases c.writesBuffer <;> decide

theorem restore_cap_no_write (cap : Capability) (b : Bool) :
    (SceneGL41StreamingSync.restore_cap cap b).writesBuffer = false := by
  cases b <;> rfl

theorem draw_render_writeTargets (e : SceneGL41StreamingSyncDrawEnv)
    (p : SceneGL41StreamingSyncPrivate) (g h : GLState) :
    h.writeTargets (SceneGL41StreamingSync.draw_render e p g) = [] := by
  apply writeTargets_of_no_write
  unfold SceneGL41StreamingSync.draw_render
  have hu : (if p.u_mvp ≥ 0 then [GLCall.UniformMatrix4fv p.u_mvp] else []).all
      (fun c => !c.writesBuffer) = true := by
    split <;> rfl
  simp only [List.all_append, List.all_cons, List.all_nil, restore_cap_no_write, hu]
  rfl

theorem draw_upload_writeTargets (e : SceneGL41StreamingSyncDrawEnv)
    (p : SceneGL41StreamingSyncPrivate) (vbo : Nat) (g : GLState) :
    ∀ b ∈ g.writeTargets (SceneGL41StreamingSync.draw_upload e p vbo), b = vbo := by
  unfold SceneGL41StreamingSync.draw_upload
  cases e.mapped <;> cases e.unmap_ok <;> cases p.warned_unmap_failure <;>
    cases p.warned_map_failure <;>
    simp [GLState.writeTargets, GLState.apply, GLCall.writesBuffer]

theorem Arr3.get_set_self {α : Type} (a : Arr3 α) (i : Nat) (v : α) :
    (a.set i v).get i = v := by
  match i with
  | 0 => rfl
  | 1 => rfl
  | _ + 2 => rfl

theorem Arr3.get_set_other {α : Type} (a : Arr3 α) (i j : Nat) (v : α)
    (hi : i < 3) (hj : j < 3) (hne : j ≠ i) : (a.set i v).get j = a.get j := by
  interval_cases i <;> interval_cases j <;> first | rfl | exact absurd rfl hne

/-- Claim C14: starting from a freshly constructed streaming scene, after any
sequence of operations containing `n < 2^32` draws the next `draw()` works on
ring slot `n mod 3`: the ring position held is `n`; the only fence it deletes
is the one found in that slot (once, when there is one, none otherwise); all
deletions come in a prefix of the call list that contains no buffer write, no
draw and no new fence; the new fence is created after the draw call and is
stored in that same slot; the fences of the other two slots and all three
buffer names are unchanged; and every buffer write goes to the buffer of that
slot. -/
theorem streaming_draw_uses_ring_slot (ops : List StreamingOp)
    (e : SceneGL41StreamingSyncDrawEnv) (g : GLState)
    (hn : StreamingOp.draws ops < UINT_RANGE) :
    (StreamingOp.run {} ops).buffer_index = StreamingOp.draws ops ∧
    (SceneGL41StreamingSync.draw e (StreamingOp.run {} ops) g).1.buffer_index =
      (StreamingOp.draws ops + 1) % UINT_RANGE ∧
    (SceneGL41StreamingSync.draw e (StreamingOp.run {} ops) g).2.filter GLCall.isDeleteSync =
      (if (StreamingOp.run {} ops).fence.get (StreamingOp.draws ops % 3) ≠ 0
       then [GLCall.DeleteSync ((StreamingOp.run {} ops).fence.get (StreamingOp.draws ops % 3))]
       else []) ∧
    (∃ pre post : List GLCall,
      (SceneGL41StreamingSync.draw e (StreamingOp.run {} ops) g).2 = pre ++ post ∧
      pre.all (fun c => !c.writesBuffer && !c.isFenceSync && !c.isDrawArrays) = true ∧
      post.all (fun c => !c.destroysResource) = true) ∧
    (SceneGL41StreamingSync.draw e (StreamingOp.run {} ops) g).2.filter
        (fun c => c.isDrawArrays || c.isFenceSync) =
      [GLCall.DrawArrays .TRIANGLES 0 (StreamingOp.run {} ops).vertex_count,
       GLCall.FenceSync e.fence] ∧
    (SceneGL41StreamingSync.draw e (StreamingOp.run {} ops) g).1.fence.get
      (StreamingOp.draws ops % 3) = e.fence ∧
    (∀ j : Nat, j < 3 → j ≠ StreamingOp.draws ops % 3 →
      (SceneGL41StreamingSync.draw e (StreamingOp.run {} ops) g).1.fence.get j =
        (StreamingOp.run {} ops).fence.get j) ∧
    (SceneGL41StreamingSync.draw e (StreamingOp.run {} ops) g).1.vbo =
      (StreamingOp.run {} ops).vbo ∧
    (∀ b ∈ g.writeTargets (SceneGL41StreamingSync.draw e (StreamingOp.run {} ops) g).2,
      b = (StreamingOp.run {} ops).vbo.get (StreamingOp.draws ops % 3)) := by
  have hidx : (StreamingOp.run {} ops).buffer_index = StreamingOp.draws ops := by
    have h := streaming_run_buffer_index ops {} (by simpa using hn)
    simpa using h
  generalize StreamingOp.run {} ops = p at hidx ⊢
  generalize StreamingOp.draws ops = n at hidx ⊢
  subst hidx
  have hlt : p.buffer_index % 3 < 3 := Nat.mod_lt _ (by decide)
  refine ⟨rfl, rfl, ?_, ?_, ?_, ?_, ?_, rfl, ?_⟩
  · simp only [SceneGL41StreamingSync.draw, List.filter_append, draw_wait_delete_syncs]
    rw [filter_deleteSync_of_no_destroy _ (draw_upload_no_delete e p _),
      filter_deleteSync_of_no_destroy _ (draw_render_no_delete e p _)]
    simp
  · refine ⟨SceneGL41StreamingSync.draw_wait e p.warned_sync_timeout
        (p.fence.get (p.buffer_index % 3)),
      SceneGL41StreamingSync.draw_upload e p (p.vbo.get (p.buffer_index % 3)) ++
        SceneGL41StreamingSync.draw_render e p (g.run
          (SceneGL41StreamingSync.draw_wait e p.warned_sync_timeout
            (p.fence.get (p.buffer_index % 3)) ++
           SceneGL41StreamingSync.draw_upload e p (p.vbo.get (p.buffer_index % 3)))), ?_,
      draw_wait_no_write e _ _, ?_⟩
    · simp only [SceneGL41StreamingSync.draw, List.append_assoc]
    · rw [List.all_append, draw_upload_no_delete, draw_render_no_delete]
      rfl
  · simp only [SceneGL41StreamingSync.draw, List.filter_append, draw_wait_no_draw_or_fence,
      draw_upload_no_draw_or_fence, draw_render_draw_then_fence, List.nil_append]
  · exact Arr3.get_set_self _ _ _
  · intro j hj hne
    exact Arr3.get_set_other _ _ _ _ hlt hj hne
  · intro b hb
    simp only [SceneGL41StreamingSync.draw, GLState.writeTargets_append, draw_wait_writeTargets,
      draw_render_writeTargets, List.nil_append, List.append_nil] at hb
    exact draw_upload_writeTargets e p _ _ b hb

theorem streaming_draw_uses_ring_slot_witness :
    StreamingOp.draws exampleStreamingOps < UINT_RANGE ∧
    (StreamingOp.run {} exampleStreamingOps).buffer_index = 4 ∧
    (SceneGL41StreamingSync.draw exampleStreamingSignaled
      (StreamingOp.run {} exampleStreamingOps) exampleGLState).2.filter GLCall.isDeleteSync =
      [GLCall.DeleteSync 21] ∧
    (SceneGL41StreamingSync.draw exampleStreamingSignaled
      (StreamingOp.run {} exampleStreamingOps) exampleGLState).1.fence = ⟨21, 22, 22⟩ :=
  ⟨by decide,
   (streaming_draw_uses_ring_slot exampleStreamingOps exampleStreamingSignaled exampleGLState
      (by decide)).1,
   (streaming_draw_uses_ring_slot exampleStreamingOps exampleStreamingSignaled exampleGLState
      (by decide)).2.2.1,
   by decide⟩

/-! ## Escalation of the fence wait -/

theorem wait_failed_iff (r : Nat) :
    SceneGL41StreamingSync.wait_failed r = true ↔
      (r = GL_TIMEOUT_EXPIRED ∨ r = GL_WAIT_FAILED) := by
  simp [SceneGL41StreamingSync.wait_failed]

theorem draw_wait_waits (e : SceneGL41StreamingSyncDrawEnv) (w : Bool) (f : Nat) :
    (SceneGL41StreamingSync.draw_wait e w f).filter GLCall.isClientWaitSync =
      (if f = 0 then []
       else if SceneGL41StreamingSync.wait_failed e.wait_res = true then
         [GLCall.ClientWaitSync f GL_SYNC_FLUSH_COMMANDS_BIT 1000000 e.wait_res,
          GLCall.ClientWaitSync f GL_SYNC_FLUSH_COMMANDS_BIT 5000000 e.wait_res2]
       else [GLCall.ClientWaitSync f GL_SYNC_FLUSH_COMMANDS_BIT 1000000 e.wait_res]) := by
  unfold SceneGL41StreamingSync.draw_wait
  by_cases hf : f = 0
  · simp only [hf, ne_eq, not_true_eq_false, if_false, if_true]
    rfl
  · simp only [ne_eq, hf, not_false_eq_true, if_true, if_false]
    cases hw : SceneGL41StreamingSync.wait_failed e.wait_res <;>
      cases hw2 : SceneGL41StreamingSync.wait_failed e.wait_res2 <;>
      cases w <;> rfl

theorem draw_wait_finishes (e : SceneGL41StreamingSyncDrawEnv) (w : Bool) (f : Nat) :
    (SceneGL41StreamingSync.draw_wait e w f).countP GLCall.isFinish =
      (if f ≠ 0 ∧ SceneGL41StreamingSync.wait_failed e.wait_res = true ∧
          SceneGL41StreamingSync.wait_failed e.wait_res2 = true then 1 else 0) := by
  unfold SceneGL41StreamingSync.draw_wait
  by_cases hf : f = 0
  · simp only [hf, ne_eq, not_true_eq_false, if_false, false_and]
    rfl
  · simp only [ne_eq, hf, not_false_eq_true, if_true, true_and]
    cases hw : SceneGL41StreamingSync.wait_failed e.wait_res <;>
      cases hw2 : SceneGL41StreamingSync.wait_failed e.wait_res2 <;>
      cases w <;> rfl

theorem draw_upload_no_wait (e : SceneGL41StreamingSyncDrawEnv)
    (p : SceneGL41StreamingSyncPrivate) (vbo : Nat) :
    (SceneGL41StreamingSync.draw_upload e p vbo).all
      (fun c => !c.isClientWaitSync && !c.isFinish) = true := by
  unfold SceneGL41StreamingSync.draw_upload
  cases e.mapped <;> cases e.unmap_ok <;> cases p.warned_unmap_failure <;>
    cases p.warned_map_failure <;> rfl

theorem restore_cap_no_wait (cap : Capability) (b : Bool) :
    (!(SceneGL41StreamingSync.restore_cap cap b).isClientWaitSync &&
      !(SceneGL41StreamingSync.restore_cap cap b).isFinish) = true := by
  cases b <;> rfl

theorem draw_render_no_wait (e : SceneGL41StreamingSyncDrawEnv)
    (p : SceneGL41StreamingSyncPrivate) (g : GLState) :
    (SceneGL41StreamingSync.draw_render e p g).all
      (fun c => !c.isClientWaitSync && !c.isFinish) = true := by
  unfold SceneGL41StreamingSync.draw_render
  have hu : (if p.u_mvp ≥ 0 then [GLCall.UniformMatrix4fv p.u_mvp] else []).all
      (fun c => !c.isClientWaitSync && !c.isFinish) = true := by
    split <;> rfl
  simp only [List.all_append, List.all_cons, List.all_nil, restore_cap_no_wait, hu]
  rfl

theorem filter_wait_of_none (l : List GLCall)
    (h : l.all (fun c => !c.isClientWaitSync && !c.isFinish) = true) :
    l.filter GLCall.isClientWaitSync = [] ∧ l.countP GLCall.isFinish = 0 := by
  constructor
  · rw [List.filter_eq_nil_iff]
    intro c hc hd
    have h1 := List.all_eq_true.mp h c hc
    rw [hd] at h1
    exact absurd h1 (by simp)
  · rw [List.countP_eq_zero]
    intro c hc hd
    have h1 := List.all_eq_true.mp h c hc
    rw [hd] at h1
    revert h1
    cases c.isClientWaitSync <;> decide

/-- Claim C15: the fence wait of the streaming `draw()` escalates as
specified.  With no fence in the slot no `glClientWaitSync` is issued; with a
pending fence the first wait uses the timeout 1,000,000 ns; the second wait,
with 5,000,000 ns, is issued once and exactly when the first answered
`GL_TIMEOUT_EXPIRED` or `GL_WAIT_FAILED`; `glFinish` is called (once) exactly
when there was a fence and both waits answered timeout or failure; at most two
waits are issued per `draw()`. -/
theorem streaming_fence_wait_escalates :
    ∀ (e : SceneGL41StreamingSyncDrawEnv) (p : SceneGL41StreamingSyncPrivate) (g : GLState),
      (SceneGL41StreamingSync.draw e p g).2.filter GLCall.isClientWaitSync =
        (if p.fence.get (p.buffer_index % 3) = 0 then []
         else if e.wait_res = GL_TIMEOUT_EXPIRED ∨ e.wait_res = GL_WAIT_FAILED then
           [GLCall.ClientWaitSync (p.fence.get (p.buffer_index % 3)) GL_SYNC_FLUSH_COMMANDS_BIT
              1000000 e.wait_res,
            GLCall.ClientWaitSync (p.fence.get (p.buffer_index % 3)) GL_SYNC_FLUSH_COMMANDS_BIT
              5000000 e.wait_res2]
         else
           [GLCall.ClientWaitSync (p.fence.get (p.buffer_index % 3)) GL_SYNC_FLUSH_COMMANDS_BIT
              1000000 e.wait_res]) ∧
      (SceneGL41StreamingSync.draw e p g).2.countP GLCall.isFinish =
        (if p.fence.get (p.buffer_index % 3) ≠ 0 ∧
            (e.wait_res = GL_TIMEOUT_EXPIRED ∨ e.wait_res = GL_WAIT_FAILED) ∧
            (e.wait_res2 = GL_TIMEOUT_EXPIRED ∨ e.wait_res2 = GL_WAIT_FAILED) then 1 else 0) ∧
      ((SceneGL41StreamingSync.draw e p g).2.filter GLCall.isClientWaitSync).length ≤ 2 := by
  intro e p g
  have h1 : (SceneGL41StreamingSync.draw e p g).2.filter GLCall.isClientWaitSync =
      (SceneGL41StreamingSync.draw_wait e p.warned_sync_timeout
        (p.fence.get (p.buffer_index % 3))).filter GLCall.isClientWaitSync := by
    simp only [SceneGL41StreamingSync.draw, List.filter_append,
      (filter_wait_of_none _ (draw_upload_no_wait e p _)).1,
      (filter_wait_of_none _ (draw_render_no_wait e p _)).1, List.append_nil]
  have h2 : (SceneGL41StreamingSync.draw e p g).2.countP GLCall.isFinish =
      (SceneGL41StreamingSync.draw_wait e p.warned_sync_timeout
        (p.fence.get (p.buffer_index % 3))).countP GLCall.isFinish := by
    simp only [SceneGL41StreamingSync.draw, List.countP_append,
      (filter_wait_of_none _ (draw_upload_no_wait e p _)).2,
      (filter_wait_of_none _ (draw_render_no_wait e p _)).2, Nat.add_zero]
  rw [h1, h2, draw_wait_waits, draw_wait_finishes]
  simp only [wait_failed_iff]
  refine ⟨trivial, trivial, ?_⟩
  split
  · exact Nat.zero_le _
  · split
    · exact Nat.le_refl _
    · exact Nat.le_succ _

/-! ## Capability probing -/

/-- The eight entry points every scene needs: vertex arrays, instancing and
uniform buffers. -/
theorem procs_load_result (dl : String → DlsymResult) (s : Bool) :
    ((GL41Procs.load dl s).1 = true ↔
      ((GL41Procs.resolved dl).GenVertexArrays = true ∧
       (GL41Procs.resolved dl).BindVertexArray = true ∧
       (GL41Procs.resolved dl).DeleteVertexArrays = true ∧
       (GL41Procs.resolved dl).DrawArraysInstanced = true ∧
       (GL41Procs.resolved dl).VertexAttribDivisor = true ∧
       (GL41Procs.resolved dl).BindBufferBase = true ∧
       (GL41Procs.resolved dl).GetUniformBlockIndex = true ∧
       (GL41Procs.resolved dl).UniformBlockBinding = true)) ∧
    (GL41Procs.load dl s).2.1 = GL41Procs.resolved dl := by
  unfold GL41Procs.load
  dsimp only
  generalize GL41Procs.resolved dl = r
  split
  · rename_i h
    refine ⟨?_, rfl⟩
    simp only [Bool.false_eq_true, false_iff]
    revert h
    cases r.GenVertexArrays <;> cases r.BindVertexArray <;> cases r.DeleteVertexArrays <;>
      cases r.DrawArraysInstanced <;> cases r.VertexAttribDivisor <;>
      cases r.BindBufferBase <;> cases r.GetUniformBlockIndex <;>
      cases r.UniformBlockBinding <;> decide
  · rename_i h
    refine ⟨?_, rfl⟩
    simp only [true_iff]
    revert h
    cases r.GenVertexArrays <;> cases r.BindVertexArray <;> cases r.DeleteVertexArrays <;>
      cases r.DrawArraysInstanced <;> cases r.VertexAttribDivisor <;>
      cases r.BindBufferBase <;> cases r.GetUniformBlockIndex <;>
      cases r.UniformBlockBinding <;> decide

theorem supported_profile_guard_none (scene : String) (e : SupportedEnv) (s : Bool) :
    (supported_profile_guard scene e s = none ↔
      (e.legacy_profile = false ∧ GLExtensions.is_core_profile e.config e.core = true)) ∧
    (supported_profile_guard scene e s).isSome =
      (supported_profile_guard scene e false).isSome := by
  unfold supported_profile_guard
  cases e.legacy_profile <;> cases GLExtensions.is_core_profile e.config e.core <;> simp

theorem procs_load_core (dl : String → DlsymResult) (s : Bool) :
    (GL41Procs.load dl s).1 = true ↔ (GL41Procs.resolved dl).coreResolved := by
  rw [(procs_load_result dl s).1]
  unfold GL41Procs.coreResolved
  tauto

theorem instancing_supported_iff (e : SupportedEnv) (s : Bool) (p : SceneGL41InstancingPrivate) :
    (SceneGL41Instancing.supported e s p).1 = true ↔
      (e.legacy_profile = false ∧ GLExtensions.is_core_profile e.config e.core = true ∧
       (GL41Procs.resolved e.dl).coreResolved) := by
  have hg := (supported_profile_guard_none "gl41-instancing" e s).1
  have hl := procs_load_core e.dl s
  unfold SceneGL41Instancing.supported
  cases hgv : supported_profile_guard "gl41-instancing" e s with
  | some t =>
    rw [hgv] at hg
    simp only [reduceCtorEq, false_iff] at hg
    simp only [Bool.false_eq_true, false_iff]
    tauto
  | none =>
    rw [hgv] at hg
    simp only [true_iff] at hg
    dsimp only
    rw [hl]
    tauto

theorem instancing_supported_record (e : SupportedEnv) (s : Bool) (p : SceneGL41InstancingPrivate) :
    (SceneGL41Instancing.supported e s p).2.1 = p := by
  unfold SceneGL41Instancing.supported
  split <;> rfl

theorem pipeline_supported_iff (e : SupportedEnv) (s : Bool) (p : SceneGL41PipelinePrivate) :
    (SceneGL41Pipeline.supported e s p).1 = true ↔
      (e.legacy_profile = false ∧ GLExtensions.is_core_profile e.config e.core = true ∧
       (GL41Procs.resolved e.dl).coreResolved ∧
       (GL41Procs.resolved e.dl).GenProgramPipelines = true ∧
       (GL41Procs.resolved e.dl).BindProgramPipeline = true ∧
       (GL41Procs.resolved e.dl).UseProgramStages = true ∧
       (GL41Procs.resolved e.dl).DeleteProgramPipelines = true ∧
       (GL41Procs.resolved e.dl).ProgramParameteri = true) := by
  have hg := (supported_profile_guard_none "gl41-pipeline" e s).1
  have hl := procs_load_core e.dl s
  have hr := (procs_load_result e.dl s).2
  unfold SceneGL41Pipeline.supported
  cases hgv : supported_profile_guard "gl41-pipeline" e s with
  | some t =>
    rw [hgv] at hg
    simp only [reduceCtorEq, false_iff] at hg
    simp only [Bool.false_eq_true, false_iff]
    tauto
  | none =>
    rw [hgv] at hg
    simp only [true_iff] at hg
    dsimp only
    try rw [hr]
    cases hb : (GL41Procs.load e.dl s).1
    · rw [hb] at hl
      simp only [Bool.not_false, if_true, Bool.false_eq_true, false_iff]
      tauto
    · rw [hb] at hl
      simp only [Bool.not_true, Bool.false_eq_true, if_false]
      split
      · rename_i h
        simp only [Bool.false_eq_true, false_iff]
        intro hc
        simp [hc.2.2.2] at h
      · rename_i h
        simp only [true_iff]
        simp at h
        tauto

theorem pipeline_supported_record (e : SupportedEnv) (s : Bool) (p : SceneGL41PipelinePrivate) :
    (SceneGL41Pipeline.supported e s p).2.1 = p := by
  unfold SceneGL41Pipeline.supported
  split
  · rfl
  · dsimp only
    split
    · rfl
    · split <;> rfl

theorem mrt_supported_iff (e : SupportedEnv) (s : Bool) (p : SceneGL41MRTPrivate) :
    (SceneGL41MRT.supported e s p).1 = true ↔
      (e.legacy_profile = false ∧ GLExtensions.is_core_profile e.config e.core = true ∧
       (GL41Procs.resolved e.dl).coreResolved ∧
       (GL41Procs.resolved e.dl).Enablei = true ∧
       (GL41Procs.resolved e.dl).Disablei = true ∧
       (GL41Procs.resolved e.dl).BlendFunci = true ∧
       (GL41Procs.resolved e.dl).BlendEquationi = true ∧
       (GL41Procs.resolved e.dl).BlitFramebuffer = true) := by
  have hg := (supported_profile_guard_none "gl41-mrt" e s).1
  have hl := procs_load_core e.dl s
  have hr := (procs_load_result e.dl s).2
  unfold SceneGL41MRT.supported
  cases hgv : supported_profile_guard "gl41-mrt" e s with
  | some t =>
    rw [hgv] at hg
    simp only [reduceCtorEq, false_iff] at hg
    simp only [Bool.false_eq_true, false_iff]
    tauto
  | none =>
    rw [hgv] at hg
    simp only [true_iff] at hg
    dsimp only
    try rw [hr]
    cases hb : (GL41Procs.load e.dl s).1
    · rw [hb] at hl
      simp only [Bool.not_false, if_true, Bool.false_eq_true, false_iff]
      tauto
    · rw [hb] at hl
      simp only [Bool.not_true, Bool.false_eq_true, if_false]
      split
      · rename_i h
        simp only [Bool.false_eq_true, false_iff]
        intro hc
        simp [hc.2.2.2] at h
      · rename_i h
        simp only [true_iff]
        simp at h
        tauto

theorem mrt_supported_record (e : SupportedEnv) (s : Bool) (p : SceneGL41MRTPrivate) :
    (SceneGL41MRT.supported e s p).2.1 = p := by
  unfold SceneGL41MRT.supported
  split
  · rfl
  · dsimp only
    split
    · rfl
    · split <;> rfl

theorem texarray_supported_iff (e : SupportedEnv) (s : Bool) (p : SceneGL41TexArrayPrivate) :
    (SceneGL41TexArray.supported e s p).1 = true ↔
      (e.legacy_profile = false ∧ GLExtensions.is_core_profile e.config e.core = true ∧
       (GL41Procs.resolved e.dl).coreResolved ∧
       e.generate_mipmap = true) := by
  have hg := (supported_profile_guard_none "gl41-texarray" e s).1
  have hl := procs_load_core e.dl s
  have hr := (procs_load_result e.dl s).2
  unfold SceneGL41TexArray.supported
  cases hgv : supported_profile_guard "gl41-texarray" e s with
  | some t =>
    rw [hgv] at hg
    simp only [reduceCtorEq, false_iff] at hg
    simp only [Bool.false_eq_true, false_iff]
    tauto
  | none =>
    rw [hgv] at hg
    simp only [true_iff] at hg
    dsimp only
    try rw [hr]
    cases hb : (GL41Procs.load e.dl s).1
    · rw [hb] at hl
      simp only [Bool.not_false, if_true, Bool.false_eq_true, false_iff]
      tauto
    · rw [hb] at hl
      simp only [Bool.not_true, Bool.false_eq_true, if_false]
      split
      · rename_i h
        simp only [Bool.false_eq_true, false_iff]
        intro hc
        simp [hc.2.2.2] at h
      · rename_i h
        simp only [true_iff]
        simp at h
        tauto

theorem texarray_supported_record (e : SupportedEnv) (s : Bool) (p : SceneGL41TexArrayPrivate) :
    (SceneGL41TexArray.supported e s p).2.1 = p := by
  unfold SceneGL41TexArray.supported
  split
  · rfl
  · dsimp only
    split
    · rfl
    · split <;> rfl

theorem streaming_supported_iff (e : SupportedEnv) (s : Bool) (p : SceneGL41StreamingSyncPrivate) :
    (SceneGL41StreamingSync.supported e s p).1 = true ↔
      (e.legacy_profile = false ∧ GLExtensions.is_core_profile e.config e.core = true ∧
       (GL41Procs.resolved e.dl).coreResolved ∧
       (GL41Procs.resolved e.dl).MapBufferRange = true ∧
       (GL41Procs.resolved e.dl).UnmapBuffer = true ∧
       (GL41Procs.resolved e.dl).FenceSync = true ∧
       (GL41Procs.resolved e.dl).ClientWaitSync = true ∧
       (GL41Procs.resolved e.dl).DeleteSync = true) := by
  have hg := (supported_profile_guard_none "gl41-streaming-sync" e s).1
  have hl := procs_load_core e.dl s
  have hr := (procs_load_result e.dl s).2
  unfold SceneGL41StreamingSync.supported
  cases hgv : supported_profile_guard "gl41-streaming-sync" e s with
  | some t =>
    rw [hgv] at hg
    simp only [reduceCtorEq, false_iff] at hg
    simp only [Bool.false_eq_true, false_iff]
    tauto
  | none =>
    rw [hgv] at hg
    simp only [true_iff] at hg
    dsimp only
    try rw [hr]
    cases hb : (GL41Procs.load e.dl s).1
    · rw [hb] at hl
      simp only [Bool.not_false, if_true, Bool.false_eq_true, false_iff]
      tauto
    · rw [hb] at hl
      simp only [Bool.not_true, Bool.false_eq_true, if_false]
      split
      · rename_i h
        simp only [Bool.false_eq_true, false_iff]
        intro hc
        simp [hc.2.2.2] at h
      · rename_i h
        simp only [true_iff]
        simp at h
        tauto

theorem streaming_supported_record (e : SupportedEnv) (s : Bool) (p : SceneGL41StreamingSyncPrivate) :
    (SceneGL41StreamingSync.supported e s p).2.1 = p := by
  unfold SceneGL41StreamingSync.supported
  split
  · rfl
  · dsimp only
    split
    · rfl
    · split <;> rfl

theorem geometry_supported_iff (e : SupportedEnv) (s : Bool) (p : SceneGL41GeometryPrivate) :
    (SceneGL41Geometry.supported e s p).1 = true ↔
      (e.legacy_profile = false ∧ GLExtensions.is_core_profile e.config e.core = true ∧
       (GL41Procs.resolved e.dl).coreResolved) := by
  have hg := (supported_profile_guard_none "gl41-geometry" e s).1
  have hl := procs_load_core e.dl s
  unfold SceneGL41Geometry.supported
  cases hgv : supported_profile_guard "gl41-geometry" e s with
  | some t =>
    rw [hgv] at hg
    simp only [reduceCtorEq, false_iff] at hg
    simp only [Bool.false_eq_true, false_iff]
    tauto
  | none =>
    rw [hgv] at hg
    simp only [true_iff] at hg
    dsimp only
    rw [hl]
    tauto

theorem geometry_supported_record (e : SupportedEnv) (s : Bool) (p : SceneGL41GeometryPrivate) :
    (SceneGL41Geometry.supported e s p).2.1 = p := by
  unfold SceneGL41Geometry.supported
  split <;> rfl

/-- Claim C16: for each of the six scenes `supported(show_errors)` returns
true exactly when the configured macOS GL profile is not legacy,
`is_core_profile()` is true, the eight core entry points (three for vertex
arrays, two for instancing, three for uniform buffers) are resolved, and the
extra entry points of the scene are resolved (Pipeline: the five program
pipeline entry points; MRT: the four indexed blend entry points and
`glBlitFramebuffer`; TexArray: `glGenerateMipmap`; StreamingSync: the two
mapping and three sync entry points; Instancing and Geometry: none); the
result is the same with and without `show_errors`, and the record of the scene
is returned unchanged. -/
theorem supported_aggregates_probes :
    (∀ (e : SupportedEnv) (s : Bool) (p : SceneGL41InstancingPrivate),
      ((SceneGL41Instancing.supported e s p).1 = true ↔
        (e.legacy_profile = false ∧ GLExtensions.is_core_profile e.config e.core = true ∧
         (GL41Procs.resolved e.dl).coreResolved)) ∧
      (SceneGL41Instancing.supported e true p).1 = (SceneGL41Instancing.supported e false p).1 ∧
      (SceneGL41Instancing.supported e s p).2.1 = p) ∧
    (∀ (e : SupportedEnv) (s : Bool) (p : SceneGL41PipelinePrivate),
      ((SceneGL41Pipeline.supported e s p).1 = true ↔
        (e.legacy_profile = false ∧ GLExtensions.is_core_profile e.config e.core = true ∧
         (GL41Procs.resolved e.dl).coreResolved ∧
         (GL41Procs.resolved e.dl).GenProgramPipelines = true ∧
         (GL41Procs.resolved e.dl).BindProgramPipeline = true ∧
         (GL41Procs.resolved e.dl).UseProgramStages = true ∧
         (GL41Procs.resolved e.dl).DeleteProgramPipelines = true ∧
         (GL41Procs.resolved e.dl).ProgramParameteri = true)) ∧
      (SceneGL41Pipeline.supported e true p).1 = (SceneGL41Pipeline.supported e false p).1 ∧
      (SceneGL41Pipeline.supported e s p).2.1 = p) ∧
    (∀ (e : SupportedEnv) (s : Bool) (p : SceneGL41MRTPrivate),
      ((SceneGL41MRT.supported e s p).1 = true ↔
        (e.legacy_profile = false ∧ GLExtensions.is_core_profile e.config e.core = true ∧
         (GL41Procs.resolved e.dl).coreResolved ∧
         (GL41Procs.resolved e.dl).Enablei = true ∧
         (GL41Procs.resolved e.dl).Disablei = true ∧
         (GL41Procs.resolved e.dl).BlendFunci = true ∧
         (GL41Procs.resolved e.dl).BlendEquationi = true ∧
         (GL41Procs.resolved e.dl).BlitFramebuffer = true)) ∧
      (SceneGL41MRT.supported e true p).1 = (SceneGL41MRT.supported e false p).1 ∧
      (SceneGL41MRT.supported e s p).2.1 = p) ∧
    (∀ (e : SupportedEnv) (s : Bool) (p : SceneGL41TexArrayPrivate),
      ((SceneGL41TexArray.supported e s p).1 = true ↔
        (e.legacy_profile = false ∧ GLExtensions.is_core_profile e.config e.core = true ∧
         (GL41Procs.resolved e.dl).coreResolved ∧
         e.generate_mipmap = true)) ∧
      (SceneGL41TexArray.supported e true p).1 = (SceneGL41TexArray.supported e false p).1 ∧
      (SceneGL41TexArray.supported e s p).2.1 = p) ∧
    (∀ (e : SupportedEnv) (s : Bool) (p : SceneGL41StreamingSyncPrivate),
      ((SceneGL41StreamingSync.supported e s p).1 = true ↔
        (e.legacy_profile = false ∧ GLExtensions.is_core_profile e.config e.core = true ∧
         (GL41Procs.resolved e.dl).coreResolved ∧
         (GL41Procs.resolved e.dl).MapBufferRange = true ∧
         (GL41Procs.resolved e.dl).UnmapBuffer = true ∧
         (GL41Procs.resolved e.dl).FenceSync = true ∧
         (GL41Procs.resolved e.dl).ClientWaitSync = true ∧
         (GL41Procs.resolved e.dl).DeleteSync = true)) ∧
      (SceneGL41StreamingSync.supported e true p).1 = (SceneGL41StreamingSync.supported e false p).1 ∧
      (SceneGL41StreamingSync.supported e s p).2.1 = p) ∧
    (∀ (e : SupportedEnv) (s : Bool) (p : SceneGL41GeometryPrivate),
      ((SceneGL41Geometry.supported e s p).1 = true ↔
        (e.legacy_profile = false ∧ GLExtensions.is_core_profile e.config e.core = true ∧
         (GL41Procs.resolved e.dl).coreResolved)) ∧
      (SceneGL41Geometry.supported e true p).1 = (SceneGL41Geometry.supported e false p).1 ∧
      (SceneGL41Geometry.supported e s p).2.1 = p) :=
  ⟨fun e s p => ⟨instancing_supported_iff e s p,
      Bool.eq_iff_iff.mpr ((instancing_supported_iff e true p).trans (instancing_supported_iff e false p).symm),
      instancing_supported_record e s p⟩,
    fun e s p => ⟨pipeline_supported_iff e s p,
      Bool.eq_iff_iff.mpr ((pipeline_supported_iff e true p).trans (pipeline_supported_iff e false p).symm),
      pipeline_supported_record e s p⟩,
    fun e s p => ⟨mrt_supported_iff e s p,
      Bool.eq_iff_iff.mpr ((mrt_supported_iff e true p).trans (mrt_supported_iff e false p).symm),
      mrt_supported_record e s p⟩,
    fun e s p => ⟨texarray_supported_iff e s p,
      Bool.eq_iff_iff.mpr ((texarray_supported_iff e true p).trans (texarray_supported_iff e false p).symm),
      texarray_supported_record e s p⟩,
    fun e s p => ⟨streaming_supported_iff e s p,
      Bool.eq_iff_iff.mpr ((streaming_supported_iff e true p).trans (streaming_supported_iff e false p).symm),
      streaming_supported_record e s p⟩,
    fun e s p => ⟨geometry_supported_iff e s p,
      Bool.eq_iff_iff.mpr ((geometry_supported_iff e true p).trans (geometry_supported_iff e false p).symm),
      geometry_supported_record e s p⟩⟩

/-! ## The core profile probe -/

/-- Claim C17: on the desktop GL build `GLExtensions::is_core_profile` follows
the three tiers.  When the profile-mask query succeeds (no GL error) with a
non-zero mask, the result is whether the core-profile bit is set in the mask;
otherwise, when `glGetString(GL_EXTENSIONS)` returns null, the result is true;
otherwise the result is false, whatever the version string is, so also when it
contains "OpenGL ES". -/
theorem is_core_profile_three_tier (e : CoreProfileEnv) :
    (e.error = GL_NO_ERROR → e.mask ≠ 0 →
      GLExtensions.is_core_profile BuildConfig.desktop e =
        decide (e.mask &&& GL_CONTEXT_CORE_PROFILE_BIT ≠ 0)) ∧
    (¬(e.error = GL_NO_ERROR ∧ e.mask ≠ 0) → e.extensions = none →
      GLExtensions.is_core_profile BuildConfig.desktop e = true) ∧
    (¬(e.error = GL_NO_ERROR ∧ e.mask ≠ 0) → e.extensions ≠ none →
      GLExtensions.is_core_profile BuildConfig.desktop e = false) ∧
    (¬(e.error = GL_NO_ERROR ∧ e.mask ≠ 0) → e.extensions ≠ none →
      ∀ ver, e.version = some ver → (stringFind ver "OpenGL ES" 0).isSome = true →
        GLExtensions.is_core_profile BuildConfig.desktop e = false) := by
  have h3 : ¬(e.error = GL_NO_ERROR ∧ e.mask ≠ 0) → e.extensions ≠ none →
      GLExtensions.is_core_profile BuildConfig.desktop e = false := by
    intro hm hx
    unfold GLExtensions.is_core_profile BuildConfig.desktop
    simp only [Bool.not_true, Bool.false_eq_true, if_false, true_and]
    rw [if_neg hm]
    cases hxe : e.extensions with
    | none => exact absurd hxe hx
    | some x =>
      cases hv : e.version with
      | none => rfl
      | some ver =>
        dsimp only
        split <;> rfl
  refine ⟨?_, ?_, h3, fun hm hx _ _ _ => h3 hm hx⟩
  · intro he hm
    unfold GLExtensions.is_core_profile BuildConfig.desktop
    simp only [Bool.not_true, Bool.false_eq_true, if_false, true_and, if_true]
    rw [if_pos ⟨he, hm⟩]
  · intro hm hx
    unfold GLExtensions.is_core_profile BuildConfig.desktop
    simp only [Bool.not_true, Bool.false_eq_true, if_false, true_and]
    rw [if_neg hm, hx]

theorem is_core_profile_three_tier_witness :
    GLExtensions.is_core_profile BuildConfig.desktop
      { mask := 1, error := 0, extensions := some "GL_ARB_depth_texture", version := none } =
        true ∧
    GLExtensions.is_core_profile BuildConfig.desktop
      { mask := 2, error := 0, extensions := none, version := none } = false ∧
    GLExtensions.is_core_profile BuildConfig.desktop
      { mask := 0, error := 0, extensions := none, version := some "4.1" } = true ∧
    GLExtensions.is_core_profile BuildConfig.desktop
      { mask := 0, error := 0x0500, extensions := some "GL_OES_depth24",
        version := some "OpenGL ES 3.0" } = false :=
  ⟨(is_core_profile_three_tier
      { mask := 1, error := 0, extensions := some "GL_ARB_depth_texture", version := none }).1
      rfl (by decide),
   (is_core_profile_three_tier
      { mask := 2, error := 0, extensions := none, version := none }).1 rfl (by decide),
   (is_core_profile_three_tier
      { mask := 0, error := 0, extensions := none, version := some "4.1" }).2.1
      (by decide) rfl,
   (is_core_profile_three_tier
      { mask := 0, error := 0x0500, extensions := some "GL_OES_depth24",
        version := some "OpenGL ES 3.0" }).2.2.2 (by decide) (by decide) "OpenGL ES 3.0" rfl
      (by decide)⟩

/-! ## Lookups in the linked program -/

theorem fst_ite_congr {σ : Type} (c : Prop) [Decidable c] (a b a' b' : Bool × σ × List GLCall)
    (ha : a.1 = a'.1) (hb : b.1 = b'.1) :
    (if c then a else b).1 = (if c then a' else b').1 := by
  split
  · exact ha
  · exact hb

theorem instancing_load_lookup (e : SceneGL41InstancingLoadEnv) (p : SceneGL41InstancingPrivate)
    (h : e.pos_loc < 0 ∨ e.off_loc < 0 ∨ e.block = GL_INVALID_INDEX) :
    resultSat (fun r => r.1 = false) (SceneGL41Instancing.load e p) := by
  unfold SceneGL41Instancing.load
  dsimp only
  repeat' (apply resultSat_ite <;> intro _)
  all_goals apply resultSat_intro
  all_goals first
    | rfl
    | (exfalso; tauto)

theorem pipeline_load_lookup (e : SceneGL41PipelineLoadEnv) (p : SceneGL41PipelinePrivate)
    (h : e.scene_vs = GL_INVALID_INDEX ∨ e.scene_fs = GL_INVALID_INDEX ∨
      e.model_vs = GL_INVALID_INDEX ∨ e.attr_position < 0 ∨ e.attr_normal < 0) :
    resultSat (fun r => r.1 = false) (SceneGL41Pipeline.load e p) := by
  unfold SceneGL41Pipeline.load
  dsimp only
  repeat' (apply resultSat_ite <;> intro _)
  all_goals apply resultSat_intro
  all_goals first
    | rfl
    | (exfalso; tauto)

theorem mrt_load_lookup (e : SceneGL41MRTLoadEnv) (p : SceneGL41MRTPrivate)
    (h : e.pos_loc < 0) :
    resultSat (fun r => r.1 = false) (SceneGL41MRT.load e p) := by
  unfold SceneGL41MRT.load
  dsimp only
  repeat' (apply resultSat_ite <;> intro _)
  all_goals apply resultSat_intro
  all_goals first
    | rfl
    | (exfalso; tauto)

theorem texarray_load_lookup (e : SceneGL41TexArrayLoadEnv) (p : SceneGL41TexArrayPrivate)
    (h : e.pos_loc < 0 ∨ e.inst_loc < 0 ∨ e.block = GL_INVALID_INDEX) :
    resultSat (fun r => r.1 = false) (SceneGL41TexArray.load e p) := by
  unfold SceneGL41TexArray.load
  dsimp only
  repeat' (apply resultSat_ite <;> intro _)
  all_goals apply resultSat_intro
  all_goals first
    | rfl
    | (exfalso; tauto)

theorem streaming_load_lookup (e : SceneGL41StreamingSyncLoadEnv)
    (p : SceneGL41StreamingSyncPrivate) (h : e.attr_position < 0) :
    resultSat (fun r => r.1 = false) (SceneGL41StreamingSync.load e p) := by
  unfold SceneGL41StreamingSync.load
  dsimp only
  repeat' (apply resultSat_ite <;> intro _)
  all_goals apply resultSat_intro
  all_goals first
    | rfl
    | (exfalso; tauto)

theorem geometry_load_lookup (e : SceneGL41GeometryLoadEnv) (p : SceneGL41GeometryPrivate)
    (h : e.pos_loc < 0) :
    resultSat (fun r => r.1 = false) (SceneGL41Geometry.load e p) := by
  unfold SceneGL41Geometry.load
  dsimp only
  repeat' (apply resultSat_ite <;> intro _)
  all_goals apply resultSat_intro
  all_goals first
    | rfl
    | (exfalso; tauto)

theorem mrt_load_uniform (e : SceneGL41MRTLoadEnv) (p : SceneGL41MRTPrivate) (u : Int) :
    (SceneGL41MRT.load { e with u_time := u } p).1 = (SceneGL41MRT.load e p).1 := by
  unfold SceneGL41MRT.load
  dsimp only
  simp only [recreate_fst]
  repeat' apply fst_ite_congr
  all_goals rfl

theorem streaming_load_uniform (e : SceneGL41StreamingSyncLoadEnv)
    (p : SceneGL41StreamingSyncPrivate) (u : Int) :
    (SceneGL41StreamingSync.load { e with u_mvp := u } p).1 =
      (SceneGL41StreamingSync.load e p).1 := by
  unfold SceneGL41StreamingSync.load
  dsimp only
  repeat' apply fst_ite_congr
  all_goals rfl

theorem texarray_load_uniform (e : SceneGL41TexArrayLoadEnv) (p : SceneGL41TexArrayPrivate)
    (u v : Int) :
    (SceneGL41TexArray.load { e with loc_tex := u, u_bias := v } p).1 =
      (SceneGL41TexArray.load e p).1 := by
  unfold SceneGL41TexArray.load
  dsimp only
  repeat' apply fst_ite_congr
  all_goals rfl

theorem geometry_load_uniform (e : SceneGL41GeometryLoadEnv) (p : SceneGL41GeometryPrivate)
    (u v : Int) :
    (SceneGL41Geometry.load { e with u_size := u, u_time := v } p).1 =
      (SceneGL41Geometry.load e p).1 := by
  unfold SceneGL41Geometry.load
  dsimp only
  repeat' apply fst_ite_congr
  all_goals rfl

/-- Claim C18, refuted as stated: an MRT `load()` in which everything
succeeds but the lookup of the uniform `uTime` reports not-found returns
true. -/
theorem mrt_load_tolerates_missing_uniform :
    exampleMRTLoadNoUniform.u_time < 0 ∧
    (SceneGL41MRT.load exampleMRTLoadNoUniform {}).1 = true := by
  decide

/-- Claim C18, amended: for every scene, when the lookup of an expected
vertex attribute or uniform block reports not-found, `load()` returns false,
and a record that started all-sentinel is all-sentinel again.  The lookups of
plain uniforms (`uTime` in MRT, `uMVP` in StreamingSync, `uTex` and `uBias` in
TexArray, `uSize` and `uTime` in Geometry) do not take part: the value
returned by `load()` is the same whatever they answer. -/
theorem missing_attribute_or_block_fails_load :
    (∀ (e : SceneGL41InstancingLoadEnv) (p : SceneGL41InstancingPrivate),
      (e.pos_loc < 0 ∨ e.off_loc < 0 ∨ e.block = GL_INVALID_INDEX) →
        (SceneGL41Instancing.load e p).1 = false ∧
        (p.allSentinel → (SceneGL41Instancing.load e p).2.1.allSentinel)) ∧
    (∀ (e : SceneGL41PipelineLoadEnv) (p : SceneGL41PipelinePrivate),
      (e.scene_vs = GL_INVALID_INDEX ∨ e.scene_fs = GL_INVALID_INDEX ∨
        e.model_vs = GL_INVALID_INDEX ∨ e.attr_position < 0 ∨ e.attr_normal < 0) →
        (SceneGL41Pipeline.load e p).1 = false ∧
        (p.allSentinel → (SceneGL41Pipeline.load e p).2.1.allSentinel)) ∧
    (∀ (e : SceneGL41MRTLoadEnv) (p : SceneGL41MRTPrivate),
      e.pos_loc < 0 →
        (SceneGL41MRT.load e p).1 = false ∧
        (p.allSentinel → (SceneGL41MRT.load e p).2.1.allSentinel)) ∧
    (∀ (e : SceneGL41TexArrayLoadEnv) (p : SceneGL41TexArrayPrivate),
      (e.pos_loc < 0 ∨ e.inst_loc < 0 ∨ e.block = GL_INVALID_INDEX) →
        (SceneGL41TexArray.load e p).1 = false ∧
        (p.allSentinel → (SceneGL41TexArray.load e p).2.1.allSentinel)) ∧
    (∀ (e : SceneGL41StreamingSyncLoadEnv) (p : SceneGL41StreamingSyncPrivate),
      e.attr_position < 0 →
        (SceneGL41StreamingSync.load e p).1 = false ∧
        (p.allSentinel → (SceneGL41StreamingSync.load e p).2.1.allSentinel)) ∧
    (∀ (e : SceneGL41GeometryLoadEnv) (p : SceneGL41GeometryPrivate),
      e.pos_loc < 0 →
        (SceneGL41Geometry.load e p).1 = false ∧
        (p.allSentinel → (SceneGL41Geometry.load e p).2.1.allSentinel)) ∧
    (∀ (e : SceneGL41MRTLoadEnv) (p : SceneGL41MRTPrivate) (u : Int),
      (SceneGL41MRT.load { e with u_time := u } p).1 = (SceneGL41MRT.load e p).1) ∧
    (∀ (e : SceneGL41StreamingSyncLoadEnv) (p : SceneGL41StreamingSyncPrivate) (u : Int),
      (SceneGL41StreamingSync.load { e with u_mvp := u } p).1 =
        (SceneGL41StreamingSync.load e p).1) ∧
    (∀ (e : SceneGL41TexArrayLoadEnv) (p : SceneGL41TexArrayPrivate) (u v : Int),
      (SceneGL41TexArray.load { e with loc_tex := u, u_bias := v } p).1 =
        (SceneGL41TexArray.load e p).1) ∧
    (∀ (e : SceneGL41GeometryLoadEnv) (p : SceneGL41GeometryPrivate) (u v : Int),
      (SceneGL41Geometry.load { e with u_size := u, u_time := v } p).1 =
        (SceneGL41Geometry.load e p).1) :=
  ⟨fun e p h => ⟨resultSat_elim (instancing_load_lookup e p h), fun hp =>
      failsInto_elim (instancing_load_failsInto e p hp)
        (resultSat_elim (instancing_load_lookup e p h))⟩,
   fun e p h => ⟨resultSat_elim (pipeline_load_lookup e p h), fun hp =>
      failsInto_elim (pipeline_load_failsInto e p hp)
        (resultSat_elim (pipeline_load_lookup e p h))⟩,
   fun e p h => ⟨resultSat_elim (mrt_load_lookup e p h), fun hp =>
      failsInto_elim (mrt_load_failsInto e p hp)
        (resultSat_elim (mrt_load_lookup e p h))⟩,
   fun e p h => ⟨resultSat_elim (texarray_load_lookup e p h), fun hp =>
      failsInto_elim (texarray_load_failsInto e p hp)
        (resultSat_elim (texarray_load_lookup e p h))⟩,
   fun e p h => ⟨resultSat_elim (streaming_load_lookup e p h), fun hp =>
      failsInto_elim (streaming_load_failsInto e p hp)
        (resultSat_elim (streaming_load_lookup e p h))⟩,
   fun e p h => ⟨resultSat_elim (geometry_load_lookup e p h), fun hp =>
      failsInto_elim (geometry_load_failsInto e p hp)
        (resultSat_elim (geometry_load_lookup e p h))⟩,
   mrt_load_uniform, streaming_load_uniform, texarray_load_uniform, geometry_load_uniform⟩

theorem missing_attribute_or_block_fails_load_witness :
    ((SceneGL41Instancing.load exampleInstancingLoadFail {}).1 = false ∧
      (SceneGL41Instancing.load exampleInstancingLoadFail {}).2.1.allSentinel) ∧
    ((SceneGL41Pipeline.load examplePipelineLoadFail {}).1 = false ∧
      (SceneGL41Pipeline.load examplePipelineLoadFail {}).2.1.allSentinel) ∧
    ((SceneGL41StreamingSync.load exampleStreamingLoadFail {}).1 = false ∧
      (SceneGL41StreamingSync.load exampleStreamingLoadFail {}).2.1.allSentinel) ∧
    ((SceneGL41Geometry.load exampleGeometryLoadFail {}).1 = false ∧
      (SceneGL41Geometry.load exampleGeometryLoadFail {}).2.1.allSentinel) :=
  ⟨⟨(missing_attribute_or_block_fails_load.1 exampleInstancingLoadFail {}
        (Or.inr (Or.inr rfl))).1,
    (missing_attribute_or_block_fails_load.1 exampleInstancingLoadFail {}
        (Or.inr (Or.inr rfl))).2 (by simp [SceneGL41InstancingPrivate.allSentinel])⟩,
   ⟨(missing_attribute_or_block_fails_load.2.1 examplePipelineLoadFail {}
        (Or.inr (Or.inr (Or.inr (Or.inr (by decide)))))).1,
    (missing_attribute_or_block_fails_load.2.1 examplePipelineLoadFail {}
        (Or.inr (Or.inr (Or.inr (Or.inr (by decide)))))).2
        (by simp [SceneGL41PipelinePrivate.allSentinel])⟩,
   ⟨(missing_attribute_or_block_fails_load.2.2.2.2.1 exampleStreamingLoadFail {}
        (by decide)).1,
    (missing_attribute_or_block_fails_load.2.2.2.2.1 exampleStreamingLoadFail {}
        (by decide)).2 (by simp [SceneGL41StreamingSyncPrivate.allSentinel])⟩,
   ⟨(missing_attribute_or_block_fails_load.2.2.2.2.2.1 exampleGeometryLoadFail {}
        (by decide)).1,
    (missing_attribute_or_block_fails_load.2.2.2.2.2.1 exampleGeometryLoadFail {}
        (by decide)).2 (by simp [SceneGL41GeometryPrivate.allSentinel])⟩⟩

/-! ## The alignment log of the streaming `setup()` -/

theorem countP_destroyCall_of (P : GLCall → Bool) (h : Nat) (call : Nat → GLCall)
    (hc : ∀ x, P (call x) = false) : (destroyCall h call).countP P = 0 := by
  unfold destroyCall
  split <;> simp [hc]

theorem realloc_no_alignment_log (names : Arr3 Nat) (p : SceneGL41StreamingSyncPrivate) :
    (gl41_streaming_realloc names p).2.countP GLCall.isAlignmentLog = 0 := by
  unfold gl41_streaming_realloc
  simp only [List.countP_append,
    countP_destroyCall_of GLCall.isAlignmentLog _ GLCall.DeleteSync (fun _ => rfl),
    countP_destroyCall_of GLCall.isAlignmentLog _ GLCall.DeleteBuffers (fun _ => rfl)]
  rfl

theorem realloc_warned_alignment (names : Arr3 Nat) (p : SceneGL41StreamingSyncPrivate) :
    (gl41_streaming_realloc names p).1.warned_alignment = p.warned_alignment := rfl

theorem streaming_setup_alignment_log (o : SceneGL41StreamingSyncOptions) (names : Arr3 Nat)
    (p : SceneGL41StreamingSyncPrivate) :
    (SceneGL41StreamingSync.setup o names p).2.2.countP GLCall.isAlignmentLog =
      (if (decide ((SceneGL41StreamingSync.realized_bytes o.bytes).2 ≠
            (SceneGL41StreamingSync.realized_bytes o.bytes).1) && !p.warned_alignment) = true
       then 1 else 0) ∧
    (SceneGL41StreamingSync.setup o names p).2.1.warned_alignment =
      (p.warned_alignment ||
        decide ((SceneGL41StreamingSync.realized_bytes o.bytes).2 ≠
          (SceneGL41StreamingSync.realized_bytes o.bytes).1)) := by
  unfold SceneGL41StreamingSync.setup
  dsimp only
  generalize decide ((SceneGL41StreamingSync.realized_bytes o.bytes).2 ≠
      (SceneGL41StreamingSync.realized_bytes o.bytes).1) = d
  cases d <;> cases hw : p.warned_alignment <;>
    simp only [Bool.false_and, Bool.true_and, Bool.not_false, Bool.not_true, Bool.false_eq_true,
      if_false, if_true, Bool.or_false, Bool.or_true, Bool.false_or, Bool.true_or] <;>
    split <;>
    first
      | exact ⟨rfl, rfl⟩
      | exact ⟨rfl, hw⟩
      | (refine ⟨?_, ?_⟩
         · simp only [List.countP_append, List.nil_append, realloc_no_alignment_log]
           first | rfl | skip
         · rfl)

/-- Claim C19, refuted as stated: on a freshly constructed streaming scene
`setup()` with bytes "4194305" does emit the alignment log line (the request
4194305 is not a multiple of 256 and is rounded down to 4194304). -/
theorem setup_4194305_emits_alignment_log :
    (SceneGL41StreamingSync.setup { bytes := "4194305" } ⟨1, 2, 3⟩ {}).2.2.countP
      GLCall.isAlignmentLog ≠ 0 := by
  decide

/-- Claim C19, amended: on a freshly constructed streaming scene `setup()`
with bytes "4194305" realizes 4194304 bytes and emits the alignment log line
exactly once, like `setup()` with bytes "4194369"; the already aligned request
"4194304" realizes 4194304 bytes and emits no alignment log line. -/
theorem setup_alignment_examples :
    ((SceneGL41StreamingSync.setup { bytes := "4194305" } ⟨1, 2, 3⟩ {}).2.1.bytes = 4194304 ∧
      (SceneGL41StreamingSync.setup { bytes := "4194305" } ⟨1, 2, 3⟩ {}).2.2.countP
        GLCall.isAlignmentLog = 1) ∧
    ((SceneGL41StreamingSync.setup { bytes := "4194369" } ⟨1, 2, 3⟩ {}).2.1.bytes = 4194304 ∧
      (SceneGL41StreamingSync.setup { bytes := "4194369" } ⟨1, 2, 3⟩ {}).2.2.countP
        GLCall.isAlignmentLog = 1) ∧
    ((SceneGL41StreamingSync.setup { bytes := "4194304" } ⟨1, 2, 3⟩ {}).2.1.bytes = 4194304 ∧
      (SceneGL41StreamingSync.setup { bytes := "4194304" } ⟨1, 2, 3⟩ {}).2.2.countP
        GLCall.isAlignmentLog = 0) := by
  decide

theorem realized_bytes_rounded_iff (value : String) :
    (SceneGL41StreamingSync.realized_bytes value).2 ≠
        (SceneGL41StreamingSync.realized_bytes value).1 ↔
      (SceneGL41StreamingSync.realized_bytes value).1 % 256 ≠ 0 := by
  have hb := realized_bytes_requested_bounds value
  rw [realized_bytes_eq]
  omega

theorem streaming_setup_log_count (o : SceneGL41StreamingSyncOptions) (names : Arr3 Nat)
    (p : SceneGL41StreamingSyncPrivate) :
    (SceneGL41StreamingSync.setup o names p).2.2.countP GLCall.isAlignmentLog =
      (if (SceneGL41StreamingSync.realized_bytes o.bytes).1 % 256 ≠ 0 ∧
          p.warned_alignment = false then 1 else 0) := by
  rw [(streaming_setup_alignment_log o names p).1]
  by_cases hr : (SceneGL41StreamingSync.realized_bytes o.bytes).1 % 256 ≠ 0
  · have hd := (realized_bytes_rounded_iff o.bytes).mpr hr
    cases hw : p.warned_alignment <;> simp [hr, hd]
  · have hd : ¬((SceneGL41StreamingSync.realized_bytes o.bytes).2 ≠
        (SceneGL41StreamingSync.realized_bytes o.bytes).1) :=
      fun h => hr ((realized_bytes_rounded_iff o.bytes).mp h)
    simp only [hr, false_and, if_false, decide_eq_false hd, Bool.false_and, Bool.false_eq_true]

theorem streaming_setup_flag (o : SceneGL41StreamingSyncOptions) (names : Arr3 Nat)
    (p : SceneGL41StreamingSyncPrivate) :
    (SceneGL41StreamingSync.setup o names p).2.1.warned_alignment = true ↔
      (p.warned_alignment = true ∨
        (SceneGL41StreamingSync.realized_bytes o.bytes).1 % 256 ≠ 0) := by
  rw [(streaming_setup_alignment_log o names p).2, ← realized_bytes_rounded_iff]
  simp

theorem setup_seq_warned (l : List (SceneGL41StreamingSyncOptions × Arr3 Nat))
    (p : SceneGL41StreamingSyncPrivate) (hw : p.warned_alignment = true) :
    ((SceneGL41StreamingSync.setup_seq l p).map (List.countP GLCall.isAlignmentLog)).sum = 0 := by
  induction l generalizing p with
  | nil => rfl
  | cons x l ih =>
    obtain ⟨o, names⟩ := x
    simp only [SceneGL41StreamingSync.setup_seq, List.map_cons, List.sum_cons]
    rw [streaming_setup_log_count, ih _ ((streaming_setup_flag o names p).mpr (Or.inl hw))]
    simp [hw]

theorem setup_seq_at_most_one (l : List (SceneGL41StreamingSyncOptions × Arr3 Nat))
    (p : SceneGL41StreamingSyncPrivate) :
    ((SceneGL41StreamingSync.setup_seq l p).map (List.countP GLCall.isAlignmentLog)).sum ≤ 1 := by
  induction l generalizing p with
  | nil => exact Nat.zero_le _
  | cons x l ih =>
    obtain ⟨o, names⟩ := x
    simp only [SceneGL41StreamingSync.setup_seq, List.map_cons, List.sum_cons]
    rw [streaming_setup_log_count]
    by_cases hc : (SceneGL41StreamingSync.realized_bytes o.bytes).1 % 256 ≠ 0 ∧
        p.warned_alignment = false
    · rw [if_pos hc, setup_seq_warned _ _ ((streaming_setup_flag o names p).mpr (Or.inr hc.1))]
    · rw [if_neg hc, Nat.zero_add]
      exact ih _

/-- Claim C20, refuted as stated: on a fresh scene a setup with bytes
"4194369" (rounded, logged) followed by a setup with bytes "5000001", a
different request that also needs rounding, emits no alignment log line in the
second call. -/
theorem second_rounded_request_is_not_logged :
    (SceneGL41StreamingSync.realized_bytes "5000001").1 ≠
      (SceneGL41StreamingSync.realized_bytes "4194369").1 ∧
    (SceneGL41StreamingSync.realized_bytes "5000001").1 % 256 ≠ 0 ∧
    (SceneGL41StreamingSync.setup { bytes := "5000001" } ⟨4, 5, 6⟩
      (SceneGL41StreamingSync.setup { bytes := "4194369" } ⟨1, 2, 3⟩ {}).2.1).2.2.countP
        GLCall.isAlignmentLog = 0 := by
  decide

/-- Claim C20, amended: the alignment rounding is logged once per scene
instance.  A `setup()` emits exactly one alignment log line when its clamped
request is not a multiple of 256 and the flag `warned_alignment` is still
unset, and none otherwise; the flag is set afterwards exactly when it was set
before or the request needed rounding; hence any sequence of setups on one
scene emits at most one alignment log line in total, none once the flag is
set, and a setup repeating the previous request emits none. -/
theorem alignment_log_is_one_shot :
    (∀ (o : SceneGL41StreamingSyncOptions) (names : Arr3 Nat)
        (p : SceneGL41StreamingSyncPrivate),
      (SceneGL41StreamingSync.setup o names p).2.2.countP GLCall.isAlignmentLog =
        (if (SceneGL41StreamingSync.realized_bytes o.bytes).1 % 256 ≠ 0 ∧
            p.warned_alignment = false then 1 else 0) ∧
      ((SceneGL41StreamingSync.setup o names p).2.1.warned_alignment = true ↔
        (p.warned_alignment = true ∨
          (SceneGL41StreamingSync.realized_bytes o.bytes).1 % 256 ≠ 0))) ∧
    (∀ (l : List (SceneGL41StreamingSyncOptions × Arr3 Nat))
        (p : SceneGL41StreamingSyncPrivate),
      ((SceneGL41StreamingSync.setup_seq l p).map (List.countP GLCall.isAlignmentLog)).sum ≤ 1 ∧
      (p.warned_alignment = true →
        ((SceneGL41StreamingSync.setup_seq l p).map
          (List.countP GLCall.isAlignmentLog)).sum = 0)) ∧
    (∀ (o : SceneGL41StreamingSyncOptions) (names names' : Arr3 Nat)
        (p : SceneGL41StreamingSyncPrivate),
      (SceneGL41StreamingSync.setup o names'
        (SceneGL41StreamingSync.setup o names p).2.1).2.2.countP GLCall.isAlignmentLog = 0) := by
  refine ⟨fun o names p => ⟨streaming_setup_log_count o names p, streaming_setup_flag o names p⟩,
    fun l p => ⟨setup_seq_at_most_one l p, setup_seq_warned l p⟩, ?_⟩
  intro o names names' p
  rw [streaming_setup_log_count]
  by_cases hr : (SceneGL41StreamingSync.realized_bytes o.bytes).1 % 256 ≠ 0
  · have hf := (streaming_setup_flag o names p).mpr (Or.inr hr)
    rw [hf]
    simp
  · simp [hr]

theorem alignment_log_is_one_shot_witness :
    ((SceneGL41StreamingSync.setup_seq
        [({ bytes := "4194369" }, ⟨1, 2, 3⟩), ({ bytes := "5000001" }, ⟨4, 5, 6⟩),
         ({ bytes := "5000001" }, ⟨7, 8, 9⟩)]
        { warned_alignment := true }).map (List.countP GLCall.isAlignmentLog)).sum = 0 :=
  (alignment_log_is_one_shot.2.1
    [({ bytes := "4194369" }, ⟨1, 2, 3⟩), ({ bytes := "5000001" }, ⟨4, 5, 6⟩),
     ({ bytes := "5000001" }, ⟨7, 8, 9⟩)] { warned_alignment := true }).2 rfl

/-! ## Recovery diagnostics of the streaming draw -/

theorem draw_render_no_log (e : SceneGL41StreamingSyncDrawEnv)
    (p : SceneGL41StreamingSyncPrivate) (g : GLState) (P : GLCall → Bool)
    (hP : ∀ c : GLCall, P c = true → ∃ l m, c = GLCall.Log l m) :
    (SceneGL41StreamingSync.draw_render e p g).countP P = 0 := by
  rw [List.countP_eq_zero]
  intro c hc hPc
  obtain ⟨l, m, rfl⟩ := hP c hPc
  unfold SceneGL41StreamingSync.draw_render SceneGL41StreamingSync.restore_cap at hc
  simp only [List.mem_append, List.mem_cons, List.mem_singleton, List.not_mem_nil, or_false,
    reduceCtorEq, false_or, or_self] at hc
  rcases hc with hc | hc | hc | hc | hc | hc
  · split at hc <;> simp at hc
  all_goals (split at hc <;> exact absurd hc (by simp))

theorem isSyncTimeoutLog_log (c : GLCall) (h : c.isSyncTimeoutLog = true) :
    ∃ l m, c = GLCall.Log l m := by
  cases c <;> first | exact ⟨_, _, rfl⟩ | exact absurd h Bool.false_ne_true

theorem isMapFailureLog_log (c : GLCall) (h : c.isMapFailureLog = true) :
    ∃ l m, c = GLCall.Log l m := by
  cases c <;> first | exact ⟨_, _, rfl⟩ | exact absurd h Bool.false_ne_true

theorem isUnmapFailureLog_log (c : GLCall) (h : c.isUnmapFailureLog = true) :
    ∃ l m, c = GLCall.Log l m := by
  cases c <;> first | exact ⟨_, _, rfl⟩ | exact absurd h Bool.false_ne_true

theorem draw_sync_log_count (e : SceneGL41StreamingSyncDrawEnv)
    (p : SceneGL41StreamingSyncPrivate) (g : GLState) :
    (SceneGL41StreamingSync.draw e p g).2.countP GLCall.isSyncTimeoutLog =
      (if p.fence.get (p.buffer_index % 3) ≠ 0 ∧
          SceneGL41StreamingSync.wait_failed e.wait_res = true ∧
          p.warned_sync_timeout = false then 1 else 0) := by
  have hw : (SceneGL41StreamingSync.draw_wait e p.warned_sync_timeout
      (p.fence.get (p.buffer_index % 3))).countP GLCall.isSyncTimeoutLog =
      (if p.fence.get (p.buffer_index % 3) ≠ 0 ∧
          SceneGL41StreamingSync.wait_failed e.wait_res = true ∧
          p.warned_sync_timeout = false then 1 else 0) := by
    unfold SceneGL41StreamingSync.draw_wait
    by_cases hf : p.fence.get (p.buffer_index % 3) = 0
    · simp only [hf, ne_eq, not_true_eq_false, if_false, false_and]
      rfl
    · simp only [ne_eq, hf, not_false_eq_true, if_true, true_and]
      cases SceneGL41StreamingSync.wait_failed e.wait_res <;>
        cases SceneGL41StreamingSync.wait_failed e.wait_res2 <;>
        cases p.warned_sync_timeout <;> rfl
  have hu : (SceneGL41StreamingSync.draw_upload e p (p.vbo.get (p.buffer_index % 3))).countP
      GLCall.isSyncTimeoutLog = 0 := by
    unfold SceneGL41StreamingSync.draw_upload
    cases e.mapped <;> cases e.unmap_ok <;> cases p.warned_unmap_failure <;>
      cases p.warned_map_failure <;> rfl
  simp only [SceneGL41StreamingSync.draw, List.countP_append, hw, hu,
    draw_render_no_log e p _ _ isSyncTimeoutLog_log, Nat.add_zero]

theorem draw_wait_no_upload_log (e : SceneGL41StreamingSyncDrawEnv) (w : Bool) (f : Nat) :
    (SceneGL41StreamingSync.draw_wait e w f).countP GLCall.isMapFailureLog = 0 ∧
    (SceneGL41StreamingSync.draw_wait e w f).countP GLCall.isUnmapFailureLog = 0 := by
  unfold SceneGL41StreamingSync.draw_wait
  by_cases hf : f = 0
  · simp only [hf, ne_eq, not_true_eq_false, if_false]
    exact ⟨rfl, rfl⟩
  · simp only [ne_eq, hf, not_false_eq_true, if_true]
    cases SceneGL41StreamingSync.wait_failed e.wait_res <;>
      cases SceneGL41StreamingSync.wait_failed e.wait_res2 <;>
      cases w <;> exact ⟨rfl, rfl⟩

theorem draw_map_log_count (e : SceneGL41StreamingSyncDrawEnv)
    (p : SceneGL41StreamingSyncPrivate) (g : GLState) :
    (SceneGL41StreamingSync.draw e p g).2.countP GLCall.isMapFailureLog =
      (if e.mapped = false ∧ p.warned_map_failure = false then 1 else 0) := by
  have hu : (SceneGL41StreamingSync.draw_upload e p (p.vbo.get (p.buffer_index % 3))).countP
      GLCall.isMapFailureLog =
      (if e.mapped = false ∧ p.warned_map_failure = false then 1 else 0) := by
    unfold SceneGL41StreamingSync.draw_upload
    cases e.mapped <;> cases e.unmap_ok <;> cases p.warned_unmap_failure <;>
      cases p.warned_map_failure <;> rfl
  simp only [SceneGL41StreamingSync.draw, List.countP_append, hu,
    (draw_wait_no_upload_log e _ _).1,
    draw_render_no_log e p _ _ isMapFailureLog_log, Nat.add_zero, Nat.zero_add]

theorem draw_unmap_log_count (e : SceneGL41StreamingSyncDrawEnv)
    (p : SceneGL41StreamingSyncPrivate) (g : GLState) :
    (SceneGL41StreamingSync.draw e p g).2.countP GLCall.isUnmapFailureLog =
      (if e.mapped = true ∧ e.unmap_ok = false ∧ p.warned_unmap_failure = false
       then 1 else 0) := by
  have hu : (SceneGL41StreamingSync.draw_upload e p (p.vbo.get (p.buffer_index % 3))).countP
      GLCall.isUnmapFailureLog =
      (if e.mapped = true ∧ e.unmap_ok = false ∧ p.warned_unmap_failure = false
       then 1 else 0) := by
    unfold SceneGL41StreamingSync.draw_upload
    cases e.mapped <;> cases e.unmap_ok <;> cases p.warned_unmap_failure <;>
      cases p.warned_map_failure <;> rfl
  simp only [SceneGL41StreamingSync.draw, List.countP_append, hu,
    (draw_wait_no_upload_log e _ _).2,
    draw_render_no_log e p _ _ isUnmapFailureLog_log, Nat.add_zero, Nat.zero_add]

theorem draw_seq_once (P : GLCall → Bool) (flag : SceneGL41StreamingSyncPrivate → Bool)
    (h0 : ∀ e p g, flag p = true →
      (SceneGL41StreamingSync.draw e p g).2.countP P = 0 ∧
      flag (SceneGL41StreamingSync.draw e p g).1 = true)
    (h1 : ∀ e p g, (SceneGL41StreamingSync.draw e p g).2.countP P ≤ 1 ∧
      ((SceneGL41StreamingSync.draw e p g).2.countP P = 1 →
        flag (SceneGL41StreamingSync.draw e p g).1 = true))
    (l : List (SceneGL41StreamingSyncDrawEnv × GLState)) :
    ∀ p : SceneGL41StreamingSyncPrivate,
      totalCount P (SceneGL41StreamingSync.draw_seq l p) ≤ 1 ∧
      (flag p = true → totalCount P (SceneGL41StreamingSync.draw_seq l p) = 0) := by
  induction l with
  | nil => exact fun _ => ⟨Nat.zero_le _, fun _ => rfl⟩
  | cons x l ih =>
    intro p
    obtain ⟨e, g⟩ := x
    have hstep : totalCount P (SceneGL41StreamingSync.draw_seq ((e, g) :: l) p) =
        (SceneGL41StreamingSync.draw e p g).2.countP P +
          totalCount P (SceneGL41StreamingSync.draw_seq l
            (SceneGL41StreamingSync.draw e p g).1) := by
      simp [totalCount, SceneGL41StreamingSync.draw_seq]
    rw [hstep]
    have hi := ih (SceneGL41StreamingSync.draw e p g).1
    have h1' := h1 e p g
    constructor
    · by_cases hc : (SceneGL41StreamingSync.draw e p g).2.countP P = 1
      · rw [hi.2 (h1'.2 hc)]
        omega
      · have := hi.1
        omega
    · intro hf
      have h0' := h0 e p g hf
      rw [h0'.1, hi.2 h0'.2]

/-- Claim C21, the code at the failing input: over any sequence of draws the
wait-timeout, map-failure and unmap-corruption diagnostics are emitted at most
once, but the forced-glFinish diagnostic is emitted by every draw whose two
waits time out: after the life `exampleStreamingOps` (whose last draw already
forced a glFinish) two further draws with both waits timing out emit it twice
more. -/
theorem forced_finish_message_repeats_every_frame :
    (∀ (l : List (SceneGL41StreamingSyncDrawEnv × GLState)) (p : SceneGL41StreamingSyncPrivate),
      totalCount GLCall.isSyncTimeoutLog (SceneGL41StreamingSync.draw_seq l p) ≤ 1 ∧
      totalCount GLCall.isMapFailureLog (SceneGL41StreamingSync.draw_seq l p) ≤ 1 ∧
      totalCount GLCall.isUnmapFailureLog (SceneGL41StreamingSync.draw_seq l p) ≤ 1) ∧
    (StreamingOp.run {} exampleStreamingOps).warned_sync_timeout = true ∧
    (SceneGL41StreamingSync.draw_seq
      [(exampleStreamingTimedOut, exampleGLState), (exampleStreamingTimedOut, exampleGLState)]
      (StreamingOp.run {} exampleStreamingOps)).map (List.countP GLCall.isForcedFinishLog) =
        [1, 1] ∧
    totalCount GLCall.isForcedFinishLog
      (SceneGL41StreamingSync.draw_seq
        [(exampleStreamingTimedOut, exampleGLState), (exampleStreamingTimedOut, exampleGLState)]
        (StreamingOp.run {} exampleStreamingOps)) = 2 := by
  refine ⟨fun l p => ⟨?_, ?_, ?_⟩, by decide, by decide, by decide⟩
  · refine (draw_seq_once GLCall.isSyncTimeoutLog (fun q => q.warned_sync_timeout) ?_ ?_ l p).1
    · intro e p g hf
      rw [draw_sync_log_count]
      refine ⟨?_, ?_⟩
      · simp [hf]
      · simp only [SceneGL41StreamingSync.draw, hf]
        simp
    · intro e p g
      rw [draw_sync_log_count]
      by_cases hc : p.fence.get (p.buffer_index % 3) ≠ 0 ∧
          SceneGL41StreamingSync.wait_failed e.wait_res = true ∧ p.warned_sync_timeout = false
      · rw [if_pos hc]
        refine ⟨Nat.le_refl _, fun _ => ?_⟩
        simp only [SceneGL41StreamingSync.draw]
        rw [if_pos hc]
      · rw [if_neg hc]
        exact ⟨Nat.zero_le _, fun h => absurd h (by decide)⟩
  · refine (draw_seq_once GLCall.isMapFailureLog (fun q => q.warned_map_failure) ?_ ?_ l p).1
    · intro e p g hf
      rw [draw_map_log_count]
      refine ⟨?_, ?_⟩
      · simp [hf]
      · simp only [SceneGL41StreamingSync.draw, hf]
        simp
    · intro e p g
      rw [draw_map_log_count]
      by_cases hc : e.mapped = false ∧ p.warned_map_failure = false
      · rw [if_pos hc]
        refine ⟨Nat.le_refl _, fun _ => ?_⟩
        simp only [SceneGL41StreamingSync.draw]
        rw [if_pos hc]
      · rw [if_neg hc]
        exact ⟨Nat.zero_le _, fun h => absurd h (by decide)⟩
  · refine (draw_seq_once GLCall.isUnmapFailureLog (fun q => q.warned_unmap_failure) ?_ ?_ l p).1
    · intro e p g hf
      rw [draw_unmap_log_count]
      refine ⟨?_, ?_⟩
      · simp [hf]
      · simp only [SceneGL41StreamingSync.draw, hf]
        simp
    · intro e p g
      rw [draw_unmap_log_count]
      by_cases hc : e.mapped = true ∧ e.unmap_ok = false ∧ p.warned_unmap_failure = false
      · rw [if_pos hc]
        refine ⟨Nat.le_refl _, fun _ => ?_⟩
        simp only [SceneGL41StreamingSync.draw]
        rw [if_pos hc]
      · rw [if_neg hc]
        exact ⟨Nat.zero_le _, fun h => absurd h (by decide)⟩

/-! ## The model uniform buffer of the pipeline scene -/

theorem pipeline_load_allocates_model_block (e : SceneGL41PipelineLoadEnv)
    (p : SceneGL41PipelinePrivate) :
    resultSat (fun r => r.1 = false ∨
      (r.2.1.ubo_model = e.ubo_model ∧
        ∃ pre post : List GLCall, r.2.2 = pre ++
          [GLCall.BindBuffer .UNIFORM_BUFFER e.ubo_model,
           GLCall.BufferData .UNIFORM_BUFFER kModelBlockSize] ++ post))
      (SceneGL41Pipeline.load e p) := by
  unfold SceneGL41Pipeline.load
  dsimp only
  repeat' (apply resultSat_ite <;> intro _)
  all_goals apply resultSat_intro
  all_goals first
    | exact Or.inl rfl
    | skip
  right
  refine ⟨rfl, ?_⟩
  refine ⟨(GL41Procs.load e.dl true).2.2 ++ (compile_shader .VERTEX_SHADER e.vs).2 ++
      (compile_shader .FRAGMENT_SHADER e.fs).2 ++
    [.CreateProgram e.prog_vs, .AttachShader e.prog_vs (compile_shader .VERTEX_SHADER e.vs).1,
     .ProgramParameteri e.prog_vs, .LinkProgram e.prog_vs,
     .CreateProgram e.prog_fs, .AttachShader e.prog_fs (compile_shader .FRAGMENT_SHADER e.fs).1,
     .ProgramParameteri e.prog_fs, .LinkProgram e.prog_fs,
     .DeleteShader (compile_shader .VERTEX_SHADER e.vs).1,
     .DeleteShader (compile_shader .FRAGMENT_SHADER e.fs).1] ++
    [.GenProgramPipelines e.pipeline, .BindProgramPipeline e.pipeline,
     .UseProgramStages e.pipeline GL_VERTEX_SHADER_BIT e.prog_vs,
     .UseProgramStages e.pipeline GL_FRAGMENT_SHADER_BIT e.prog_fs,
     .BindProgramPipeline 0,
     .GenBuffers [e.ubo_scene], .BindBuffer .UNIFORM_BUFFER e.ubo_scene,
     .BufferData .UNIFORM_BUFFER kSceneBlockSize, .BindBuffer .UNIFORM_BUFFER 0,
     .GenBuffers [e.ubo_model]],
    [.BindBuffer .UNIFORM_BUFFER 0] ++
    [.UniformBlockBinding e.prog_vs e.scene_vs 0, .UniformBlockBinding e.prog_fs e.scene_fs 0,
     .UniformBlockBinding e.prog_vs e.model_vs 1,
     .BindBufferBase .UNIFORM_BUFFER 0 e.ubo_scene, .BindBufferBase .UNIFORM_BUFFER 1 e.ubo_model,
     .GenVertexArrays e.vao, .BindVertexArray e.vao,
     .GenBuffers [e.vbo], .BindBuffer .ARRAY_BUFFER e.vbo, .BufferData .ARRAY_BUFFER 864] ++
    [.EnableVertexAttribArray e.attr_position.toNat,
     .VertexAttribPointer e.attr_position.toNat 3 24 0,
     .EnableVertexAttribArray e.attr_normal.toNat,
     .VertexAttribPointer e.attr_normal.toNat 3 24 12,
     .BindBuffer .ARRAY_BUFFER 0, .BindVertexArray 0], ?_⟩
  simp only [List.append_assoc, List.cons_append, List.nil_append]

/-- Claim C22: for every value of the grid option string, after the pipeline
`setup()` the realized grid lies in 1..16 and `instance_count` is grid x grid,
at most 256 = kModelBlockVec4s; the only upload of the call, into the model
uniform buffer at offset 0, has 16 x instance_count bytes, at most
kModelBlockSize = 4096; and a successful `load()` allocated that buffer (the
one held in `ubo_model`) with kModelBlockSize bytes. -/
theorem pipeline_model_block_upload_fits (o : SceneGL41PipelineOptions)
    (p : SceneGL41PipelinePrivate) (e : SceneGL41PipelineLoadEnv) :
    (1 ≤ (SceneGL41Pipeline.setup o p).2.1.grid ∧ (SceneGL41Pipeline.setup o p).2.1.grid ≤ 16) ∧
    (SceneGL41Pipeline.setup o p).2.1.instance_count =
      (SceneGL41Pipeline.setup o p).2.1.grid * (SceneGL41Pipeline.setup o p).2.1.grid ∧
    (SceneGL41Pipeline.setup o p).2.1.instance_count ≤ kModelBlockVec4s ∧
    kModelBlockVec4s = 256 ∧ kModelBlockSize = 4096 ∧
    (SceneGL41Pipeline.setup o p).2.2 =
      [GLCall.BindBuffer .UNIFORM_BUFFER (SceneGL41Pipeline.setup o p).2.1.ubo_model,
       GLCall.BufferSubData .UNIFORM_BUFFER 0
         (16 * (SceneGL41Pipeline.setup o p).2.1.instance_count),
       GLCall.BindBuffer .UNIFORM_BUFFER 0] ∧
    16 * (SceneGL41Pipeline.setup o p).2.1.instance_count ≤ kModelBlockSize ∧
    (SceneGL41Pipeline.setup o p).2.1.ubo_model = p.ubo_model ∧
    ((SceneGL41Pipeline.load e p).1 = true →
      (SceneGL41Pipeline.load e p).2.1.ubo_model = e.ubo_model ∧
      ∃ pre post : List GLCall, (SceneGL41Pipeline.load e p).2.2 = pre ++
        [GLCall.BindBuffer .UNIFORM_BUFFER e.ubo_model,
         GLCall.BufferData .UNIFORM_BUFFER kModelBlockSize] ++ post) := by
  have hg := clampUnsigned_bounds 1 kModelBlockMaxGrid (parseUnsigned o.grid 10) (by decide)
  have hk : kModelBlockMaxGrid = 16 := rfl
  rw [hk] at hg
  have hgrid : (SceneGL41Pipeline.setup o p).2.1.grid =
      clampUnsigned 1 16 (parseUnsigned o.grid 10) := rfl
  have hsq : clampUnsigned 1 16 (parseUnsigned o.grid 10) *
      clampUnsigned 1 16 (parseUnsigned o.grid 10) ≤ 256 := by
    have := Nat.mul_le_mul hg.2 hg.2
    omega
  have hcount : (SceneGL41Pipeline.setup o p).2.1.instance_count =
      clampUnsigned 1 16 (parseUnsigned o.grid 10) *
        clampUnsigned 1 16 (parseUnsigned o.grid 10) := by
    show (clampUnsigned 1 16 (parseUnsigned o.grid 10) *
      clampUnsigned 1 16 (parseUnsigned o.grid 10)) % UINT_RANGE = _
    exact Nat.mod_eq_of_lt (by unfold UINT_RANGE; omega)
  have hV : kModelBlockVec4s = 256 := rfl
  have hS : kModelBlockSize = 4096 := rfl
  refine ⟨by rw [hgrid]; exact hg, by rw [hcount, hgrid], by rw [hcount, hV]; exact hsq,
    hV, hS, ?_, by rw [hcount, hS]; omega, rfl, ?_⟩
  · have hbytes : ((SceneGL41Pipeline.setup o p).2.1.instance_count * 4) % UINT_RANGE * 4 =
        16 * (SceneGL41Pipeline.setup o p).2.1.instance_count := by
      rw [hcount, Nat.mod_eq_of_lt (by unfold UINT_RANGE; omega)]
      omega
    rw [← hbytes]
    rfl
  · intro hl
    rcases resultSat_elim (pipeline_load_allocates_model_block e p) with h | h
    · rw [hl] at h
      exact absurd h (by decide)
    · exact h

theorem pipeline_model_block_upload_fits_witness :
    (SceneGL41Pipeline.load examplePipelineLoadOk {}).1 = true ∧
    (SceneGL41Pipeline.load examplePipelineLoadOk {}).2.1.ubo_model = 7 ∧
    (SceneGL41Pipeline.setup { grid := "40" }
      (SceneGL41Pipeline.load examplePipelineLoadOk {}).2.1).2.1.instance_count = 256 :=
  ⟨rfl,
   ((pipeline_model_block_upload_fits { grid := "40" } {} examplePipelineLoadOk).2.2.2.2.2.2.2.2
      rfl).1,
   by decide⟩

/-- Claim C23, refuted as stated: when the profile-mask query reports an
error and `glGetString(GL_EXTENSIONS)` returns null, the desktop build answers
true (core), not the conservative false. -/
theorem is_core_profile_true_when_nothing_is_queryable :
    ¬(exampleCoreUnqueryable.error = GL_NO_ERROR ∧ exampleCoreUnqueryable.mask ≠ 0) ∧
    exampleCoreUnqueryable.extensions = none ∧
    GLExtensions.is_core_profile BuildConfig.desktop exampleCoreUnqueryable ≠ false := by
  decide

/-- Claim C23, amended: when the profile mask cannot be obtained (the query
is compiled out, reports an error or yields a zero mask) a GL build answers
true exactly when `glGetString(GL_EXTENSIONS)` returns null, the case the code
takes as the sign of a core profile, and false when the extension string is
available; a build without `GLMARK2_USE_GL` answers false; and a build that
obtains a non-zero mask but lacks the core-profile bit constant answers
false. -/
theorem is_core_profile_without_mask (cfg : BuildConfig) (e : CoreProfileEnv) :
    (¬(cfg.has_GL_CONTEXT_PROFILE_MASK = true ∧ e.error = GL_NO_ERROR ∧ e.mask ≠ 0) →
      GLExtensions.is_core_profile cfg e = (cfg.GLMARK2_USE_GL && e.extensions.isNone)) ∧
    (cfg.GLMARK2_USE_GL = false → GLExtensions.is_core_profile cfg e = false) ∧
    (e.error = GL_NO_ERROR → e.mask ≠ 0 → cfg.has_GL_CONTEXT_PROFILE_MASK = true →
      cfg.has_GL_CONTEXT_CORE_PROFILE_BIT = false →
        GLExtensions.is_core_profile cfg e = false) := by
  refine ⟨?_, ?_, ?_⟩
  · intro hm
    unfold GLExtensions.is_core_profile
    cases hg : cfg.GLMARK2_USE_GL
    · rfl
    · simp only [Bool.not_true, Bool.false_eq_true, if_false, Bool.true_and]
      rw [if_neg hm]
      cases hxe : e.extensions with
      | none => rfl
      | some x =>
        cases hv : e.version with
        | none => rfl
        | some ver =>
          dsimp only
          split <;> rfl
  · intro hg
    unfold GLExtensions.is_core_profile
    rw [hg]
    rfl
  · intro he hm hc hb
    unfold GLExtensions.is_core_profile
    cases hg : cfg.GLMARK2_USE_GL
    · rfl
    · simp only [Bool.not_true, Bool.false_eq_true, if_false]
      rw [if_pos ⟨hc, he, hm⟩, hb]
      rfl

theorem is_core_profile_without_mask_witness :
    GLExtensions.is_core_profile BuildConfig.desktop exampleCoreUnqueryable = true ∧
    GLExtensions.is_core_profile ⟨false, true, true⟩ exampleCoreUnqueryable = false ∧
    GLExtensions.is_core_profile ⟨true, true, false⟩
      { mask := 1, error := 0, extensions := none, version := none } = false :=
  ⟨(is_core_profile_without_mask BuildConfig.desktop exampleCoreUnqueryable).1 (by decide),
   (is_core_profile_without_mask ⟨false, true, true⟩ exampleCoreUnqueryable).2.1 rfl,
   (is_core_profile_without_mask ⟨true, true, false⟩
      { mask := 1, error := 0, extensions := none, version := none }).2.2 rfl (by decide)
      rfl rfl⟩

/-! ## Blend state around the MRT draw -/

/-- Claim C24, the code at the failing input: the MRT `draw()` of a loaded
scene (4 targets), entered with blending enabled for every draw buffer,
returns with blending disabled for the draw buffers 0..3 (`glIsEnabled
(GL_BLEND)` answers false), while the other tracked fields are as found. -/
theorem mrt_draw_leaves_blend_disabled :
    (SceneGL41MRT.load exampleMRTLoadOk {}).1 = true ∧
    exampleGLStateBlend.isEnabled .BLEND = true ∧
    (exampleGLStateBlend.run
      (SceneGL41MRT.draw exampleMRTDrawEnv (SceneGL41MRT.load exampleMRTLoadOk {}).2.1
        exampleGLStateBlend).2).isEnabled .BLEND = false ∧
    (List.range 4).map (exampleGLStateBlend.run
      (SceneGL41MRT.draw exampleMRTDrawEnv (SceneGL41MRT.load exampleMRTLoadOk {}).2.1
        exampleGLStateBlend).2).blend = [false, false, false, false] ∧
    (exampleGLStateBlend.run
      (SceneGL41MRT.draw exampleMRTDrawEnv (SceneGL41MRT.load exampleMRTLoadOk {}).2.1
        exampleGLStateBlend).2).snapshot =
      { exampleGLStateBlend.snapshot with blend := false } := by
  decide

/-! ## State restored by the streaming draw -/

/-- Claim C25: on every execution path of the streaming `draw()` (whatever
the fence, wait, map and unmap outcomes) the read and draw framebuffer
bindings, the viewport rectangle, the depth-test, cull-face, blend, scissor and
stencil enable flags and the colour write mask after the call equal their
values before it; the values captured in the middle of the function are the
pre-draw ones, since the calls issued before the capture change none of these
fields. -/
theorem streaming_draw_restores_captured_state :
    ∀ (e : SceneGL41StreamingSyncDrawEnv) (p : SceneGL41StreamingSyncPrivate) (g : GLState),
      ((g.run (SceneGL41StreamingSync.draw e p g).2).read_fbo = g.read_fbo ∧
       (g.run (SceneGL41StreamingSync.draw e p g).2).draw_fbo = g.draw_fbo ∧
       (g.run (SceneGL41StreamingSync.draw e p g).2).viewport = g.viewport ∧
       (∀ cap : Capability,
         (g.run (SceneGL41StreamingSync.draw e p g).2).isEnabled cap = g.isEnabled cap) ∧
       (g.run (SceneGL41StreamingSync.draw e p g).2).color_mask = g.color_mask) ∧
      g.run (SceneGL41StreamingSync.draw_wait e p.warned_sync_timeout
          (p.fence.get (p.buffer_index % 3)) ++
        SceneGL41StreamingSync.draw_upload e p (p.vbo.get (p.buffer_index % 3))) =
        { g with array_buffer := p.vbo.get (p.buffer_index % 3) } := by
  intro e p g
  have h := streaming_draw_ambient e p g
  refine ⟨⟨congrArg AmbientState.read_fbo h, congrArg AmbientState.draw_fbo h,
    congrArg AmbientState.viewport h, ?_, congrArg AmbientState.color_mask h⟩, ?_⟩
  · intro cap
    cases cap
    · exact congrArg AmbientState.depth_test h
    · exact congrArg AmbientState.cull_face h
    · exact congrArg AmbientState.blend h
    · exact congrArg AmbientState.scissor_test h
    · exact congrArg AmbientState.stencil_test h
  · rw [GLState.run_append, streaming_draw_wait_state, streaming_draw_upload_state]

/-! ## The capability gate of `load()` against `supported()` -/

/-- Claim C26, the code at the failing input: on a core-profile context
whose driver resolves every entry point except `glBindFragDataLocation`, the
MRT `supported()` returns true (with and without `show_errors`) and the MRT
`load()`, with every compile, link, lookup and framebuffer answer good,
returns false after logging the missing entry point. -/
theorem mrt_supported_misses_frag_data_location :
    (SceneGL41MRT.supported { exampleSupportedEnv with dl := exampleDlNoFragData } true {}).1 =
      true ∧
    (SceneGL41MRT.supported { exampleSupportedEnv with dl := exampleDlNoFragData } false {}).1 =
      true ∧
    (SceneGL41MRT.load { exampleMRTLoadOk with dl := exampleDlNoFragData } {}).1 = false ∧
    (SceneGL41MRT.load { exampleMRTLoadOk with dl := exampleDlNoFragData } {}).2.2.any
      (GLCall.isErrorLog "gl41-mrt: missing glBindFragDataLocation entry point") = true ∧
    (SceneGL41MRT.load exampleMRTLoadOk {}).1 = true := by
  decide

/-! ## Result of a repeated MRT `setup()` -/

theorem mrt_setup_repeated_result (o : SceneGL41MRTOptions) (e e' : MRTRecreateEnv)
    (p : SceneGL41MRTPrivate) :
    (SceneGL41MRT.setup o e' (SceneGL41MRT.setup o e p).2.1).1 = true := by
  have ht := mrt_setup_targets o e p
  have hs := mrt_setup_size o e p
  generalize (SceneGL41MRT.setup o e p).2.1 = q at ht hs
  unfold SceneGL41MRT.setup
  dsimp only
  rw [if_neg (by simp [ht, hs])]

/-- Claim C27, the code at the failing input: on a loaded MRT scene a
`setup()` with targets "2" whose framebuffer re-creation is reported
incomplete returns false, and the immediately repeated `setup()` with the same
strings returns true without issuing any call, the scene still holding the
framebuffer that was reported incomplete.  The repeated call returns true
whatever the first one returned. -/
theorem mrt_setup_repeated_after_failure_returns_true :
    (∀ (o : SceneGL41MRTOptions) (e e' : MRTRecreateEnv) (p : SceneGL41MRTPrivate),
      (SceneGL41MRT.setup o e' (SceneGL41MRT.setup o e p).2.1).1 = true) ∧
    (SceneGL41MRT.load exampleMRTLoadOk {}).1 = true ∧
    (SceneGL41MRT.setup { targets := "2" } exampleRecreateIncomplete
      (SceneGL41MRT.load exampleMRTLoadOk {}).2.1).1 = false ∧
    (SceneGL41MRT.setup { targets := "2" } exampleRecreateIncomplete
      (SceneGL41MRT.setup { targets := "2" } exampleRecreateIncomplete
        (SceneGL41MRT.load exampleMRTLoadOk {}).2.1).2.1).1 = true ∧
    (SceneGL41MRT.setup { targets := "2" } exampleRecreateIncomplete
      (SceneGL41MRT.setup { targets := "2" } exampleRecreateIncomplete
        (SceneGL41MRT.load exampleMRTLoadOk {}).2.1).2.1).2.2 = [] ∧
    (SceneGL41MRT.setup { targets := "2" } exampleRecreateIncomplete
      (SceneGL41MRT.setup { targets := "2" } exampleRecreateIncomplete
        (SceneGL41MRT.load exampleMRTLoadOk {}).2.1).2.1).2.1.fbo =
      exampleRecreateIncomplete.fbo := by
  refine ⟨mrt_setup_repeated_result, by decide, by decide, by decide, ?_, by decide⟩
  rw [mrt_setup_repeated]

/-! ## Substring search -/

theorem startsWithChars_iff (s pat : List Char) :
    startsWithChars s pat = true ↔ pat <+: s := by
  induction pat generalizing s with
  | nil =>
    cases s <;> simp [startsWithChars]
  | cons q qs ih =>
    cases s with
    | nil => simp [startsWithChars]
    | cons c cs =>
      simp only [startsWithChars, Bool.and_eq_true, decide_eq_true_eq, ih, List.cons_prefix_cons]
      constructor
      · rintro ⟨h1, h2⟩
        exact ⟨h1.symm, h2⟩
      · rintro ⟨h1, h2⟩
        exact ⟨h1.symm, h2⟩

theorem findChars_none (pat : List Char) (l : List Char) (i : Nat)
    (h : findChars pat l i = none) : ∀ k, k ≤ l.length → ¬ pat <+: l.drop k := by
  induction l generalizing i with
  | nil =>
    intro k hk
    simp only [findChars] at h
    split at h
    · exact absurd h (by simp)
    · rename_i hp
      simp only [List.drop_nil, List.prefix_nil]
      exact hp
  | cons c cs ih =>
    intro k hk
    simp only [findChars] at h
    split at h
    · exact absurd h (by simp)
    · rename_i hs
      cases k with
      | zero =>
        rw [List.drop_zero, ← startsWithChars_iff]
        exact hs
      | succ k =>
        rw [List.drop_succ_cons]
        exact ih (i + 1) h k (by simpa using hk)

theorem findChars_some (pat : List Char) (l : List Char) (i p : Nat)
    (h : findChars pat l i = some p) :
    ∃ k, p = i + k ∧ k ≤ l.length ∧ pat <+: l.drop k ∧ ∀ j, j < k → ¬ pat <+: l.drop j := by
  induction l generalizing i with
  | nil =>
    simp only [findChars] at h
    split at h
    · rename_i hp
      refine ⟨0, ?_, Nat.le_refl _, ?_, fun j hj => absurd hj (Nat.not_lt_zero j)⟩
      · simpa using (Option.some.inj h).symm
      · rw [hp]
        exact List.nil_prefix
    · exact absurd h (by simp)
  | cons c cs ih =>
    simp only [findChars] at h
    split at h
    · rename_i hs
      refine ⟨0, ?_, Nat.zero_le _, ?_, fun j hj => absurd hj (Nat.not_lt_zero j)⟩
      · simpa using (Option.some.inj h).symm
      · rw [List.drop_zero, ← startsWithChars_iff]
        exact hs
    · rename_i hs
      obtain ⟨k, hp, hk, hpre, hfirst⟩ := ih (i + 1) h
      refine ⟨k + 1, by omega, by simpa using hk, ?_, ?_⟩
      · rw [List.drop_succ_cons]
        exact hpre
      · intro j hj
        cases j with
        | zero =>
          rw [List.drop_zero, ← startsWithChars_iff]
          exact hs
        | succ j =>
          rw [List.drop_succ_cons]
          exact hfirst j (by omega)

theorem listFind_none (s pat : List Char) (pos : Nat) (hpos : pos ≤ s.length)
    (h : listFind s pat pos = none) :
    ∀ q, pos ≤ q → q ≤ s.length → ¬ pat <+: s.drop q := by
  intro q hq hql
  unfold listFind at h
  rw [if_neg (by omega)] at h
  have := findChars_none pat (s.drop pos) pos h (q - pos) (by simp; omega)
  rw [List.drop_drop] at this
  have e : pos + (q - pos) = q := by omega
  rw [e] at this
  exact this

theorem listFind_some (s pat : List Char) (pos p : Nat)
    (h : listFind s pat pos = some p) :
    pos ≤ p ∧ p + pat.length ≤ s.length ∧ pat <+: s.drop p ∧
      ∀ q, pos ≤ q → q < p → ¬ pat <+: s.drop q := by
  unfold listFind at h
  split at h
  · exact absurd h (by simp)
  · rename_i hpos
    obtain ⟨k, hp, hk, hpre, hfirst⟩ := findChars_some pat (s.drop pos) pos p h
    rw [List.drop_drop] at hpre
    subst hp
    have hlen := hpre.length_le
    simp only [List.length_drop] at hlen hk
    refine ⟨by omega, ?_, hpre, ?_⟩
    · by_cases hz : pat.length = 0
      · omega
      · omega
    · intro q hq hqp
      have := hfirst (q - pos) (by omega)
      rw [List.drop_drop] at this
      have e : pos + (q - pos) = q := by omega
      rw [e] at this
      exact this

/-! ## The token scan of `GLExtensions::support` -/

theorem getD_of_prefix_drop (s w : List Char) (p j : Nat) (d : Char)
    (h : w <+: s.drop p) (hj : j < w.length) : s.getD (p + j) d = w.getD j d := by
  obtain ⟨t, ht⟩ := h
  have hs : s = s.take p ++ (w ++ t) := by
    rw [ht, List.take_append_drop]
  have hp : p ≤ s.length := by
    by_contra hc
    have : s.drop p = [] := List.drop_eq_nil_of_le (by omega)
    rw [this] at ht
    have hw : w = [] := by
      cases w with
      | nil => rfl
      | cons a w => simp at ht
    subst hw
    exact absurd hj (by simp)
  have hlen : (s.take p).length = p := by simp [hp]
  rw [hs, List.getD_eq_getElem?_getD, List.getD_eq_getElem?_getD,
    List.getElem?_append_right (by omega), hlen]
  have e : p + j - p = j := by omega
  rw [e, List.getElem?_append_left hj]

theorem support_scan_spec (s w : List Char) (hw : w ≠ []) (hsp : ' ' ∉ w) :
    ∀ (fuel pos : Nat), pos ≤ s.length → s.length - pos < fuel →
      (GLExtensions.support_scan s w fuel pos = true ↔ ∃ q, pos ≤ q ∧ TokenAt s w q) := by
  have hwl : 0 < w.length := List.length_pos.mpr hw
  intro fuel
  induction fuel with
  | zero => intro pos _ h; exact absurd h (Nat.not_lt_zero _)
  | succ fuel ih =>
    intro pos hpos hfuel
    unfold GLExtensions.support_scan
    cases hfind : listFind s w pos with
    | none =>
      simp only [Bool.false_eq_true, false_iff]
      rintro ⟨q, hq, hpre, _, _⟩
      have hql : q ≤ s.length := by
        by_contra hc
        have : s.drop q = [] := List.drop_eq_nil_of_le (by omega)
        rw [this, List.prefix_nil] at hpre
        exact hw hpre
      exact listFind_none s w pos hpos hfind q hq hql hpre
    | some p =>
      obtain ⟨hp1, hp2, hpre, hfirst⟩ := listFind_some s w pos p hfind
      dsimp only
      by_cases hok : ((decide (p = 0) || decide (s.getD (p - 1) ' ' = ' ')) &&
          (decide (p + w.length = s.length) || decide (s.getD (p + w.length) ' ' = ' '))) = true
      · rw [if_pos hok]
        simp only [true_iff]
        refine ⟨p, hp1, hpre, ?_, ?_⟩
        · simp only [Bool.and_eq_true, Bool.or_eq_true, decide_eq_true_eq] at hok
          exact hok.1
        · simp only [Bool.and_eq_true, Bool.or_eq_true, decide_eq_true_eq] at hok
          exact hok.2
      · rw [if_neg hok]
        rw [ih (p + w.length) hp2 (by omega)]
        constructor
        · rintro ⟨q, hq, ht⟩
          exact ⟨q, by omega, ht⟩
        · rintro ⟨q, hq, hqpre, hqb, hqa⟩
          refine ⟨q, ?_, hqpre, hqb, hqa⟩
          by_contra hlt
          have hqp : p ≤ q := by
            by_contra hc
            exact hfirst q hq (by omega) hqpre
          by_cases heq : q = p
          · subst heq
            apply hok
            simp only [Bool.and_eq_true, Bool.or_eq_true, decide_eq_true_eq]
            exact ⟨hqb, hqa⟩
          · have hq0 : q ≠ 0 := by omega
            rcases hqb with hqb | hqb
            · exact hq0 hqb
            · have hj : q - 1 - p < w.length := by omega
              have := getD_of_prefix_drop s w p (q - 1 - p) ' ' hpre hj
              have e : p + (q - 1 - p) = q - 1 := by omega
              rw [e, hqb] at this
              apply hsp
              rw [this, List.getD_eq_getElem?_getD, List.getElem?_eq_getElem hj]
              exact List.getElem_mem _

theorem splitOn_append_sep (x y : List Char) :
    (x ++ ' ' :: y).splitOn ' ' = x.splitOn ' ' ++ y.splitOn ' ' := by
  unfold List.splitOn
  induction x with
  | nil => simp
  | cons c x ih =>
    rw [List.cons_append, List.splitOnP_cons, List.splitOnP_cons, ih]
    split
    · rfl
    · cases hx : List.splitOnP (fun x => x == ' ') x with
      | nil => exact absurd hx (List.splitOnP_ne_nil _ _)
      | cons t ts => rfl

theorem mem_splitOn_of_token (s w : List Char) (hsp : ' ' ∉ w)
    (h : ∃ a b, s = a ++ w ++ b ∧ (a = [] ∨ ∃ a', a = a' ++ [' ']) ∧
      (b = [] ∨ ∃ b', b = ' ' :: b')) : w ∈ s.splitOn ' ' := by
  have hw : ∀ x ∈ w, ¬ ((fun c : Char => c == ' ') x = true) := by
    intro x hx hc
    simp only [beq_iff_eq] at hc
    subst hc
    exact hsp hx
  have hsuffix : ∀ b, (b = [] ∨ ∃ b', b = ' ' :: b') → w ∈ (w ++ b).splitOn ' ' := by
    intro b hb
    rcases hb with rfl | ⟨b', rfl⟩
    · rw [List.append_nil]
      unfold List.splitOn
      rw [List.splitOnP_eq_single _ _ hw]
      exact List.mem_singleton_self _
    · unfold List.splitOn
      rw [List.splitOnP_first _ _ hw ' ' (by simp)]
      exact List.mem_cons_self _ _
  obtain ⟨a, b, rfl, ha, hb⟩ := h
  rcases ha with rfl | ⟨a', rfl⟩
  · rw [List.nil_append]
    exact hsuffix b hb
  · have e : a' ++ [' '] ++ w ++ b = a' ++ ' ' :: (w ++ b) := by simp
    rw [e, splitOn_append_sep]
    exact List.mem_append_right _ (hsuffix b hb)

theorem splitOn_decompose (s : List Char) :
    ∃ hd tl, s.splitOn ' ' = hd :: tl ∧
      (∃ b, s = hd ++ b ∧ (b = [] ∨ ∃ b', b = ' ' :: b')) ∧
      (∀ t ∈ tl, ∃ a b, s = a ++ ' ' :: t ++ b ∧ (b = [] ∨ ∃ b', b = ' ' :: b')) := by
  unfold List.splitOn
  induction s with
  | nil => exact ⟨[], [], rfl, ⟨[], rfl, Or.inl rfl⟩, fun t ht => absurd ht (List.not_mem_nil t)⟩
  | cons c cs ih =>
    obtain ⟨hd, tl, hsplit, ⟨b, hb, hbb⟩, htl⟩ := ih
    rw [List.splitOnP_cons, hsplit]
    by_cases hc : c = ' '
    · subst hc
      refine ⟨[], hd :: tl, by simp, ⟨' ' :: cs, rfl, Or.inr ⟨cs, rfl⟩⟩, ?_⟩
      intro t ht
      rcases List.mem_cons.mp ht with rfl | ht
      · exact ⟨[], b, by rw [hb]; simp, hbb⟩
      · obtain ⟨a, b2, h1, h2⟩ := htl t ht
        exact ⟨' ' :: a, b2, by rw [h1]; simp, h2⟩
    · refine ⟨c :: hd, tl, by simp [hc], ⟨b, by rw [hb]; simp, hbb⟩, ?_⟩
      intro t ht
      obtain ⟨a, b2, h1, h2⟩ := htl t ht
      exact ⟨c :: a, b2, by rw [h1]; simp, h2⟩

theorem token_of_mem_splitOn (s w : List Char) (h : w ∈ s.splitOn ' ') :
    ∃ a b, s = a ++ w ++ b ∧ (a = [] ∨ ∃ a', a = a' ++ [' ']) ∧
      (b = [] ∨ ∃ b', b = ' ' :: b') := by
  obtain ⟨hd, tl, hsplit, ⟨b, hb, hbb⟩, htl⟩ := splitOn_decompose s
  rw [hsplit] at h
  rcases List.mem_cons.mp h with rfl | h
  · exact ⟨[], b, by rw [List.nil_append]; exact hb, Or.inl rfl, hbb⟩
  · obtain ⟨a, b2, h1, h2⟩ := htl w h
    exact ⟨a ++ [' '], b2, by rw [h1]; simp, Or.inr ⟨a, rfl⟩, h2⟩

theorem tokenAt_of_decomposition (a w b : List Char)
    (ha : a = [] ∨ ∃ a', a = a' ++ [' ']) (hb : b = [] ∨ ∃ b', b = ' ' :: b') :
    TokenAt (a ++ w ++ b) w a.length := by
  refine ⟨?_, ?_, ?_⟩
  · rw [List.append_assoc, List.drop_left]
    exact List.prefix_append _ _
  · rcases ha with rfl | ⟨a', rfl⟩
    · exact Or.inl rfl
    · right
      have e : a' ++ [' '] ++ w ++ b = a' ++ ' ' :: (w ++ b) := by simp
      have e2 : (a' ++ [' ']).length - 1 = a'.length := by simp
      rw [e, e2, List.getD_eq_getElem?_getD, List.getElem?_append_right (Nat.le_refl _)]
      simp
  · rcases hb with rfl | ⟨b', rfl⟩
    · left
      simp
    · right
      have e : a ++ w ++ ' ' :: b' = (a ++ w) ++ ' ' :: b' := rfl
      rw [e, List.getD_eq_getElem?_getD, ← List.length_append,
        List.getElem?_append_right (Nat.le_refl _)]
      simp

theorem decomposition_of_tokenAt (s w : List Char) (q : Nat) (hw : w ≠ [])
    (h : TokenAt s w q) :
    ∃ a b, s = a ++ w ++ b ∧ (a = [] ∨ ∃ a', a = a' ++ [' ']) ∧
      (b = [] ∨ ∃ b', b = ' ' :: b') := by
  obtain ⟨⟨t, ht⟩, hbefore, hafter⟩ := h
  have hq : q < s.length := by
    by_contra hc
    have : s.drop q = [] := List.drop_eq_nil_of_le (by omega)
    rw [this] at ht
    cases w with
    | nil => exact hw rfl
    | cons c w => simp at ht
  have hs : s = s.take q ++ w ++ t := by
    rw [List.append_assoc, ht, List.take_append_drop]
  have hlen : s.length = q + w.length + t.length := by
    have := congrArg List.length hs
    simp only [List.length_append, List.length_take] at this
    omega
  refine ⟨s.take q, t, hs, ?_, ?_⟩
  · rcases hbefore with rfl | hbefore
    · exact Or.inl (List.take_zero _)
    · by_cases hq0 : q = 0
      · subst hq0
        exact Or.inl (List.take_zero _)
      · right
        refine ⟨s.take (q - 1), ?_⟩
        have e : q = (q - 1) + 1 := by omega
        have hin : q - 1 < s.length := by omega
        rw [List.getD_eq_getElem?_getD, List.getElem?_eq_getElem hin] at hbefore
        simp only [Option.getD_some] at hbefore
        conv_lhs => rw [e]
        rw [List.take_succ, List.getElem?_eq_getElem hin, hbefore]
        rfl
  · cases t with
    | nil => exact Or.inl rfl
    | cons c t' =>
      right
      refine ⟨t', ?_⟩
      rcases hafter with hafter | hafter
      · simp only [List.length_cons] at hlen
        omega
      · have hget : s.getD (q + w.length) ' ' = c := by
          have e : s = (s.take q ++ w) ++ c :: t' := hs
          have hl : (s.take q ++ w).length = q + w.length := by
            simp only [List.length_append, List.length_take]
            omega
          rw [e, List.getD_eq_getElem?_getD, ← hl, List.getElem?_append_right (Nat.le_refl _)]
          simp
        rw [hget] at hafter
        rw [hafter]

/-- Claim C28: for a non-empty legacy extension string and a non-empty name
`ext` without a space (other than `GL_ARB_depth_texture`, which may take the
core-profile shortcut), `GLExtensions::support(ext)` returns true exactly when
`ext` is one of the tokens obtained by splitting the extension string at its
spaces; so a name that is only part of a longer token does not match and no
token is missed by the scan that resumes after a rejected occurrence.  The
scan ends within `size + 1` iterations: more iterations give the same
result. -/
theorem support_matches_whole_tokens (cfg : BuildConfig) (e : SupportEnv) (ext exts : String)
    (hexts : e.core.extensions = some exts) (hne : exts.data ≠ [])
    (hext : ext.data ≠ []) (hsp : ' ' ∉ ext.data) (hshort : ext ≠ "GL_ARB_depth_texture") :
    (GLExtensions.support cfg e ext = true ↔ ext.data ∈ exts.data.splitOn ' ') ∧
    (∀ fuel, exts.data.length + 1 ≤ fuel →
      GLExtensions.support_scan exts.data ext.data fuel 0 =
        GLExtensions.support_scan exts.data ext.data (exts.data.length + 1) 0) := by
  have hscan : ∀ fuel, exts.data.length + 1 ≤ fuel →
      (GLExtensions.support_scan exts.data ext.data fuel 0 = true ↔
        ext.data ∈ exts.data.splitOn ' ') := by
    intro fuel hfuel
    rw [support_scan_spec exts.data ext.data hext hsp fuel 0 (Nat.zero_le _) (by omega)]
    constructor
    · rintro ⟨q, _, hq⟩
      exact mem_splitOn_of_token _ _ hsp (decomposition_of_tokenAt _ _ q hext hq)
    · intro hmem
      obtain ⟨a, b, hs, ha, hb⟩ := token_of_mem_splitOn _ _ hmem
      refine ⟨a.length, Nat.zero_le _, ?_⟩
      rw [hs]
      exact tokenAt_of_decomposition a ext.data b ha hb
  refine ⟨?_, ?_⟩
  · unfold GLExtensions.support
    rw [if_neg (fun h => hshort h.1)]
    simp only [hexts]
    rw [if_pos hne]
    exact hscan _ (Nat.le_refl _)
  · intro fuel hfuel
    rw [Bool.eq_iff_iff, hscan fuel hfuel, hscan _ (Nat.le_refl _)]

theorem support_matches_whole_tokens_witness :
    GLExtensions.support BuildConfig.desktop exampleSupportEnv "GL_EXT_foo" = true ∧
    ¬(GLExtensions.support BuildConfig.desktop exampleSupportEnv "GL_ARB_depth" = true) :=
  ⟨(support_matches_whole_tokens BuildConfig.desktop exampleSupportEnv "GL_EXT_foo"
      "GL_ARB_depth_texture GL_EXT_foo" rfl (by decide) (by decide) (by decide)
      (by decide)).1.mpr (by decide),
   fun h => absurd
    ((support_matches_whole_tokens BuildConfig.desktop exampleSupportEnv "GL_ARB_depth"
      "GL_ARB_depth_texture GL_EXT_foo" rfl (by decide) (by decide) (by decide)
      (by decide)).1.mp h) (by decide)⟩

/-! ## Word replacement in shader sources -/

section ReplaceWord

variable (from_ to_ : List Char)

theorem flushRun_nil (hne : from_ ≠ []) : flushRun from_ to_ [] = [] := by
  unfold flushRun
  rw [if_neg (fun h => hne h.symm)]

theorem flushRun_of_ne (run : List Char) (h : run ≠ from_) : flushRun from_ to_ run = run := by
  unfold flushRun
  rw [if_neg h]

theorem flushRun_self : flushRun from_ to_ from_ = to_ := by
  unfold flushRun
  rw [if_pos rfl]

theorem replaceIdentRuns_nil (hne : from_ ≠ []) : replaceIdentRuns from_ to_ [] = [] :=
  flushRun_nil from_ to_ hne

theorem replaceIdentRuns_cons_of_not_ident (hne : from_ ≠ []) (c : Char) (cs : List Char)
    (hc : is_ident_char c = false) :
    replaceIdentRuns from_ to_ (c :: cs) = c :: replaceIdentRuns from_ to_ cs := by
  unfold replaceIdentRuns
  rw [replaceIdentRunsGo]
  simp only [hc, Bool.false_eq_true, if_false, flushRun_nil from_ to_ hne, List.nil_append]

theorem go_append_ident (run r y : List Char) (hr : ∀ c ∈ r, is_ident_char c = true) :
    replaceIdentRunsGo from_ to_ run (r ++ y) = replaceIdentRunsGo from_ to_ (run ++ r) y := by
  induction r generalizing run with
  | nil => simp
  | cons c r ih =>
    rw [List.cons_append, replaceIdentRunsGo, if_pos (hr c (List.mem_cons_self _ _)),
      ih _ (fun x hx => hr x (List.mem_cons_of_mem _ hx))]
    simp

theorem copyRun_append_ident (r y : List Char) (hr : ∀ c ∈ r, is_ident_char c = true) :
    copyRunThenReplace from_ to_ (r ++ y) = r ++ copyRunThenReplace from_ to_ y := by
  induction r with
  | nil => rfl
  | cons c r ih =>
    rw [List.cons_append, copyRunThenReplace, if_pos (hr c (List.mem_cons_self _ _)),
      ih (fun x hx => hr x (List.mem_cons_of_mem _ hx))]
    rfl

theorem copyRun_of_not_startsWithIdent (hne : from_ ≠ []) (y : List Char)
    (hy : startsWithIdent y = false) :
    copyRunThenReplace from_ to_ y = replaceIdentRuns from_ to_ y := by
  cases y with
  | nil => exact (replaceIdentRuns_nil from_ to_ hne).symm
  | cons c cs =>
    have hc : is_ident_char c = false := hy
    rw [copyRunThenReplace, replaceIdentRuns_cons_of_not_ident from_ to_ hne c cs hc]
    simp [hc]

theorem go_long_run (run y : List Char) (hlen : from_.length < run.length) :
    replaceIdentRunsGo from_ to_ run y = run ++ copyRunThenReplace from_ to_ y := by
  induction y generalizing run with
  | nil =>
    rw [replaceIdentRunsGo, flushRun_of_ne]
    · simp [copyRunThenReplace]
    · intro h
      rw [h] at hlen
      exact Nat.lt_irrefl _ hlen
  | cons c cs ih =>
    rw [replaceIdentRunsGo, copyRunThenReplace]
    by_cases hc : is_ident_char c = true
    · rw [if_pos hc, if_pos hc, ih _ (by simp; omega)]
      simp
    · rw [if_neg hc, if_neg hc, flushRun_of_ne]
      · rfl
      · intro h
        rw [h] at hlen
        exact Nat.lt_irrefl _ hlen

theorem noOcc_mono {pat : List Char} {m n : Nat} {l : List Char} (hmn : m ≤ n)
    (h : NoOccurrenceBefore pat n l) : NoOccurrenceBefore pat m l :=
  fun j hj => h j (Nat.lt_of_lt_of_le hj hmn)

theorem noOcc_drop_prefix {pat : List Char} {n : Nat} (p l : List Char)
    (h : NoOccurrenceBefore pat (p.length + n) (p ++ l)) : NoOccurrenceBefore pat n l := by
  intro j hj hpre
  apply h (p.length + j) (by omega)
  rw [← List.drop_drop, List.drop_left]
  exact hpre

theorem noOcc_not_prefix {pat : List Char} {n : Nat} {l : List Char}
    (h : NoOccurrenceBefore pat n l) (hn : 0 < n) : ¬ pat <+: l := by
  have := h 0 hn
  rwa [List.drop_zero] at this

theorem endsWithIdent_append_singleton (l : List Char) (c : Char) :
    endsWithIdent (l ++ [c]) = is_ident_char c := by
  simp [endsWithIdent]

theorem endsWithIdent_append_of_ne_nil (l a : List Char) (ha : a ≠ []) :
    endsWithIdent (l ++ a) = endsWithIdent a := by
  unfold endsWithIdent
  rw [List.getLast?_append_of_ne_nil _ ha]

theorem endsWithIdent_nil : endsWithIdent [] = false := rfl

theorem go_copy_of_noOcc (hne : from_ ≠ []) (y run : List Char)
    (h : NoOccurrenceBefore from_ (run ++ y).length (run ++ y)) :
    replaceIdentRunsGo from_ to_ run y = run ++ y := by
  induction y generalizing run with
  | nil =>
    rw [replaceIdentRunsGo, List.append_nil, flushRun_of_ne]
    intro hr
    subst hr
    refine noOcc_not_prefix h ?_ (List.prefix_append _ _)
    rw [List.length_append]
    have := List.length_pos.mpr hne
    omega
  | cons c cs ih =>
    have hrun : run ≠ from_ := by
      intro hr
      subst hr
      refine noOcc_not_prefix h ?_ (List.prefix_append _ _)
      simp
    rw [replaceIdentRunsGo]
    by_cases hc : is_ident_char c = true
    · rw [if_pos hc, ih (run ++ [c]) (by simpa using h)]
      simp
    · rw [if_neg hc, flushRun_of_ne _ _ _ hrun, ih [] ?_]
      · rfl
      · rw [List.nil_append]
        apply noOcc_drop_prefix (run ++ [c])
        have e : run ++ [c] ++ cs = run ++ c :: cs := by simp
        rw [e]
        refine noOcc_mono ?_ h
        simp only [List.length_append, List.length_cons, List.length_nil]
        omega

theorem replaceIdentRuns_of_noOcc (hne : from_ ≠ []) (y : List Char)
    (h : NoOccurrenceBefore from_ y.length y) : replaceIdentRuns from_ to_ y = y :=
  go_copy_of_noOcc from_ to_ hne y [] h

theorem copyRun_of_noOcc (hne : from_ ≠ []) (y : List Char)
    (h : NoOccurrenceBefore from_ y.length y) : copyRunThenReplace from_ to_ y = y := by
  induction y with
  | nil => rfl
  | cons c cs ih =>
    have hcs : NoOccurrenceBefore from_ cs.length cs := by
      apply noOcc_drop_prefix [c]
      refine noOcc_mono ?_ h
      simp
      omega
    rw [copyRunThenReplace]
    by_cases hc : is_ident_char c = true
    · rw [if_pos hc, ih hcs]
    · rw [if_neg hc, replaceIdentRuns_of_noOcc from_ to_ hne cs hcs]

theorem go_until_separator (hne : from_ ≠ []) (c : Char) (y : List Char)
    (hc : is_ident_char c = false) (a run : List Char)
    (h : NoOccurrenceBefore from_ (run ++ a).length (run ++ a ++ c :: y)) :
    replaceIdentRunsGo from_ to_ run (a ++ c :: y) =
      run ++ a ++ c :: replaceIdentRuns from_ to_ y := by
  induction a generalizing run with
  | nil =>
    have hrun : run ≠ from_ := by
      intro hr
      subst hr
      refine noOcc_not_prefix h ?_ ?_
      · simpa using List.length_pos.mpr hne
      · rw [List.append_nil]
        exact List.prefix_append _ _
    rw [List.nil_append, replaceIdentRunsGo]
    simp only [hc, Bool.false_eq_true, if_false, flushRun_of_ne _ _ _ hrun, List.append_nil]
    rfl
  | cons x a ih =>
    have hrun : run ≠ from_ := by
      intro hr
      subst hr
      refine noOcc_not_prefix h ?_ ?_
      · simp
      · rw [List.append_assoc]
        exact List.prefix_append _ _
    rw [List.cons_append, replaceIdentRunsGo]
    by_cases hx : is_ident_char x = true
    · rw [if_pos hx, ih (run ++ [x]) (by simpa using h)]
      simp
    · rw [if_neg hx, flushRun_of_ne _ _ _ hrun, ih [] ?_]
      · simp
      · have e : run ++ [x] ++ (a ++ c :: y) = run ++ x :: a ++ c :: y := by simp
        have hd : NoOccurrenceBefore from_ a.length (a ++ c :: y) := by
          apply noOcc_drop_prefix (run ++ [x])
          rw [e]
          refine noOcc_mono ?_ h
          simp only [List.length_append, List.length_cons, List.length_nil]
          omega
        simpa using hd

theorem copyRun_until_separator (hne : from_ ≠ []) (c : Char) (y : List Char)
    (hc : is_ident_char c = false) (a : List Char)
    (h : NoOccurrenceBefore from_ a.length (a ++ c :: y)) :
    copyRunThenReplace from_ to_ (a ++ c :: y) = a ++ c :: replaceIdentRuns from_ to_ y := by
  induction a with
  | nil =>
    rw [List.nil_append, copyRunThenReplace]
    simp [hc]
  | cons x a ih =>
    have hrest : NoOccurrenceBefore from_ a.length (a ++ c :: y) := by
      apply noOcc_drop_prefix [x]
      refine noOcc_mono ?_ h
      simp
      omega
    rw [List.cons_append, copyRunThenReplace]
    by_cases hx : is_ident_char x = true
    · rw [if_pos hx, ih hrest]
      rfl
    · rw [if_neg hx]
      have := go_until_separator from_ to_ hne c y hc a [] (by simpa using hrest)
      have e : replaceIdentRuns from_ to_ (a ++ c :: y) =
          replaceIdentRunsGo from_ to_ [] (a ++ c :: y) := rfl
      rw [e, this]
      simp

theorem go_rejected (hne : from_ ≠ []) (hid : ∀ c ∈ from_, is_ident_char c = true)
    (b a run : List Char) (hend : endsWithIdent (run ++ a) = true)
    (h : NoOccurrenceBefore from_ (run ++ a).length (run ++ a ++ from_ ++ b)) :
    replaceIdentRunsGo from_ to_ run (a ++ from_ ++ b) =
      run ++ a ++ from_ ++ copyRunThenReplace from_ to_ b := by
  induction a generalizing run with
  | nil =>
    have hrun : run ≠ [] := by
      intro hr
      subst hr
      exact absurd hend (by simp [endsWithIdent_nil])
    have hlen : from_.length < (run ++ from_).length := by
      have := List.length_pos.mpr hrun
      simp only [List.length_append]
      omega
    rw [List.nil_append, go_append_ident from_ to_ run from_ b hid,
      go_long_run from_ to_ _ _ hlen]
    simp
  | cons x a ih =>
    have hrun : run ≠ from_ := by
      intro hr
      subst hr
      refine noOcc_not_prefix h ?_ ?_
      · simp
      · rw [List.append_assoc, List.append_assoc]
        exact List.prefix_append _ _
    rw [List.cons_append, List.cons_append, replaceIdentRunsGo]
    by_cases hx : is_ident_char x = true
    · rw [if_pos hx, ih (run ++ [x]) (by simpa using hend)
        (by simpa using h)]
      simp
    · rw [if_neg hx, flushRun_of_ne _ _ _ hrun]
      have ha : a ≠ [] := by
        intro ha
        subst ha
        have e : run ++ [x] = run ++ [x] := rfl
        rw [endsWithIdent_append_singleton] at hend
        exact hx hend
      have hend' : endsWithIdent a = true := by
        have e : run ++ x :: a = (run ++ [x]) ++ a := by simp
        rw [e, endsWithIdent_append_of_ne_nil _ _ ha] at hend
        exact hend
      have hd : NoOccurrenceBefore from_ a.length (a ++ from_ ++ b) := by
        apply noOcc_drop_prefix (run ++ [x])
        have e : run ++ [x] ++ (a ++ from_ ++ b) = run ++ x :: a ++ from_ ++ b := by simp
        rw [e]
        refine noOcc_mono ?_ h
        simp only [List.length_append, List.length_cons, List.length_nil]
        omega
      rw [ih [] (by simpa using hend') (by simpa using hd)]
      simp

theorem copyRun_rejected (hne : from_ ≠ []) (hid : ∀ c ∈ from_, is_ident_char c = true)
    (b a : List Char) (hend : endsWithIdent a = true)
    (h : NoOccurrenceBefore from_ a.length (a ++ from_ ++ b)) :
    copyRunThenReplace from_ to_ (a ++ from_ ++ b) =
      a ++ from_ ++ copyRunThenReplace from_ to_ b := by
  induction a with
  | nil => exact absurd hend (by simp [endsWithIdent_nil])
  | cons x a ih =>
    have hd : NoOccurrenceBefore from_ a.length (a ++ from_ ++ b) := by
      apply noOcc_drop_prefix [x]
      refine noOcc_mono ?_ h
      simp only [List.length_append, List.length_cons, List.length_nil]
      omega
    rw [List.cons_append, List.cons_append, copyRunThenReplace]
    by_cases hx : is_ident_char x = true
    · rw [if_pos hx]
      by_cases ha : a = []
      · subst ha
        rw [List.nil_append, copyRun_append_ident from_ to_ from_ b hid]
        rfl
      · have hend' : endsWithIdent a = true := by
          have e : x :: a = [x] ++ a := rfl
          rw [e, endsWithIdent_append_of_ne_nil _ _ ha] at hend
          exact hend
        rw [ih hend' hd]
        simp
    · rw [if_neg hx]
      have ha : a ≠ [] := by
        intro ha
        subst ha
        have e : [x] = [] ++ [x] := rfl
        rw [e, endsWithIdent_append_singleton] at hend
        exact hx hend
      have hend' : endsWithIdent a = true := by
        have e : x :: a = [x] ++ a := rfl
        rw [e, endsWithIdent_append_of_ne_nil _ _ ha] at hend
        exact hend
      have := go_rejected from_ to_ hne hid b a [] (by simpa using hend') (by simpa using hd)
      have e : replaceIdentRuns from_ to_ (a ++ from_ ++ b) =
          replaceIdentRunsGo from_ to_ [] (a ++ from_ ++ b) := rfl
      rw [e, this]
      simp

theorem eq_nil_or_append_singleton (a : List Char) : a = [] ∨ ∃ a' c, a = a' ++ [c] := by
  rcases List.eq_nil_or_concat a with h | ⟨a', c, h⟩
  · exact Or.inl h
  · exact Or.inr ⟨a', c, by rw [h, List.concat_eq_append]⟩

theorem replaceIdentRuns_word (hne : from_ ≠ []) (hid : ∀ c ∈ from_, is_ident_char c = true)
    (b : List Char) (hb : startsWithIdent b = false) :
    replaceIdentRuns from_ to_ (from_ ++ b) = to_ ++ replaceIdentRuns from_ to_ b := by
  have e : replaceIdentRuns from_ to_ (from_ ++ b) = replaceIdentRunsGo from_ to_ [] (from_ ++ b) :=
    rfl
  rw [e, go_append_ident from_ to_ [] from_ b hid, List.nil_append]
  cases b with
  | nil =>
    rw [replaceIdentRunsGo, flushRun_self, replaceIdentRuns_nil from_ to_ hne, List.append_nil]
  | cons c cs =>
    have hc : is_ident_char c = false := hb
    rw [replaceIdentRunsGo, replaceIdentRuns_cons_of_not_ident from_ to_ hne c cs hc]
    simp only [hc, Bool.false_eq_true, if_false, flushRun_self]
    rfl

theorem replaceIdentRuns_word_continued (hid : ∀ c ∈ from_, is_ident_char c = true)
    (b : List Char) (hb : startsWithIdent b = true) :
    replaceIdentRuns from_ to_ (from_ ++ b) = from_ ++ copyRunThenReplace from_ to_ b := by
  have e : replaceIdentRuns from_ to_ (from_ ++ b) = replaceIdentRunsGo from_ to_ [] (from_ ++ b) :=
    rfl
  rw [e, go_append_ident from_ to_ [] from_ b hid, List.nil_append]
  cases b with
  | nil => exact absurd hb (by simp [startsWithIdent])
  | cons c cs =>
    have hc : is_ident_char c = true := hb
    rw [replaceIdentRunsGo, copyRunThenReplace, if_pos hc, if_pos hc,
      go_long_run from_ to_ _ _ (by simp)]
    simp

theorem remaining_of_noOcc (hne : from_ ≠ []) (f : Bool) (rest : List Char)
    (h : NoOccurrenceBefore from_ rest.length rest) :
    (if f = true then copyRunThenReplace from_ to_ rest else replaceIdentRuns from_ to_ rest) =
      rest := by
  cases f
  · exact replaceIdentRuns_of_noOcc from_ to_ hne rest h
  · exact copyRun_of_noOcc from_ to_ hne rest h

theorem remaining_accept (hne : from_ ≠ []) (hid : ∀ c ∈ from_, is_ident_char c = true)
    (pre a b : List Char) (hfirst : NoOccurrenceBefore from_ a.length (a ++ from_ ++ b))
    (hbefore : endsWithIdent (pre ++ a) = false) (hafter : startsWithIdent b = false) :
    (if endsWithIdent pre = true then copyRunThenReplace from_ to_ (a ++ from_ ++ b)
      else replaceIdentRuns from_ to_ (a ++ from_ ++ b)) =
      a ++ to_ ++ replaceIdentRuns from_ to_ b := by
  rcases eq_nil_or_append_singleton a with rfl | ⟨a', c, rfl⟩
  · rw [List.append_nil] at hbefore
    rw [hbefore]
    simp only [Bool.false_eq_true, if_false, List.nil_append]
    exact replaceIdentRuns_word from_ to_ hne hid b hafter
  · have hc : is_ident_char c = false := by
      rw [← List.append_assoc, endsWithIdent_append_singleton] at hbefore
      exact hbefore
    have e : a' ++ [c] ++ from_ ++ b = a' ++ c :: (from_ ++ b) := by simp
    have hd : NoOccurrenceBefore from_ a'.length (a' ++ c :: (from_ ++ b)) := by
      rw [← e]
      refine noOcc_mono ?_ hfirst
      simp
    rw [e, copyRun_until_separator from_ to_ hne c _ hc a' hd]
    have e2 : replaceIdentRuns from_ to_ (a' ++ c :: (from_ ++ b)) =
        replaceIdentRunsGo from_ to_ [] (a' ++ c :: (from_ ++ b)) := rfl
    rw [e2, go_until_separator from_ to_ hne c _ hc a' [] (by simpa using hd),
      replaceIdentRuns_word from_ to_ hne hid b hafter]
    simp

theorem remaining_reject (hne : from_ ≠ []) (hid : ∀ c ∈ from_, is_ident_char c = true)
    (pre a b : List Char) (hfirst : NoOccurrenceBefore from_ a.length (a ++ from_ ++ b))
    (hno : ¬(endsWithIdent (pre ++ a) = false ∧ startsWithIdent b = false)) :
    (if endsWithIdent pre = true then copyRunThenReplace from_ to_ (a ++ from_ ++ b)
      else replaceIdentRuns from_ to_ (a ++ from_ ++ b)) =
      a ++ from_ ++ copyRunThenReplace from_ to_ b := by
  rcases eq_nil_or_append_singleton a with rfl | ⟨a', c, rfl⟩
  · rw [List.append_nil] at hno
    simp only [List.nil_append]
    cases hpre : endsWithIdent pre
    · simp only [Bool.false_eq_true, if_false]
      have hb : startsWithIdent b = true := by
        cases hb : startsWithIdent b
        · exact absurd ⟨hpre, hb⟩ hno
        · rfl
      exact replaceIdentRuns_word_continued from_ to_ hid b hb
    · simp only [if_true]
      exact copyRun_append_ident from_ to_ from_ b hid
  · rw [← List.append_assoc, endsWithIdent_append_singleton] at hno
    cases hc : is_ident_char c
    · have hb : startsWithIdent b = true := by
        cases hb : startsWithIdent b
        · exact absurd ⟨hc, hb⟩ hno
        · rfl
      have e : a' ++ [c] ++ from_ ++ b = a' ++ c :: (from_ ++ b) := by simp
      have hd : NoOccurrenceBefore from_ a'.length (a' ++ c :: (from_ ++ b)) := by
        rw [← e]
        refine noOcc_mono ?_ hfirst
        simp
      rw [e, copyRun_until_separator from_ to_ hne c _ hc a' hd]
      have e2 : replaceIdentRuns from_ to_ (a' ++ c :: (from_ ++ b)) =
          replaceIdentRunsGo from_ to_ [] (a' ++ c :: (from_ ++ b)) := rfl
      rw [e2, go_until_separator from_ to_ hne c _ hc a' [] (by simpa using hd),
        replaceIdentRuns_word_continued from_ to_ hid b hb]
      simp
    · have hend : endsWithIdent (a' ++ [c]) = true := by
        rw [endsWithIdent_append_singleton]
        exact hc
      rw [copyRun_rejected from_ to_ hne hid b _ hend hfirst]
      have e2 : replaceIdentRuns from_ to_ (a' ++ [c] ++ from_ ++ b) =
          replaceIdentRunsGo from_ to_ [] (a' ++ [c] ++ from_ ++ b) := rfl
      rw [e2, go_rejected from_ to_ hne hid b _ [] (by simpa using hend)
        (by simpa using hfirst)]
      simp

end ReplaceWord

theorem listFind_decompose (pre rest pat : List Char) (p : Nat)
    (h : listFind (pre ++ rest) pat pre.length = some p) :
    ∃ a b, rest = a ++ pat ++ b ∧ p = pre.length + a.length ∧
      NoOccurrenceBefore pat a.length (a ++ pat ++ b) := by
  obtain ⟨hp1, hp2, ⟨b, hb⟩, hfirst⟩ := listFind_some _ _ _ _ h
  have hdrop : (pre ++ rest).drop p = rest.drop (p - pre.length) := by
    have e : p = pre.length + (p - pre.length) := by omega
    conv_lhs => rw [e]
    rw [← List.drop_drop, List.drop_left]
  rw [hdrop] at hb
  have hk : p - pre.length ≤ rest.length := by
    rw [List.length_append] at hp2
    omega
  have hrest : rest = rest.take (p - pre.length) ++ pat ++ b := by
    rw [List.append_assoc, hb, List.take_append_drop]
  have hlen : (rest.take (p - pre.length)).length = p - pre.length := by
    rw [List.length_take]
    omega
  refine ⟨rest.take (p - pre.length), b, hrest, by omega, ?_⟩
  rw [← hrest, hlen]
  intro j hj hpre
  apply hfirst (pre.length + j) (by omega) (by omega)
  rw [← List.drop_drop, List.drop_left]
  exact hpre

theorem noOcc_of_listFind_none (pre rest pat : List Char)
    (h : listFind (pre ++ rest) pat pre.length = none) :
    NoOccurrenceBefore pat rest.length rest := by
  intro j hj hpre
  apply listFind_none _ _ _ (by simp) h (pre.length + j) (by omega) (by simp; omega)
  rw [← List.drop_drop, List.drop_left]
  exact hpre

theorem ok_before_eq (l x : List Char) :
    (decide (l.length = 0) || !is_ident_char ((l ++ x).getD (l.length - 1) ' ')) =
      !endsWithIdent l := by
  rcases eq_nil_or_append_singleton l with rfl | ⟨l', c, rfl⟩
  · rfl
  · have e1 : (l' ++ [c]).length - 1 = l'.length := by simp
    have e2 : l' ++ [c] ++ x = l' ++ c :: x := by simp
    rw [endsWithIdent_append_singleton, e1, e2, List.getD_eq_getElem?_getD,
      List.getElem?_append_right (Nat.le_refl _)]
    simp

theorem ok_after_eq (l b : List Char) :
    (decide (l.length ≥ (l ++ b).length) || !is_ident_char ((l ++ b).getD l.length ' ')) =
      !startsWithIdent b := by
  cases b with
  | nil => simp [startsWithIdent]
  | cons c cs =>
    rw [List.getD_eq_getElem?_getD, List.getElem?_append_right (Nat.le_refl _)]
    simp [startsWithIdent]

theorem endsWithIdent_append_word (from_ : List Char) (hne : from_ ≠ [])
    (hid : ∀ c ∈ from_, is_ident_char c = true) (l : List Char) :
    endsWithIdent (l ++ from_) = true := by
  rcases eq_nil_or_append_singleton from_ with rfl | ⟨f', c, rfl⟩
  · exact absurd rfl hne
  · rw [← List.append_assoc, endsWithIdent_append_singleton]
    exact hid c (by simp)

theorem replace_word_loop_spec (from_ to_ : List Char) (hne : from_ ≠ [])
    (hid : ∀ c ∈ from_, is_ident_char c = true) :
    ∀ (fuel : Nat) (pre rest : List Char), rest.length < fuel →
      replace_word_loop from_ to_ fuel (pre ++ rest) pre.length =
        pre ++ (if endsWithIdent pre = true then copyRunThenReplace from_ to_ rest
                else replaceIdentRuns from_ to_ rest) := by
  intro fuel
  induction fuel with
  | zero => intro _ _ h; exact absurd h (Nat.not_lt_zero _)
  | succ fuel ih =>
    intro pre rest hfuel
    unfold replace_word_loop
    cases hfind : listFind (pre ++ rest) from_ pre.length with
    | none =>
      dsimp only
      rw [remaining_of_noOcc from_ to_ hne _ rest (noOcc_of_listFind_none _ _ _ hfind)]
    | some p =>
      obtain ⟨a, b, rfl, rfl, hfirst⟩ := listFind_decompose _ _ _ _ hfind
      have hfl := List.length_pos.mpr hne
      have hlen : b.length < fuel := by
        simp only [List.length_append] at hfuel
        omega
      have e1 : pre ++ (a ++ from_ ++ b) = (pre ++ a) ++ (from_ ++ b) := by simp
      have e2 : pre ++ (a ++ from_ ++ b) = (pre ++ a ++ from_) ++ b := by simp
      have l1 : pre.length + a.length = (pre ++ a).length := by simp
      have l2 : pre.length + a.length + from_.length = (pre ++ a ++ from_).length := by
        simp only [List.length_append]
      have l3 : pre.length + a.length + to_.length = (pre ++ a ++ to_).length := by
        simp only [List.length_append]
      have hb1 : (decide (pre.length + a.length = 0) ||
          !is_ident_char ((pre ++ (a ++ from_ ++ b)).getD (pre.length + a.length - 1) ' ')) =
          !endsWithIdent (pre ++ a) := by
        rw [e1, l1]
        exact ok_before_eq _ _
      have hb2 : (decide (pre.length + a.length + from_.length ≥
            (pre ++ (a ++ from_ ++ b)).length) ||
          !is_ident_char ((pre ++ (a ++ from_ ++ b)).getD
            (pre.length + a.length + from_.length) ' ')) = !startsWithIdent b := by
        rw [e2, l2]
        exact ok_after_eq _ _
      have htake : (pre ++ (a ++ from_ ++ b)).take (pre.length + a.length) = pre ++ a := by
        rw [e1, l1, List.take_left]
      have hdrop : (pre ++ (a ++ from_ ++ b)).drop (pre.length + a.length + from_.length) =
          b := by
        rw [e2, l2, List.drop_left]
      dsimp only
      rw [hb1, hb2, htake, hdrop]
      by_cases hok : (!endsWithIdent (pre ++ a) && !startsWithIdent b) = true
      · rw [if_pos hok]
        simp only [Bool.and_eq_true, Bool.not_eq_true'] at hok
        rw [l3, ih (pre ++ a ++ to_) b hlen,
          remaining_accept from_ to_ hne hid pre a b hfirst hok.1 hok.2]
        have hK := copyRun_of_not_startsWithIdent from_ to_ hne b hok.2
        rw [hK]
        simp
      · rw [if_neg hok]
        have hno : ¬(endsWithIdent (pre ++ a) = false ∧ startsWithIdent b = false) := by
          intro h
          apply hok
          simp [h.1, h.2]
        rw [l2, e2, ih (pre ++ a ++ from_) b hlen,
          endsWithIdent_append_word from_ hne hid,
          remaining_reject from_ to_ hne hid pre a b hfirst hno]
        simp

/-- Claim C29: for every string `s`, every non-empty `from` made only of
identifier characters and every `to`, `replace_word(s, from, to)` ends and
leaves in `s` the text in which exactly the maximal identifier runs equal to
`from` are replaced by `to`, every other character unchanged and in order
(`replaceIdentRuns`); an occurrence of `from` inside a longer identifier is
part of a run that differs from `from` and is kept, and the inserted text is
not scanned again.  The loop needs at most `size + 1` iterations: with any
larger bound the result is the same. -/
theorem replace_word_replaces_whole_identifiers (s from_ to_ : String)
    (hne : from_.data ≠ []) (hid : ∀ c ∈ from_.data, is_ident_char c = true) :
    (replace_word s from_ to_).data = replaceIdentRuns from_.data to_.data s.data ∧
    (∀ fuel, s.data.length + 1 ≤ fuel →
      replace_word_loop from_.data to_.data fuel s.data 0 =
        replaceIdentRuns from_.data to_.data s.data) := by
  have hloop : ∀ fuel, s.data.length + 1 ≤ fuel →
      replace_word_loop from_.data to_.data fuel s.data 0 =
        replaceIdentRuns from_.data to_.data s.data := by
    intro fuel hfuel
    have h := replace_word_loop_spec from_.data to_.data hne hid fuel [] s.data (by omega)
    simpa [endsWithIdent_nil] using h
  refine ⟨?_, hloop⟩
  unfold replace_word
  by_cases hs : s.data = []
  · rw [if_pos (Or.inr hs), hs, replaceIdentRuns_nil _ _ hne]
  · rw [if_neg (by simp [hne, hs])]
    exact hloop _ (Nat.le_refl _)

theorem replace_word_replaces_whole_identifiers_witness :
    replace_word "texture2DProj(a) + texture2D(b)" "texture2D" "texture" =
      "texture2DProj(a) + texture(b)" ∧
    replace_word "varying vec2 my_varying;" "varying" "varying in" =
      "varying in vec2 my_varying;" :=
  ⟨String.ext ((replace_word_replaces_whole_identifiers "texture2DProj(a) + texture2D(b)"
      "texture2D" "texture" (by decide) (by decide)).1.trans (by decide)),
   String.ext ((replace_word_replaces_whole_identifiers "varying vec2 my_varying;"
      "varying" "varying in" (by decide) (by decide)).1.trans (by decide))⟩

/-! ## The fragment output declaration -/

/-- Claim C30, the code at the failing input: for a fragment shader whose
`#version` directive follows a blank line (accepted by
`has_version_directive`, which skips leading white space) and which uses
`gl_FragColor`, `make_core_compat_glsl` inserts the declaration after the
first newline of the source, that is before the line holding the `#version`
directive.  When the directive is on the first line, or is prepended by the
function, the declaration follows the directive line. -/
theorem fragment_declaration_inserted_before_version_line :
    has_version_directive exampleFragmentSource = true ∧
    (listFind exampleFragmentSource.data "gl_FragColor".data 0).isSome = true ∧
    make_core_compat_glsl GL_FRAGMENT_SHADER exampleFragmentSource =
      "\nlayout(location = 0) out vec4 glmark2_FragColor;\n" ++
      "#version 120\nvoid main() { glmark2_FragColor = vec4(1.0); }\n" ∧
    make_core_compat_glsl GL_FRAGMENT_SHADER
        "#version 120\nvoid main() { gl_FragColor = vec4(1.0); }\n" =
      "#version 120\nlayout(location = 0) out vec4 glmark2_FragColor;\n" ++
      "void main() { glmark2_FragColor = vec4(1.0); }\n" ∧
    make_core_compat_glsl GL_FRAGMENT_SHADER "void main() { gl_FragColor = vec4(1.0); }\n" =
      "#version 330\nlayout(location = 0) out vec4 glmark2_FragColor;\n" ++
      "void main() { glmark2_FragColor = vec4(1.0); }\n" := by
  decide
